import Mathlib

/-!
Verification of the homedesign-ai floor-plan constraint engine and compliance
engine against its natural-language specification.

The TypeScript source is shallowly embedded: JS numbers are modelled as exact
rationals (`ℚ`), arrays as lists, `Map`/`Set` as insertion-ordered association
lists, and optional fields as `Option`.  `Math.floor`/`ceil`/`round` are the
exact integer operations (JS `Math.round` rounds half toward +∞, which is
Mathlib's `round`).  Wall-clock reads (`Date.now`) and `Math.random`, which
feed only report metadata in the source, are modelled as constants.
-/

namespace HomeDesign

/-- JS `Math.floor`, kept inside the numeric type as in the source. -/
def jsFloor (x : ℚ) : ℚ := (⌊x⌋ : ℤ)

/-- JS `Math.ceil`. -/
def jsCeil (x : ℚ) : ℚ := (⌈x⌉ : ℤ)

/-- JS `Math.round` (half toward +∞, exactly Mathlib's `round`). -/
def jsRound (x : ℚ) : ℚ := (round x : ℤ)

/-- `clamp` as written in circulation.ts / envelope.ts:
`Math.min(max, Math.max(min, value))`. -/
def jsClamp (value mn mx : ℚ) : ℚ := min mx (max mn value)

/-- `Number(value.toFixed(2))`: round to two decimal places. -/
def toFixed2 (x : ℚ) : ℚ := (round (x * 100) : ℤ) / 100

-- ── Enums and literals (types.ts) ─────────────────────────────────

inductive Direction | north | south | east | west
deriving DecidableEq, Repr

inductive Zone | social | private' | service | garage | exterior | circulation
deriving DecidableEq, Repr

inductive HomeStyle | modern | traditional | craftsman | farmhouse | contemporary | ranch
deriving DecidableEq, Repr

inductive RoomType
  | primary_bed | bedroom | primary_bath | bathroom | half_bath
  | kitchen | dining | living | family | great_room
  | office | laundry | mudroom | pantry | walk_in_closet
  | garage | front_porch | back_porch | outdoor_living
  | foyer | hallway | stairs | bonus | theater | gym
deriving DecidableEq, Repr

inductive GaragePosition | left | right | rear | nonePos
deriving DecidableEq, Repr

inductive EnvelopeShape | rectangle | lShape | uShape | tShape
deriving DecidableEq, Repr

inductive DoorType | standard | double | sliding | pocket | exteriorDoor
deriving DecidableEq, Repr

inductive WindowType | standard | picture | bay | clerestory
deriving DecidableEq, Repr

-- ── Geometry and data structures (types.ts) ───────────────────────

structure Rect where
  x : ℚ
  y : ℚ
  width : ℚ
  depth : ℚ
deriving DecidableEq, Repr

structure LotConstraints where
  maxWidth : ℚ
  maxDepth : ℚ
  setbackFront : ℚ
  setbackSide : ℚ
  setbackRear : ℚ
  entryFacing : Direction
  garagePosition : Option GaragePosition
deriving DecidableEq, Repr

structure NormalizedRoom where
  id : String
  type : RoomType
  label : String
  targetSqft : ℚ
  minSqft : ℚ
  minWidth : ℚ
  minDepth : ℚ
  targetWidth : ℚ
  targetDepth : ℚ
  needsExteriorWall : Bool
  needsPlumbing : Bool
  zone : Zone
  mustHave : Bool
  adjacentTo : List RoomType
  awayFrom : List RoomType
  floor : Option ℕ
  priority : ℚ
deriving DecidableEq, Repr

structure BriefMetadata where
  impliedRoomIds : List String
  warnings : List String
deriving DecidableEq, Repr

structure NormalizedBrief where
  targetSqft : ℚ
  stories : ℕ
  style : HomeStyle
  rooms : List NormalizedRoom
  lot : LotConstraints
  metadata : BriefMetadata
deriving DecidableEq, Repr

/-- `FloorRects` (`{1: Rect; 2?: Rect}`): field `one` is index 1, `two` index 2. -/
structure FloorRects where
  one : Rect
  two : Option Rect
deriving DecidableEq, Repr

structure BuildingEnvelope where
  shape : EnvelopeShape
  segments : List Rect
  totalSqft : ℚ
  boundingWidth : ℚ
  boundingDepth : ℚ
  streetFacing : Direction
  lot : LotConstraints
  buildableRect : Rect
  footprint : Rect
  floorRects : FloorRects
  targetSqftPerFloor : ℚ
  gridResolution : ℕ
deriving DecidableEq, Repr

/-- `envelope.floorRects[floor]` (undefined off 1/2). -/
def BuildingEnvelope.floorRect (e : BuildingEnvelope) (floor : ℕ) : Option Rect :=
  if floor = 1 then some e.floorRects.one
  else if floor = 2 then e.floorRects.two
  else none

structure ZonedRegion where
  zone : Zone
  rect : Rect
  floor : ℕ
deriving DecidableEq, Repr

structure ZoneAnchor where
  zone : Zone
  floor : ℕ
  x : ℚ
  y : ℚ
deriving DecidableEq, Repr

/-- `ZonedRoom extends NormalizedRoom` with a resolved (non-optional) floor. -/
structure ZonedRoom where
  id : String
  type : RoomType
  label : String
  targetSqft : ℚ
  minSqft : ℚ
  minWidth : ℚ
  minDepth : ℚ
  targetWidth : ℚ
  targetDepth : ℚ
  needsExteriorWall : Bool
  needsPlumbing : Bool
  zone : Zone
  mustHave : Bool
  adjacentTo : List RoomType
  awayFrom : List RoomType
  floor : ℕ
  priority : ℚ
deriving DecidableEq, Repr

structure ZonedPlan where
  brief : NormalizedBrief
  envelope : BuildingEnvelope
  rooms : List ZonedRoom
  zoneRegions : List ZonedRegion
  zoneAnchors : List ZoneAnchor
deriving DecidableEq, Repr

structure ZoningOptions where
  swapSocialPrivate : Bool := false
  rotateEntry : Bool := false
deriving DecidableEq, Repr

structure CandidatePlacement where
  x : ℚ
  y : ℚ
  width : ℚ
  depth : ℚ
  floor : ℕ
  score : ℚ
deriving DecidableEq, Repr

-- ── Zoning (zoning.ts) ────────────────────────────────────────────

def oppositeDirection : Direction → Direction
  | .north => .south
  | .south => .north
  | .east => .west
  | .west => .east

def toFacing (entryFacing : Direction) (rotateEntry : Bool) : Direction :=
  if rotateEntry then oppositeDirection entryFacing else entryFacing

/-- zoning.ts `assignFloor`.  The JS guard `if (room.floor)` tests number
truthiness, i.e. `floor ≠ 0`. -/
def assignFloor (room : ZonedRoom) (stories : ℕ) : ℕ :=
  if stories = 1 then 1
  else if room.floor ≠ 0 then room.floor
  else if room.type = .stairs then 1
  else if room.zone = .private' then 2
  else 1

structure FrontBack where
  front : Rect
  back : Rect
deriving DecidableEq, Repr

def splitFrontBack (rect : Rect) (facing : Direction) : FrontBack :=
  if facing = .north ∨ facing = .south then
    let frontDepth := max 8 (jsFloor (rect.depth * (46/100)))
    let backDepth := max 8 (rect.depth - frontDepth)
    if facing = .north then
      { front := { x := rect.x, y := rect.y, width := rect.width, depth := frontDepth }
        back := { x := rect.x, y := rect.y + frontDepth, width := rect.width, depth := backDepth } }
    else
      { front := { x := rect.x, y := rect.y + (rect.depth - frontDepth), width := rect.width, depth := frontDepth }
        back := { x := rect.x, y := rect.y, width := rect.width, depth := backDepth } }
  else
    let frontWidth := max 8 (jsFloor (rect.width * (46/100)))
    let backWidth := max 8 (rect.width - frontWidth)
    if facing = .west then
      { front := { x := rect.x, y := rect.y, width := frontWidth, depth := rect.depth }
        back := { x := rect.x + frontWidth, y := rect.y, width := backWidth, depth := rect.depth } }
    else
      { front := { x := rect.x + (rect.width - frontWidth), y := rect.y, width := frontWidth, depth := rect.depth }
        back := { x := rect.x, y := rect.y, width := backWidth, depth := rect.depth } }

structure Point where
  x : ℚ
  y : ℚ
deriving DecidableEq, Repr

def centerOf (rect : Rect) : Point :=
  { x := rect.x + rect.width / 2, y := rect.y + rect.depth / 2 }

def buildZoneRegions (rect : Rect) (floor : ℕ) (facing : Direction)
    (swapSocialPrivate : Bool) : List ZonedRegion :=
  let fb := splitFrontBack rect facing
  let socialRect := if swapSocialPrivate then fb.back else fb.front
  let privateRect := if swapSocialPrivate then fb.front else fb.back
  let serviceWidth := max 6 (jsFloor (rect.width * (24/100)))
  let serviceRect : Rect :=
    { x := rect.x + rect.width - serviceWidth, y := rect.y, width := serviceWidth, depth := rect.depth }
  let garageDepth := max 10 (jsFloor (rect.depth * (42/100)))
  let garageRect : Rect :=
    { x := rect.x, y := rect.y, width := max 10 (jsFloor (rect.width * (35/100))), depth := garageDepth }
  let circulationRect : Rect :=
    { x := rect.x + jsFloor (rect.width * (38/100)), y := rect.y
      width := max 4 (jsFloor (rect.width * (16/100))), depth := rect.depth }
  let exteriorStripDepth := max 4 (jsFloor (rect.depth * (12/100)))
  let exteriorRect : Rect :=
    if facing = .north then
      { x := rect.x, y := rect.y, width := rect.width, depth := exteriorStripDepth }
    else if facing = .south then
      { x := rect.x, y := rect.y + rect.depth - exteriorStripDepth, width := rect.width, depth := exteriorStripDepth }
    else if facing = .west then
      { x := rect.x, y := rect.y, width := max 4 (jsFloor (rect.width * (12/100))), depth := rect.depth }
    else
      { x := rect.x + rect.width - max 4 (jsFloor (rect.width * (12/100))), y := rect.y
        width := max 4 (jsFloor (rect.width * (12/100))), depth := rect.depth }
  [ { zone := .social, rect := socialRect, floor },
    { zone := .private', rect := privateRect, floor },
    { zone := .service, rect := serviceRect, floor },
    { zone := .garage, rect := garageRect, floor },
    { zone := .circulation, rect := circulationRect, floor },
    { zone := .exterior, rect := exteriorRect, floor } ]

def anchorsFromRegions (regions : List ZonedRegion) : List ZoneAnchor :=
  regions.map fun region =>
    let c := centerOf region.rect
    { zone := region.zone, floor := region.floor, x := c.x, y := c.y }

/-- `NormalizedRoom` viewed as a `ZonedRoom` with the given floor value
(the `{ ...room, floor: room.floor ?? 1 }` spread in `assignZones`). -/
def NormalizedRoom.withFloor (room : NormalizedRoom) (floor : ℕ) : ZonedRoom :=
  { id := room.id, type := room.type, label := room.label,
    targetSqft := room.targetSqft, minSqft := room.minSqft,
    minWidth := room.minWidth, minDepth := room.minDepth,
    targetWidth := room.targetWidth, targetDepth := room.targetDepth,
    needsExteriorWall := room.needsExteriorWall, needsPlumbing := room.needsPlumbing,
    zone := room.zone, mustHave := room.mustHave,
    adjacentTo := room.adjacentTo, awayFrom := room.awayFrom,
    floor := floor, priority := room.priority }

/-- zoning.ts `assignZones`.  Note the call site passes
`{ ...room, floor: room.floor ?? 1 }` into `assignFloor`. -/
def assignZones (brief : NormalizedBrief) (envelope : BuildingEnvelope)
    (options : ZoningOptions := {}) : ZonedPlan :=
  let facing := toFacing brief.lot.entryFacing options.rotateEntry
  let floor1Rect := envelope.floorRects.one
  let floor2Rect := envelope.floorRects.two
  let swap := options.swapSocialPrivate
  let zoneRegions :=
    buildZoneRegions floor1Rect 1 facing swap ++
      (match floor2Rect with
        | some r => buildZoneRegions r 2 facing swap
        | none => [])
  let rooms : List ZonedRoom := brief.rooms.map fun room =>
    let assignedFloor := assignFloor (room.withFloor (room.floor.getD 1)) brief.stories
    room.withFloor assignedFloor
  let zoneAnchors := anchorsFromRegions zoneRegions
  { brief, envelope, rooms, zoneRegions, zoneAnchors }

-- ── Constants (constants.ts) ──────────────────────────────────────

structure RoomDefaults where
  minSqft : ℚ
  targetSqft : ℚ
  minWidth : ℚ
  minDepth : ℚ
  needsExteriorWall : Bool
  needsPlumbing : Bool
  zone : Zone
deriving DecidableEq, Repr

open RoomType in
/-- constants.ts `ROOM_DEFAULTS` (a record keyed by room type). -/
def ROOM_DEFAULTS : RoomType → RoomDefaults
  | primary_bed =>    ⟨180, 250, 12, 14, true,  false, .private'⟩
  | bedroom =>        ⟨100, 140, 10, 10, true,  false, .private'⟩
  | primary_bath =>   ⟨60,  100, 8,  8,  false, true,  .private'⟩
  | bathroom =>       ⟨35,  50,  5,  7,  false, true,  .private'⟩
  | half_bath =>      ⟨18,  25,  3,  6,  false, true,  .service⟩
  | kitchen =>        ⟨100, 180, 10, 10, true,  true,  .social⟩
  | dining =>         ⟨100, 150, 10, 10, true,  false, .social⟩
  | living =>         ⟨150, 250, 12, 14, true,  false, .social⟩
  | family =>         ⟨150, 250, 12, 14, true,  false, .social⟩
  | great_room =>     ⟨250, 400, 16, 18, true,  false, .social⟩
  | office =>         ⟨80,  120, 8,  10, true,  false, .private'⟩
  | laundry =>        ⟨30,  50,  5,  6,  false, true,  .service⟩
  | mudroom =>        ⟨30,  50,  5,  6,  true,  false, .service⟩
  | pantry =>         ⟨16,  30,  4,  4,  false, false, .service⟩
  | walk_in_closet => ⟨25,  50,  5,  5,  false, false, .private'⟩
  | garage =>         ⟨400, 576, 20, 20, true,  false, .garage⟩
  | front_porch =>    ⟨40,  80,  8,  5,  true,  false, .exterior⟩
  | back_porch =>     ⟨60,  120, 10, 6,  true,  false, .exterior⟩
  | outdoor_living => ⟨100, 200, 10, 10, true,  false, .exterior⟩
  | foyer =>          ⟨25,  50,  5,  5,  true,  false, .social⟩
  | hallway =>        ⟨20,  40,  3,  6,  false, false, .circulation⟩
  | stairs =>         ⟨30,  40,  3,  10, false, false, .circulation⟩
  | bonus =>          ⟨100, 200, 10, 10, true,  false, .private'⟩
  | theater =>        ⟨150, 250, 12, 14, false, false, .private'⟩
  | gym =>            ⟨100, 150, 10, 10, false, false, .private'⟩

open RoomType in
/-- constants.ts `HARD_ADJACENCY`. -/
def HARD_ADJACENCY : List (RoomType × RoomType) :=
  [ (primary_bed, primary_bath), (primary_bed, walk_in_closet), (kitchen, dining),
    (foyer, living), (mudroom, garage), (pantry, kitchen) ]

open RoomType in
/-- constants.ts `SOFT_ADJACENCY` (pairs with positive weights). -/
def SOFT_ADJACENCY : List (RoomType × RoomType × ℚ) :=
  [ (kitchen, living, 5), (kitchen, family, 5), (kitchen, outdoor_living, 4),
    (dining, living, 4), (living, front_porch, 3), (family, back_porch, 3),
    (laundry, primary_bed, 3), (laundry, garage, 2), (office, foyer, 2) ]

open RoomType in
/-- constants.ts `ANTI_ADJACENCY` (pairs with negative weights). -/
def ANTI_ADJACENCY : List (RoomType × RoomType × ℚ) :=
  [ (primary_bed, garage, -8), (bedroom, garage, -6), (primary_bed, kitchen, -5),
    (bedroom, kitchen, -4), (office, kitchen, -3), (theater, kitchen, -4),
    (primary_bed, laundry, -3) ]

/-- constants.ts `ZONE_PRIORITY`. -/
def ZONE_PRIORITY : Zone → ℚ
  | .garage => 100
  | .social => 80
  | .private' => 60
  | .service => 40
  | .circulation => 20
  | .exterior => 10

structure WindowConfig where
  count : ℕ
  width : ℚ
  height : ℚ
  sillHeight : ℚ
deriving DecidableEq, Repr

open RoomType in
/-- constants.ts `WINDOW_RULES` (partial record). -/
def WINDOW_RULES : RoomType → Option WindowConfig
  | primary_bed =>  some ⟨2, 4, 5, 3⟩
  | bedroom =>      some ⟨1, 3, 4, 3⟩
  | living =>       some ⟨2, 5, 5, 2⟩
  | family =>       some ⟨2, 5, 5, 2⟩
  | great_room =>   some ⟨3, 5, 6, 2⟩
  | kitchen =>      some ⟨1, 4, 3, 7/2⟩
  | dining =>       some ⟨1, 4, 5, 5/2⟩
  | office =>       some ⟨1, 3, 4, 3⟩
  | primary_bath => some ⟨1, 2, 2, 5⟩
  | bathroom =>     some ⟨1, 2, 2, 5⟩
  | _ => none

/-- The literal name of a room type (used in generated ids and labels). -/
def RoomType.name : RoomType → String
  | .primary_bed => "primary_bed" | .bedroom => "bedroom"
  | .primary_bath => "primary_bath" | .bathroom => "bathroom"
  | .half_bath => "half_bath" | .kitchen => "kitchen" | .dining => "dining"
  | .living => "living" | .family => "family" | .great_room => "great_room"
  | .office => "office" | .laundry => "laundry" | .mudroom => "mudroom"
  | .pantry => "pantry" | .walk_in_closet => "walk_in_closet"
  | .garage => "garage" | .front_porch => "front_porch"
  | .back_porch => "back_porch" | .outdoor_living => "outdoor_living"
  | .foyer => "foyer" | .hallway => "hallway" | .stairs => "stairs"
  | .bonus => "bonus" | .theater => "theater" | .gym => "gym"

open RoomType in
/-- constants.ts `DEFAULT_LABELS` (covers every room type). -/
def DEFAULT_LABELS : RoomType → Option String
  | primary_bed => some "Primary Bedroom" | bedroom => some "Bedroom"
  | primary_bath => some "Primary Bath" | bathroom => some "Bathroom"
  | half_bath => some "Half Bath" | kitchen => some "Kitchen"
  | dining => some "Dining Room" | living => some "Living Room"
  | family => some "Family Room" | great_room => some "Great Room"
  | office => some "Office" | laundry => some "Laundry" | mudroom => some "Mudroom"
  | pantry => some "Pantry" | walk_in_closet => some "Walk-in Closet"
  | garage => some "Garage" | front_porch => some "Front Porch"
  | back_porch => some "Back Porch" | outdoor_living => some "Outdoor Living"
  | foyer => some "Foyer" | hallway => some "Hallway" | stairs => some "Stairs"
  | bonus => some "Bonus Room" | theater => some "Theater" | gym => some "Gym"

-- ── Normalizer (normalize.ts) ─────────────────────────────────────

structure RoomRequirement where
  type : RoomType
  label : String
  minSqft : Option ℚ
  targetSqft : Option ℚ
  mustHave : Bool
  adjacentTo : Option (List RoomType)
  awayFrom : Option (List RoomType)
  needsExteriorWall : Option Bool
  needsPlumbing : Option Bool
  floor : Option ℕ
deriving DecidableEq, Repr

structure DesignBrief where
  targetSqft : ℚ
  stories : ℕ
  style : HomeStyle
  rooms : List RoomRequirement
  lot : Option LotConstraints
deriving DecidableEq, Repr

/-- normalize.ts `DEFAULT_LOT`. -/
def DEFAULT_LOT : LotConstraints :=
  { maxWidth := 120, maxDepth := 120, setbackFront := 20, setbackSide := 6,
    setbackRear := 20, entryFacing := .south, garagePosition := some .nonePos }

/-- `Array.from(new Set(values))`: deduplicate keeping first occurrences. -/
def uniqList {α : Type} [DecidableEq α] (values : List α) : List α :=
  values.foldl (fun acc v => if v ∈ acc then acc else acc ++ [v]) []

/-- `Math.round(Math.sqrt(x))` modelled exactly over rationals: for `x ≥ 0`
this is the natural number nearest to the real square root of `x`, rounding
half up (`(2n-1)² ≤ 4x < (2n+1)²`).  The source computes it in floating
point; the exact-real value is used here. -/
def roundSqrt (x : ℚ) : ℚ := (((Nat.sqrt (Int.toNat ⌊4 * x⌋) + 1) / 2 : ℕ) : ℚ)

structure Dims where
  width : ℚ
  depth : ℚ
deriving DecidableEq, Repr

/-- normalize.ts `computeDims`. -/
def computeDims (targetSqft minWidth minDepth : ℚ) : Dims :=
  let width := max minWidth (roundSqrt targetSqft)
  let depth := max minDepth (jsCeil (targetSqft / width))
  if width * depth < targetSqft then
    { width := max width (jsCeil (targetSqft / depth)), depth }
  else
    { width, depth }

/-- normalize.ts `cloneLot`. -/
def cloneLot (briefLot : Option LotConstraints) : LotConstraints :=
  match briefLot with
  | none => DEFAULT_LOT
  | some lot =>
    { maxWidth := max lot.maxWidth 20, maxDepth := max lot.maxDepth 20,
      setbackFront := max lot.setbackFront 0, setbackSide := max lot.setbackSide 0,
      setbackRear := max lot.setbackRear 0,
      entryFacing := lot.entryFacing,
      garagePosition := some (lot.garagePosition.getD .nonePos) }

/-- normalize.ts `roomLabel` (`fallback.trim() || DEFAULT_LABELS[type] || type`). -/
def roomLabel (type : RoomType) (fallback : String) : String :=
  if fallback.trim ≠ "" then fallback.trim
  else ((DEFAULT_LABELS type).getD type.name)

/-- One step of normalize.ts `toNormalizedRooms`'s `map` body; `count` is the
per-type counter after increment (the ordinal). -/
def toNormalizedRoom (room : RoomRequirement) (ordinal : ℕ) (stories : ℕ) : NormalizedRoom :=
  let defaults := ROOM_DEFAULTS room.type
  let baseMinSqft := room.minSqft.getD defaults.minSqft
  let baseTargetSqft := room.targetSqft.getD defaults.targetSqft
  let minSqft := max 1 (jsRound baseMinSqft)
  let targetSqft := max minSqft (jsRound baseTargetSqft)
  let dims := computeDims targetSqft defaults.minWidth defaults.minDepth
  let hardAdjacency := (HARD_ADJACENCY.filter fun p => p.1 = room.type ∨ p.2 = room.type).map
    fun p => if p.1 = room.type then p.2 else p.1
  let antiAdjacency := (ANTI_ADJACENCY.filter fun p => p.1 = room.type ∨ p.2.1 = room.type).map
    fun p => if p.1 = room.type then p.2.1 else p.1
  let adjacentTo := uniqList ((room.adjacentTo.getD [] ++ hardAdjacency).filter (· ≠ room.type))
  let awayFrom := uniqList ((room.awayFrom.getD [] ++ antiAdjacency).filter (· ≠ room.type))
  let cleanedAwayFrom := awayFrom.filter (· ∉ adjacentTo)
  let floor := if stories = 1 then some 1 else room.floor
  { id := room.type.name ++ "-" ++ toString ordinal,
    type := room.type,
    label := roomLabel room.type room.label,
    targetSqft, minSqft,
    minWidth := defaults.minWidth, minDepth := defaults.minDepth,
    targetWidth := dims.width, targetDepth := dims.depth,
    needsExteriorWall := room.needsExteriorWall.getD defaults.needsExteriorWall,
    needsPlumbing := room.needsPlumbing.getD defaults.needsPlumbing,
    zone := defaults.zone,
    mustHave := room.mustHave,
    adjacentTo, awayFrom := cleanedAwayFrom, floor,
    priority := targetSqft + (if room.mustHave then 120 else 0) + ZONE_PRIORITY defaults.zone }

/-- normalize.ts `toNormalizedRooms` (the per-type ordinal counter threaded
through the map). -/
def toNormalizedRooms (brief : DesignBrief) : List NormalizedRoom :=
  (brief.rooms.foldl
    (fun (st : (RoomType → ℕ) × List NormalizedRoom) room =>
      let counts := st.1
      let ordinal := counts room.type + 1
      (fun t => if t = room.type then ordinal else counts t,
       st.2 ++ [toNormalizedRoom room ordinal brief.stories]))
    (fun _ => 0, [])).2

structure ImplicitRoomOptions where
  mustHave : Option Bool := none
  floor : Option ℕ := none
  adjacentTo : Option (List RoomType) := none
  targetSqft : Option ℚ := none
  minSqft : Option ℚ := none
  priorityBoost : Option ℚ := none
deriving DecidableEq, Repr

/-- normalize.ts `addImplicitRoom` (returns the extended room list and the
id that was pushed onto `impliedRoomIds`). -/
def addImplicitRoom (rooms : List NormalizedRoom) (type : RoomType)
    (options : ImplicitRoomOptions) : List NormalizedRoom × String :=
  let existingCount := (rooms.filter (·.type = type)).length
  let defaults := ROOM_DEFAULTS type
  let targetSqft := max (options.minSqft.getD defaults.minSqft) (options.targetSqft.getD defaults.targetSqft)
  let minSqft := max defaults.minSqft (options.minSqft.getD defaults.minSqft)
  let dims := computeDims targetSqft defaults.minWidth defaults.minDepth
  let id := type.name ++ "-" ++ toString (existingCount + 1)
  let room : NormalizedRoom :=
    { id, type,
      label := (DEFAULT_LABELS type).getD type.name,
      targetSqft, minSqft,
      minWidth := defaults.minWidth, minDepth := defaults.minDepth,
      targetWidth := dims.width, targetDepth := dims.depth,
      needsExteriorWall := defaults.needsExteriorWall,
      needsPlumbing := defaults.needsPlumbing,
      zone := defaults.zone,
      mustHave := options.mustHave.getD true,
      adjacentTo := uniqList (options.adjacentTo.getD []),
      awayFrom := [],
      floor := options.floor,
      priority := targetSqft + ZONE_PRIORITY defaults.zone + options.priorityBoost.getD 40 }
  (rooms ++ [room], id)

/-- normalize.ts `addImplicitRooms` (returns extended rooms and implied ids). -/
def addImplicitRooms (brief : DesignBrief) (rooms0 : List NormalizedRoom) :
    List NormalizedRoom × List String :=
  let hasRoom := fun (rooms : List NormalizedRoom) (type : RoomType) =>
    rooms.any (·.type = type)
  let st0 : List NormalizedRoom × List String := (rooms0, [])
  let st1 :=
    if hasRoom st0.1 .foyer then st0
    else
      let r := addImplicitRoom st0.1 .foyer
        { mustHave := some true, floor := some 1,
          adjacentTo := some [.living, .family, .great_room], priorityBoost := some 60 }
      (r.1, st0.2 ++ [r.2])
  let st2 :=
    if hasRoom st1.1 .hallway then st1
    else
      let r := addImplicitRoom st1.1 .hallway
        { mustHave := some true, floor := some 1, adjacentTo := some [.foyer],
          targetSqft := some 36, priorityBoost := some 70 }
      (r.1, st1.2 ++ [r.2])
  let primaryBedrooms := (st2.1.filter (·.type = .primary_bed)).length
  let walkInClosets := (st2.1.filter (·.type = .walk_in_closet)).length
  let st3 :=
    (List.range (primaryBedrooms - walkInClosets)).foldl
      (fun st _ =>
        let r := addImplicitRoom st.1 .walk_in_closet
          { mustHave := some true, adjacentTo := some [.primary_bed],
            floor := (st.1.find? (·.type = .primary_bed)).bind (·.floor),
            targetSqft := some 42 }
        (r.1, st.2 ++ [r.2]))
      st2
  if brief.stories = 2 ∧ ¬ hasRoom st3.1 .stairs then
    let r := addImplicitRoom st3.1 .stairs
      { mustHave := some true, floor := some 1, adjacentTo := some [.hallway],
        targetSqft := some 40, priorityBoost := some 80 }
    (r.1, st3.2 ++ [r.2])
  else st3

/-- normalize.ts `scaleRoomsToTargetSqft` (pure rendering of the in-place
mutation; returns the updated rooms and warnings). -/
def scaleRoomsToTargetSqft (targetSqft : ℚ) (rooms : List NormalizedRoom)
    (warnings : List String) : List NormalizedRoom × List String :=
  let totalSqft := (rooms.map (·.targetSqft)).sum
  if totalSqft ≤ 0 then (rooms, warnings)
  else
    let minTotalSqft := (rooms.map (·.minSqft)).sum
    if minTotalSqft > targetSqft then
      let rooms' := rooms.map fun room =>
        let dims := computeDims room.minSqft room.minWidth room.minDepth
        { room with targetSqft := room.minSqft, targetWidth := dims.width, targetDepth := dims.depth }
      (rooms', warnings ++
        ["Requested targetSqft is below required minimum; rooms retained at minimum sizes."])
    else
      let scale := targetSqft / totalSqft
      if |1 - scale| < 1/100 then (rooms, warnings)
      else
        let rooms' := rooms.map fun room =>
          let scaled := jsRound (room.targetSqft * scale)
          let newTarget := max room.minSqft scaled
          let dims := computeDims newTarget room.minWidth room.minDepth
          { room with
            targetSqft := newTarget, targetWidth := dims.width, targetDepth := dims.depth
            priority := newTarget + (if room.mustHave then 120 else 0) + ZONE_PRIORITY room.zone }
        (rooms', warnings)

/-- Inner mutation of normalize.ts `resolveBidirectionalConflicts`: for each
(non-self) adjacency target of `room`, every room of that type gains the
reciprocal adjacency and drops `room.type` from its away-list. -/
def rbcPropagate (roomType : RoomType) (targets : List RoomType)
    (state : List NormalizedRoom) : List NormalizedRoom :=
  targets.foldl
    (fun st target =>
      st.map fun r =>
        if r.type = target then
          { r with
            adjacentTo := if roomType ∈ r.adjacentTo then r.adjacentTo else r.adjacentTo ++ [roomType],
            awayFrom := r.awayFrom.filter (· ≠ roomType) }
        else r)
    state

/-- normalize.ts `resolveBidirectionalConflicts` (sequential in-place pass
over the room list, rendered as an indexed fold). -/
def resolveBidirectionalConflicts (rooms : List NormalizedRoom) : List NormalizedRoom :=
  (List.range rooms.length).foldl
    (fun state i =>
      match state.get? i with
      | none => state
      | some room =>
        let targets := room.adjacentTo.filter (· ≠ room.type)
        let state1 := rbcPropagate room.type targets state
        let newAdjacent := uniqList targets
        let newAway := uniqList ((room.awayFrom.filter
          (fun t => t ≠ room.type ∧ t ∉ newAdjacent)))
        state1.set i { room with adjacentTo := newAdjacent, awayFrom := newAway })
    rooms

/-- normalize.ts `ensureValidFloors`. -/
def ensureValidFloors (stories : ℕ) (rooms : List NormalizedRoom)
    (warnings : List String) : List NormalizedRoom × List String :=
  rooms.foldl
    (fun st room =>
      if stories = 1 then (st.1 ++ [{ room with floor := some 1 }], st.2)
      else
        match room.floor with
        | some f =>
          if f ≠ 1 ∧ f ≠ 2 then
            (st.1 ++ [{ room with floor := none }],
             st.2 ++ ["Room " ++ room.id ++ " had invalid floor assignment; floor preference removed."])
          else (st.1 ++ [room], st.2)
        | none => (st.1 ++ [room], st.2))
    ([], warnings)

/-- normalize.ts `normalizeDesignBrief`. -/
def normalizeDesignBrief (brief : DesignBrief) : NormalizedBrief :=
  let lot := cloneLot brief.lot
  let rooms0 := toNormalizedRooms brief
  let (rooms1, impliedRoomIds) := addImplicitRooms brief rooms0
  let rooms2 := resolveBidirectionalConflicts rooms1
  let (rooms3, warnings1) := ensureValidFloors brief.stories rooms2 []
  let (rooms4, warnings2) := scaleRoomsToTargetSqft brief.targetSqft rooms3 warnings1
  { targetSqft := max brief.targetSqft 1,
    stories := brief.stories,
    style := brief.style,
    lot, rooms := rooms4,
    metadata := { impliedRoomIds, warnings := warnings2 } }

-- ── Placed-plan data structures (types.ts) ────────────────────────

structure PlacedRoom where
  id : String
  type : RoomType
  label : String
  x : ℚ
  y : ℚ
  width : ℚ
  depth : ℚ
  floor : ℕ
  sqft : ℚ
  zone : Zone
  rotation : ℕ
  adjacentRoomIds : List String
  exteriorWalls : List Direction
  hasPlumbing : Bool
  targetSqft : Option ℚ := none
  minSqft : Option ℚ := none
  needsExteriorWall : Option Bool := none
  needsPlumbing : Option Bool := none
deriving DecidableEq, Repr

structure Door where
  id : String
  wallId : String
  position : ℚ
  width : ℚ
  type : DoorType
  connectsRooms : String × String
deriving DecidableEq, Repr

structure WindowPlacement where
  id : String
  wallId : String
  position : ℚ
  width : ℚ
  height : ℚ
  sillHeight : ℚ
  type : WindowType
  roomId : Option String := none
  floor : Option ℕ := none
  wallDirection : Option Direction := none
deriving DecidableEq, Repr

structure CirculationResult where
  isFullyConnected : Bool
  deadEnds : List String
  mainPath : List String
  hallwayPercent : ℚ
  doors : List Door
deriving DecidableEq, Repr

structure PlanMetadata where
  strategy : String
  warnings : List String
deriving DecidableEq, Repr

structure PlacedPlan where
  brief : NormalizedBrief
  envelope : BuildingEnvelope
  rooms : List PlacedRoom
  doors : List Door
  windows : List WindowPlacement
  circulation : CirculationResult
  unplacedRoomIds : List String
  metadata : PlanMetadata
deriving DecidableEq, Repr

structure Wall where
  id : String
  x1 : ℚ
  y1 : ℚ
  x2 : ℚ
  y2 : ℚ
  isExterior : Bool
  isLoadBearing : Bool
  thickness : ℚ
deriving DecidableEq, Repr

structure SharedWall where
  id : String
  roomAId : String
  roomBId : String
  length : ℚ
  orientation : Bool
deriving DecidableEq, Repr

structure WallAnalysis where
  walls : List Wall
  sharedWalls : List SharedWall
  wetWalls : List SharedWall
  totalExteriorLength : ℚ
  totalInteriorLength : ℚ
  plumbingGroups : List (List String)
deriving DecidableEq, Repr

structure PlanScore where
  overall : ℚ
  adjacencySatisfaction : ℚ
  zoneCohesion : ℚ
  naturalLight : ℚ
  plumbingEfficiency : ℚ
  circulationQuality : ℚ
  spaceUtilization : ℚ
  privacyGradient : ℚ
  overallBuildability : ℚ
  adjacencyScore : ℚ
  circulation : ℚ
  privacy : ℚ
  buildability : ℚ
  sqftAccuracy : ℚ
deriving DecidableEq, Repr

def Direction.name : Direction → String
  | .north => "north" | .south => "south" | .east => "east" | .west => "west"

-- ── Window assignment (windows.ts) ────────────────────────────────

/-- windows.ts `wallLength`. -/
def wallLength (room : PlacedRoom) (wall : Direction) : ℚ :=
  if wall = .north ∨ wall = .south then room.width else room.depth

/-- windows.ts `inferWindowConfig`. -/
def inferWindowConfig (room : PlacedRoom) : WindowConfig :=
  match WINDOW_RULES room.type with
  | some preset => preset
  | none =>
    let sizeCount : ℕ := if room.sqft ≥ 260 then 3 else if room.sqft ≥ 140 then 2 else 1
    let zoneBoost : ℕ := if room.zone = .social then 1 else 0
    { count := max 1 (min 4 (sizeCount + zoneBoost)),
      width := if room.zone = .social then 4 else 3,
      height := if room.zone = .social then 5 else 4,
      sillHeight := if room.zone = .private' then 3 else 5/2 }

/-- windows.ts `chooseWindowType`. -/
def chooseWindowType (room : PlacedRoom) : WindowType :=
  if room.type = .primary_bath ∨ room.type = .bathroom ∨ room.type = .half_bath then .clerestory
  else if room.zone = .social ∧ room.sqft ≥ 220 then .picture
  else if room.zone = .social ∧ room.sqft ≥ 160 then .bay
  else .standard

/-- windows.ts `sortedWallsByLength`: stable sort, longest wall first.
JS `Array.prototype.sort` is stable, and a stable sort by a total preorder
is unique, so the stable `List.insertionSort` models it. -/
def sortedWallsByLength (room : PlacedRoom) : List Direction :=
  room.exteriorWalls.insertionSort (fun a b => wallLength room b ≤ wallLength room a)

/-- windows.ts `windowPosition`. -/
def windowPosition (index total : ℕ) (availableWallLength : ℚ) : ℚ :=
  let slotWidth := availableWallLength / (total + 1)
  toFixed2 (slotWidth * (index + 1))

/-- windows.ts: the target window count for a room (`config.count` adjusted
by `needsExteriorWall` and the zero-window room kinds). -/
def windowTargetCount (room : PlacedRoom) : ℕ :=
  let config := inferWindowConfig room
  let t1 := if room.needsExteriorWall.getD false then max 1 config.count else config.count
  if room.zone = .exterior ∨ room.type = .garage ∨ room.type = .hallway then 0 else t1

/-- windows.ts: the windows generated for one room, given the running
window-id counter. -/
def windowsForRoom (room : PlacedRoom) (counter : ℕ) : List WindowPlacement :=
  let config := inferWindowConfig room
  let walls := sortedWallsByLength room
  let targetCount := windowTargetCount room
  if targetCount = 0 ∨ walls = [] then []
  else
    (List.range targetCount).map fun index =>
      let wall := walls.getD (index % walls.length) .north
      let length := wallLength room wall
      { id := "window-" ++ toString (counter + index),
        wallId := room.id ++ "-" ++ wall.name ++ "-wall",
        position := windowPosition index targetCount (max 2 length),
        width := max (3/2) (min config.width (max (3/2) (length - 2))),
        height := config.height,
        sillHeight := config.sillHeight,
        type := chooseWindowType room,
        roomId := some room.id,
        floor := some room.floor,
        wallDirection := some wall }

/-- windows.ts `assignWindows`. -/
def assignWindows (plan : PlacedPlan) : PlacedPlan :=
  let st := plan.rooms.foldl
    (fun (st : List WindowPlacement × List String × ℕ) room =>
      let (ws, warns, counter) := st
      let walls := sortedWallsByLength room
      let targetCount := windowTargetCount room
      if targetCount = 0 then (ws, warns, counter)
      else if walls = [] then
        if room.needsExteriorWall.getD false then
          (ws, warns ++ ["Room " ++ room.id ++
            " needs exterior wall access but has no exterior-facing walls for windows."], counter)
        else (ws, warns, counter)
      else
        (ws ++ windowsForRoom room counter, warns, counter + targetCount))
    ([], plan.metadata.warnings, 1)
  { plan with windows := st.1, metadata := { plan.metadata with warnings := st.2.1 } }

-- ── Scoring (scoring.ts) ──────────────────────────────────────────

/-- scoring.ts `clampScore` (`Math.max(0, Math.min(100, Number(value.toFixed(2))))`). -/
def clampScore (value : ℚ) : ℚ := max 0 (min 100 (toFixed2 value))

def roomCenter (room : PlacedRoom) : Point :=
  { x := room.x + room.width / 2, y := room.y + room.depth / 2 }

/-- Manhattan distance between room centers (scoring.ts / placement.ts / circulation.ts). -/
def manhattanRooms (a b : PlacedRoom) : ℚ :=
  |((roomCenter a).x - (roomCenter b).x)| + |((roomCenter a).y - (roomCenter b).y)|

/-- `Math.hypot`, modelled with Mathlib's rational square root.  The
floating-point value in the source differs from this by rounding only;
no theorem below depends on its rounding. -/
def jsHypot (w d : ℚ) : ℚ := Rat.sqrt (w * w + d * d)

def typeRooms (plan : PlacedPlan) (type : RoomType) : List PlacedRoom :=
  plan.rooms.filter (·.type = type)

/-- scoring.ts `anyRoomsAdjacent`. -/
def anyRoomsAdjacent (roomsA roomsB : List PlacedRoom) : Bool :=
  if roomsA = [] ∨ roomsB = [] then false
  else
    let roomBIds := roomsB.map (·.id)
    roomsA.any fun room => room.adjacentRoomIds.any (· ∈ roomBIds)

/-- scoring.ts `scoreAdjacency`. -/
def scoreAdjacency (plan : PlacedPlan) : ℚ :=
  let hard := HARD_ADJACENCY.foldl
    (fun (st : ℚ × ℚ) p =>
      let roomsA := typeRooms plan p.1
      let roomsB := typeRooms plan p.2
      if roomsA = [] ∨ roomsB = [] then st
      else (st.1 + 1, if anyRoomsAdjacent roomsA roomsB then st.2 + 1 else st.2))
    (0, 0)
  let soft := SOFT_ADJACENCY.foldl
    (fun (st : ℚ × ℚ) p =>
      let roomsA := typeRooms plan p.1
      let roomsB := typeRooms plan p.2.1
      if roomsA = [] ∨ roomsB = [] then st
      else (st.1 + p.2.2, if anyRoomsAdjacent roomsA roomsB then st.2 + p.2.2 else st.2))
    (0, 0)
  let anti := ANTI_ADJACENCY.foldl
    (fun (st : ℚ × ℚ) p =>
      let roomsA := typeRooms plan p.1
      let roomsB := typeRooms plan p.2.1
      if roomsA = [] ∨ roomsB = [] then st
      else
        let weight := |p.2.2|
        (st.1 + weight, if anyRoomsAdjacent roomsA roomsB then st.2 + weight else st.2))
    (0, 0)
  let hardScore := if hard.1 > 0 then hard.2 / hard.1 * 100 else 100
  let softScore := if soft.1 > 0 then soft.2 / soft.1 * 100 else 100
  let antiScore := if anti.1 > 0 then 100 - anti.2 / anti.1 * 100 else 100
  clampScore (hardScore * (1/2) + softScore * (3/10) + antiScore * (1/5))

/-- All unordered pairs of a list, in nested-loop (`i < j`) order. -/
def allPairs {α : Type} : List α → List (α × α)
  | [] => []
  | x :: xs => xs.map (fun y => (x, y)) ++ allPairs xs

/-- scoring.ts `scoreZoneCohesion`. -/
def scoreZoneCohesion (plan : PlacedPlan) : ℚ :=
  let zones : List Zone := [.social, .private', .service, .garage, .circulation, .exterior]
  let h := jsHypot plan.envelope.footprint.width plan.envelope.footprint.depth
  let diagonal := if h = 0 then 1 else h
  let st := zones.foldl
    (fun (st : ℚ × ℚ) zone =>
      let rooms := plan.rooms.filter (·.zone = zone)
      if rooms.length ≤ 1 then st
      else
        let pairs := allPairs rooms
        let pairDistance := (pairs.map fun p => manhattanRooms p.1 p.2).sum
        let pairCount : ℚ := pairs.length
        let averageDistance := if pairCount > 0 then pairDistance / pairCount else 0
        let zoneScore := clampScore (100 - averageDistance / diagonal * 100)
        (st.1 + zoneScore * rooms.length, st.2 + rooms.length))
    (0, 0)
  if st.2 > 0 then clampScore (st.1 / st.2) else 100

/-- scoring.ts `scoreNaturalLight`'s `windowsByRoom` lookup (`Map` of counts;
windows with a missing or empty `roomId` are skipped). -/
def windowCountForRoom (plan : PlacedPlan) (rid : String) : ℕ :=
  (plan.windows.filter fun w =>
    match w.roomId with
    | some s => s ≠ "" ∧ s = rid
    | none => false).length

/-- scoring.ts `scoreNaturalLight`. -/
def scoreNaturalLight (plan : PlacedPlan) : ℚ :=
  let st := plan.rooms.foldl
    (fun (st : ℚ × ℚ) room =>
      if room.zone = .exterior ∨ room.type = .garage ∨ room.type = .hallway then st
      else
        let base : ℚ := 40
        let s1 := if room.exteriorWalls.length > 0 then base + 25 else base
        let windowCount := windowCountForRoom plan room.id
        let s2 := s1 + min 35 ((windowCount : ℚ) * 12)
        let s3 := if room.needsExteriorWall.getD false ∧ room.exteriorWalls.length = 0 then s2 - 45 else s2
        let s4 := if room.needsExteriorWall.getD false ∧ windowCount = 0 then s3 - 30 else s3
        (st.1 + clampScore s4, st.2 + 1))
    (0, 0)
  if st.2 > 0 then clampScore (st.1 / st.2) else 100

/-- scoring.ts `scorePlumbingEfficiency`. -/
def scorePlumbingEfficiency (plan : PlacedPlan) (walls : WallAnalysis) : ℚ :=
  let plumbingRooms := plan.rooms.filter (·.hasPlumbing)
  if plumbingRooms.length ≤ 1 then 100
  else
    let h := jsHypot plan.envelope.footprint.width plan.envelope.footprint.depth
    let diagonal := if h = 0 then 1 else h
    let pairs := allPairs plumbingRooms
    let totalDistance := (pairs.map fun p => manhattanRooms p.1 p.2).sum
    let pairCount : ℚ := pairs.length
    let avgDistance := if pairCount > 0 then totalDistance / pairCount else diagonal
    let normalizedDistance := clampScore (100 - avgDistance / diagonal * 100)
    let wetWallLength := (walls.wetWalls.map (·.length)).sum
    let targetWetWallLength : ℚ := plumbingRooms.length * 6
    let wetWallScore := clampScore (wetWallLength / max targetWetWallLength 1 * 100)
    clampScore (normalizedDistance * (65/100) + wetWallScore * (35/100))

/-- scoring.ts `scoreCirculation`. -/
def scoreCirculation (plan : PlacedPlan) : ℚ :=
  let base : ℚ := if plan.circulation.isFullyConnected then 82 else 35
  let s1 := base - (plan.circulation.deadEnds.length : ℚ) * 4
  let hallwayPenalty := |plan.circulation.hallwayPercent - 12| * (9/5)
  let s2 := s1 - hallwayPenalty
  let s3 := if plan.circulation.mainPath.length ≥ 4 then s2 + 8 else s2
  clampScore s3

/-- scoring.ts `scoreSpaceUtilization`. -/
def scoreSpaceUtilization (plan : PlacedPlan) : ℚ :=
  let usedSqft := (plan.rooms.map (·.sqft)).sum
  let availableSqft := plan.envelope.footprint.width * plan.envelope.footprint.depth * plan.brief.stories
  if availableSqft ≤ 0 then 0
  else clampScore (100 - |usedSqft / availableSqft - 82/100| * 220)

/-- scoring.ts `scorePrivacyGradient`. -/
def scorePrivacyGradient (plan : PlacedPlan) : ℚ :=
  let entryRoom? :=
    (plan.rooms.find? (·.type = .foyer)).orElse fun _ =>
      (plan.rooms.find? (·.zone = .social)).orElse fun _ => plan.rooms.head?
  match entryRoom? with
  | none => 0
  | some entryRoom =>
    let socialRooms := plan.rooms.filter (·.zone = .social)
    let privateRooms := plan.rooms.filter (·.zone = .private')
    if socialRooms = [] ∨ privateRooms = [] then 70
    else
      let avgSocial := (socialRooms.map (manhattanRooms entryRoom ·)).sum / max (socialRooms.length : ℚ) 1
      let avgPrivate := (privateRooms.map (manhattanRooms entryRoom ·)).sum / max (privateRooms.length : ℚ) 1
      let h := jsHypot plan.envelope.footprint.width plan.envelope.footprint.depth
      let diagonal := if h = 0 then 1 else h
      let gradient := (avgPrivate - avgSocial) / diagonal
      let score0 := 65 + gradient * 60
      let privateIds := privateRooms.map (·.id)
      let noisy : List RoomType := [.garage, .kitchen, .family, .living]
      let score := privateRooms.foldl
        (fun acc room =>
          room.adjacentRoomIds.foldl
            (fun acc2 adjacentId =>
              match plan.rooms.find? (·.id = adjacentId) with
              | none => acc2
              | some adjacent =>
                if adjacent.id ∈ privateIds then acc2
                else if adjacent.type ∈ noisy then acc2 - 6 else acc2)
            acc)
        score0
      clampScore score

/-- scoring.ts `scoreBuildability`. -/
def scoreBuildability (plan : PlacedPlan) (walls : WallAnalysis) : ℚ :=
  let shapeScore :=
    if plan.rooms.length > 0 then
      (plan.rooms.foldl
        (fun (acc : ℚ) room =>
          let aspect := max room.width room.depth / max 1 (min room.width room.depth)
          acc + (if aspect ≤ 5/2 then 1 else 0))
        0) / plan.rooms.length
    else 0
  let wallComplexity := (walls.sharedWalls.length : ℚ) + (walls.walls.length : ℚ) / 4
  let complexityPenalty := min 35 (wallComplexity * (7/10))
  let placementPenalty := (plan.unplacedRoomIds.length : ℚ) * 12
  let circulationBonus : ℚ := if plan.circulation.isFullyConnected then 12 else -12
  clampScore (shapeScore * 80 + 20 - complexityPenalty - placementPenalty + circulationBonus)

/-- scoring.ts `scoreSqftAccuracy`. -/
def scoreSqftAccuracy (plan : PlacedPlan) : ℚ :=
  let actual := (plan.rooms.map (·.sqft)).sum
  let target := plan.brief.targetSqft
  if target ≤ 0 then 0
  else clampScore (100 - |actual - target| / target * 180)

/-- scoring.ts `scorePlan`. -/
def scorePlan (plan : PlacedPlan) (walls : WallAnalysis) : PlanScore :=
  let adjacencySatisfaction := scoreAdjacency plan
  let zoneCohesion := scoreZoneCohesion plan
  let naturalLight := scoreNaturalLight plan
  let plumbingEfficiency := scorePlumbingEfficiency plan walls
  let circulationQuality := scoreCirculation plan
  let spaceUtilization := scoreSpaceUtilization plan
  let privacyGradient := scorePrivacyGradient plan
  let overallBuildability := scoreBuildability plan walls
  let overall := clampScore
    ((adjacencySatisfaction + zoneCohesion + naturalLight + plumbingEfficiency +
      circulationQuality + spaceUtilization + privacyGradient + overallBuildability) / 8)
  let sqftAccuracy := scoreSqftAccuracy plan
  { overall, adjacencySatisfaction, zoneCohesion, naturalLight, plumbingEfficiency,
    circulationQuality, spaceUtilization, privacyGradient, overallBuildability,
    adjacencyScore := adjacencySatisfaction, circulation := circulationQuality,
    privacy := privacyGradient, buildability := overallBuildability, sqftAccuracy }

-- ── Compliance engine data model (compliance-engine/types.ts) ─────

inductive RuleCategory
  | roomMinimums | egress | bathrooms | kitchens | hallways
  | accessibility | structural | energy
deriving DecidableEq, Repr

inductive Severity | error | warning | info
deriving DecidableEq, Repr

inductive Jurisdiction | colorado | ircBase | california | texas | florida
deriving DecidableEq, Repr

/-- A `number | string` union value (violation current/required values). -/
inductive NumValue
  | num (q : ℚ)
  | str (s : String)
deriving DecidableEq, Repr

structure Violation where
  id : String
  description : String
  severity : Severity
  codeSection : String
  roomId : Option String := none
  elementId : Option String := none
  currentValue : Option NumValue := none
  requiredValue : Option NumValue := none
  unit : Option String := none
  remediation : Option (List String) := none
  notes : Option String := none
deriving DecidableEq, Repr

/-- A `Record<string, any>` metadata bag, with values rendered as strings
(no claim inspects metadata contents). -/
def MetadataBag := List (String × String)
deriving instance DecidableEq, Repr for MetadataBag

structure RuleResult where
  ruleId : String
  passed : Bool
  violations : List Violation
  recommendations : Option (List String) := none
  executionTime : Option ℚ := none
  metadata : Option MetadataBag := none
deriving DecidableEq, Repr

inductive BuildingType | residential | commercial | mixedUse
deriving DecidableEq, Repr

structure ComplianceContext where
  jurisdiction : Jurisdiction
  buildingType : BuildingType
  constructionType : Option String := none
  occupantLoad : Option ℚ := none
  wildfireInterfaceZone : Option Bool := none
  seismicDesignCategory : Option String := none
  windSpeed : Option ℚ := none
  snowLoad : Option ℚ := none
  jurisdictionParams : Option MetadataBag := none
deriving DecidableEq, Repr

/-- The compliance engine consumes `PlacedPlan | GeneratedPlan`; the claims
concern the `PlacedPlan` shape. -/
structure ComplianceRule where
  id : String
  code : String
  category : RuleCategory
  description : String
  enabled : Bool
  applicableJurisdictions : List Jurisdiction
  check : PlacedPlan → ComplianceContext → RuleResult
  config : Option MetadataBag := none
  dependencies : Option (List String) := none
  version : String

structure ComplianceSummary where
  totalRules : ℕ
  passed : ℕ
  failed : ℕ
  warnings : ℕ
  info : ℕ
  compliancePercentage : ℚ
  criticalViolations : ℕ
  skipped : ℕ
  totalExecutionTime : ℚ
deriving DecidableEq, Repr

structure ReportMetadata where
  engineVersion : String
  rulesetVersion : String
  generationTime : ℚ
  warnings : Option (List String)
deriving DecidableEq, Repr

structure ComplianceReport where
  id : String
  planId : String
  jurisdiction : Jurisdiction
  timestamp : ℚ
  overallCompliance : Bool
  results : List RuleResult
  summary : ComplianceSummary
  context : ComplianceContext
  metadata : ReportMetadata

structure RuleExecutionOptions where
  includeRules : Option (List String) := none
  excludeRules : Option (List String) := none
  includeCategories : Option (List RuleCategory) := none
  excludeCategories : Option (List RuleCategory) := none
  stopOnCritical : Option Bool := none
  maxExecutionTime : Option ℚ := none
  includeMetadata : Option Bool := none

-- ── Rule library: room minimums (rules/room-minimums.ts) ──────────

open RoomType in
/-- room-minimums.ts `isHabitableRoom`. -/
def isHabitableRoom (room : PlacedRoom) : Bool :=
  room.type ∈ [primary_bed, bedroom, kitchen, dining, living,
    family, great_room, office, bonus, theater, gym]

/-- room-minimums.ts `isBedroom`. -/
def isBedroom (room : PlacedRoom) : Bool :=
  room.type = .primary_bed ∨ room.type = .bedroom

/-- room-minimums.ts `createViolation` (severity is always `error`). -/
def createViolation (id description codeSection roomId : String)
    (currentValue requiredValue : NumValue) (unit : String)
    (remediation : List String) : Violation :=
  { id, description, severity := .error, codeSection, roomId := some roomId,
    currentValue := some currentValue, requiredValue := some requiredValue,
    unit := some unit, remediation := some remediation }

/-- Render a numeric value into a template string (JS number formatting
approximated by the rational's string form; no claim inspects these). -/
def qstr (q : ℚ) : String := toString q

/-- room-minimums.ts `minimumHabitableArea` (`R304.1-habitable-area`). -/
def minimumHabitableArea : ComplianceRule :=
  { id := "R304.1-habitable-area", code := "R304.1", category := .roomMinimums,
    description := "Habitable rooms must have a minimum floor area of 120 square feet",
    enabled := true, applicableJurisdictions := [.ircBase, .colorado], version := "1.0",
    check := fun plan _ =>
      let violations := (plan.rooms.filter isHabitableRoom).filterMap fun room =>
        if room.sqft < 120 then
          some (createViolation (room.id ++ "-area-violation")
            ("Room \"" ++ room.label ++ "\" has insufficient floor area") "R304.1" room.id
            (.num room.sqft) (.num 120) "sq ft"
            ["Increase room dimensions to achieve 120 sq ft minimum",
             "Consider combining with adjacent space",
             "Reconfigure floor plan layout"])
        else none
      { ruleId := "R304.1-habitable-area", passed := violations.length = 0, violations } }

/-- The violation recorded by `R304.1-bedroom-area` for one undersized
bedroom. -/
def bedroomAreaViolation (room : PlacedRoom) : Violation :=
  createViolation (room.id ++ "-bedroom-area-violation")
    ("Bedroom \"" ++ room.label ++ "\" has insufficient floor area") "R304.1" room.id
    (.num room.sqft) (.num 70) "sq ft"
    ["Increase bedroom dimensions to achieve 70 sq ft minimum",
     "Verify room classification - may need to be reclassified",
     "Consider removing from bedroom count if below minimum"]

/-- room-minimums.ts `minimumBedroomArea` (`R304.1-bedroom-area`). -/
def minimumBedroomArea : ComplianceRule :=
  { id := "R304.1-bedroom-area", code := "R304.1", category := .roomMinimums,
    description := "Bedrooms must have a minimum floor area of 70 square feet",
    enabled := true, applicableJurisdictions := [.ircBase, .colorado], version := "1.0",
    check := fun plan _ =>
      let violations := (plan.rooms.filter isBedroom).filterMap fun room =>
        if room.sqft < 70 then some (bedroomAreaViolation room) else none
      { ruleId := "R304.1-bedroom-area", passed := violations.length = 0, violations } }

/-- room-minimums.ts `minimumHorizontalDimension` (`R304.2-horizontal-dimension`). -/
def minimumHorizontalDimension : ComplianceRule :=
  { id := "R304.2-horizontal-dimension", code := "R304.2", category := .roomMinimums,
    description := "Habitable rooms must have minimum horizontal dimension of 7 feet in any direction",
    enabled := true, applicableJurisdictions := [.ircBase, .colorado], version := "1.0",
    check := fun plan _ =>
      let violations := (plan.rooms.filter isHabitableRoom).filterMap fun room =>
        let minRoomDimension := min room.width room.depth
        if minRoomDimension < 7 then
          some (createViolation (room.id ++ "-dimension-violation")
            ("Room \"" ++ room.label ++ "\" has insufficient horizontal dimension") "R304.2" room.id
            (.str (qstr minRoomDimension ++ "'")) (.str "7'") "feet"
            ["Increase room width or depth to achieve 7' minimum",
             "Reconfigure room shape for better proportions",
             "Consider L-shaped or other configuration to meet requirements"])
        else none
      { ruleId := "R304.2-horizontal-dimension", passed := violations.length = 0, violations } }

/-- room-minimums.ts `minimumCeilingHeight` (`R304.3-ceiling-height`): every
room is assumed to have the 8-foot default ceiling, so the rule can never
record a violation. -/
def minimumCeilingHeight : ComplianceRule :=
  { id := "R304.3-ceiling-height", code := "R304.3", category := .roomMinimums,
    description := "Habitable rooms must have minimum ceiling height of 7 feet 6 inches",
    enabled := true, applicableJurisdictions := [.ircBase, .colorado], version := "1.0",
    check := fun plan _ =>
      let violations := (plan.rooms.filter isHabitableRoom).filterMap fun room =>
        if (8 : ℚ) < 15/2 then
          some (createViolation (room.id ++ "-ceiling-height-violation")
            ("Room \"" ++ room.label ++ "\" has insufficient ceiling height") "R304.3" room.id
            (.str "8'") (.str "7.5'") "feet"
            ["Increase ceiling height to 7.5' minimum",
             "Consider structural modifications if necessary",
             "Verify basement/lower level compliance"])
        else none
      { ruleId := "R304.3-ceiling-height", passed := violations.length = 0, violations,
        metadata := some [("note", "Assuming 8' ceiling height - actual heights should be specified in plan data")] } }

open RoomType in
/-- room-minimums.ts `reducedCeilingHeightException` (`R304.3-exception-1`). -/
def reducedCeilingHeightException : ComplianceRule :=
  { id := "R304.3-exception-1", code := "R304.3 Exception 1", category := .roomMinimums,
    description := "Kitchens, halls, bathrooms, and certain rooms may have 7 foot ceiling height",
    enabled := true, applicableJurisdictions := [.ircBase, .colorado], version := "1.0",
    check := fun plan _ =>
      let violations := (plan.rooms.filter fun room =>
          room.type ∈ [kitchen, hallway, bathroom, primary_bath, half_bath, foyer, mudroom]).filterMap
        fun room =>
          if (8 : ℚ) < 7 then
            some (createViolation (room.id ++ "-reduced-ceiling-height-violation")
              (room.type.name ++ " \"" ++ room.label ++ "\" has insufficient ceiling height even under exception")
              "R304.3 Exception 1" room.id (.str "8'") (.str "7'") "feet"
              ["Increase ceiling height to 7' minimum (exception applies)",
               "Verify room classification",
               "Consider structural modifications"])
          else none
      { ruleId := "R304.3-exception-1", passed := violations.length = 0, violations } }

/-- room-minimums.ts `slopedCeilingRequirements` (`R304.3-sloped-ceiling`, placeholder). -/
def slopedCeilingRequirements : ComplianceRule :=
  { id := "R304.3-sloped-ceiling", code := "R304.3 Exception 2", category := .roomMinimums,
    description := "Rooms with sloped ceilings must meet specific height and area requirements",
    enabled := true, applicableJurisdictions := [.ircBase, .colorado], version := "1.0",
    check := fun _ _ =>
      { ruleId := "R304.3-sloped-ceiling", passed := true, violations := [],
        metadata := some [("note", "Sloped ceiling analysis requires detailed ceiling geometry data - manual review needed")] } }

/-- room-minimums.ts `slopedCeilingOccupiedSpace` (`R304.4-sloped-occupied-space`, placeholder). -/
def slopedCeilingOccupiedSpace : ComplianceRule :=
  { id := "R304.4-sloped-occupied-space", code := "R304.4", category := .roomMinimums,
    description := "At least 50% of required floor area must have ceiling height of 7 feet or more",
    enabled := true, applicableJurisdictions := [.ircBase, .colorado], version := "1.0",
    check := fun _ _ =>
      { ruleId := "R304.4-sloped-occupied-space", passed := true, violations := [],
        metadata := some [("note", "Sloped ceiling occupied space analysis requires ceiling geometry - manual review needed")] } }

/-- room-minimums.ts `bedroomValidation` (warning-severity aggregate checks). -/
def bedroomValidation : ComplianceRule :=
  { id := "bedroom-validation", code := "R304.1", category := .roomMinimums,
    description := "Validate bedroom designations meet minimum requirements",
    enabled := true, applicableJurisdictions := [.ircBase, .colorado], version := "1.0",
    check := fun plan _ =>
      let bedrooms := plan.rooms.filter isBedroom
      let violations := bedrooms.filterMap fun room =>
        let issues :=
          (if room.sqft < 70 then ["Area below 70 sq ft minimum"] else []) ++
          (if min room.width room.depth < 7 then ["Dimension below 7 feet minimum"] else [])
        if issues.length > 0 then
          some { id := room.id ++ "-bedroom-validation",
                 description := "Bedroom \"" ++ room.label ++ "\" has validation issues: " ++
                   String.intercalate ", " issues,
                 severity := .warning, codeSection := "R304.1", roomId := some room.id,
                 remediation := some
                   ["Verify bedroom designation is appropriate",
                    "Consider reclassifying as office or bonus room if requirements cannot be met",
                    "Ensure proper egress and other bedroom requirements are addressed"] }
        else none
      { ruleId := "bedroom-validation", passed := violations.length = 0, violations,
        metadata := some [("bedroomCount", toString bedrooms.length),
          ("note", "Bedroom validation includes area and dimension checks - egress checked separately")] } }

/-- room-minimums.ts `roomMinimumRules` export. -/
def roomMinimumRules : List ComplianceRule :=
  [ minimumHabitableArea, minimumBedroomArea, minimumHorizontalDimension,
    minimumCeilingHeight, reducedCeilingHeightException, slopedCeilingRequirements,
    slopedCeilingOccupiedSpace, bedroomValidation ]

-- ── Colorado amendments (colorado.ts) ─────────────────────────────

structure ColoradoAmendment where
  ruleId : String
  description : String
  override : Option (PlacedPlan → ComplianceContext → RuleResult) := none
  version : Option String := none

open RoomType in
/-- colorado.ts `coloradoCeilingHeight.override`: with the assumed 8-foot
ceiling, neither the 7'6" error branch nor the 8' efficiency-warning branch
can fire (`8 < 7.5` and `8 < 8` are both false). -/
def coloradoCeilingCheck (plan : PlacedPlan) (_ : ComplianceContext) : RuleResult :=
  let violations := (plan.rooms.filter fun room =>
      room.type ∈ [primary_bed, bedroom, kitchen, dining, living,
        family, great_room, office, bonus, theater, gym]).filterMap
    fun room =>
      if (8 : ℚ) < 15/2 then
        some { id := room.id ++ "-co-ceiling-height-violation",
               description := "Room \"" ++ room.label ++ "\" ceiling height violates Colorado requirements",
               severity := .error, codeSection := "R304.3 (Colorado)", roomId := some room.id,
               currentValue := some (.str "8'"), requiredValue := some (.str "7.5'"),
               unit := some "feet",
               remediation := some
                 ["Increase ceiling height to 7.5' minimum (Colorado IRC)",
                  "Consider energy efficiency benefits of higher ceilings",
                  "Verify insulation and air sealing requirements"] }
      else if (8 : ℚ) < 8 then
        some { id := room.id ++ "-co-ceiling-efficiency",
               description := "Room \"" ++ room.label ++ "\" ceiling height below Colorado energy efficiency recommendation",
               severity := .warning, codeSection := "Colorado Energy Code", roomId := some room.id,
               currentValue := some (.str "8'"), requiredValue := some (.str "8'"),
               unit := some "feet",
               remediation := some
                 ["Consider 8' ceiling height for better energy performance",
                  "Higher ceilings improve insulation effectiveness",
                  "Coordinate with HVAC design for proper air circulation"] }
      else none
  { ruleId := "R304.3-ceiling-height",
    passed := (violations.filter (·.severity = .error)).length = 0,
    violations,
    metadata := some [("coloradoAmendment", "true"), ("energyConsiderations", "true")] }

/-- colorado.ts `coloradoCeilingHeight`. -/
def coloradoCeilingHeight : ColoradoAmendment :=
  { ruleId := "R304.3-ceiling-height",
    description := "Colorado amendment for ceiling height with energy efficiency considerations",
    version := some "1.1-CO",
    override := some coloradoCeilingCheck }

/-- colorado.ts `coloradoAmendments`: besides the ceiling-height override,
the list carries Colorado-specific informational entries
(`colorado-wildfire-interface`, `colorado-high-altitude`,
`colorado-energy-efficiency`, `colorado-seismic-design`,
`colorado-sb25-002-factory-built`, `colorado-prop-123-affordable`).  None of
those rule ids exists in the base registry, so
`applyJurisdictionAmendments` skips them (`getRule` returns `undefined`);
they are represented here by their rule ids with `override := none`, which
is observationally identical inside the engine. -/
def coloradoAmendments : List ColoradoAmendment :=
  [ coloradoCeilingHeight,
    { ruleId := "colorado-wildfire-interface",
      description := "Colorado wildfire interface zone construction requirements" },
    { ruleId := "colorado-high-altitude",
      description := "Colorado high-altitude construction requirements" },
    { ruleId := "colorado-energy-efficiency",
      description := "Colorado enhanced energy efficiency requirements" },
    { ruleId := "colorado-seismic-design",
      description := "Colorado seismic design requirements (limited areas)" },
    { ruleId := "colorado-sb25-002-factory-built",
      description := "Colorado SB 25-002: Statewide factory-built structure standards" },
    { ruleId := "colorado-prop-123-affordable",
      description := "Colorado Proposition 123: Affordable housing design considerations" } ]

/-- The clone `applyJurisdictionAmendments` installs for
`R304.3-ceiling-height`: the base rule with the Colorado `check` and the
amendment's version (`{ ...existingRule, check: …, version: … }`). -/
def coloradoCeilingRuleClone : ComplianceRule :=
  { minimumCeilingHeight with check := coloradoCeilingCheck, version := "1.1-CO" }

-- ── Engine (compliance-engine index: SimpleRuleRegistry + check) ──

/-- The registry's `Map<string, ComplianceRule>`: an insertion-ordered
association list.  `Map.set` updates the value in place for an existing
key and appends otherwise. -/
def Registry := List (String × ComplianceRule)

/-- `Map.set`. -/
def regSet (reg : Registry) (key : String) (rule : ComplianceRule) : Registry :=
  match reg with
  | [] => [(key, rule)]
  | (k, r) :: rest => if k = key then (k, rule) :: rest else (k, r) :: regSet rest key rule

/-- `Map.get` (`getRule`). -/
def regGet (reg : Registry) (key : String) : Option ComplianceRule :=
  match reg with
  | [] => none
  | (k, r) :: rest => if k = key then some r else regGet rest key

/-- `SimpleRuleRegistry.register`. -/
def regRegister (reg : Registry) (rule : ComplianceRule) : Registry :=
  regSet reg rule.id rule

/-- `SimpleRuleRegistry.getAllRules` (`Array.from(this.rules.values())`). -/
def regAllRules (reg : Registry) : List ComplianceRule := reg.map (·.2)

/-- The registry seeded by the `DefaultComplianceEngine` constructor.  The
constructor seeds the full base library; the embedded seed carries the
room-minimums module, the only module containing a rule targeted by a
jurisdiction amendment (no `colorado-*` rule id exists in any base module). -/
def baseRegistry : Registry := roomMinimumRules.foldl regRegister []

/-- `DefaultComplianceEngine.applyJurisdictionAmendments` — clones each
overridden rule (spread plus new `check`/`version`) and replaces the
registry entry.  Nothing ever restores the original entry. -/
def applyJurisdictionAmendments (reg : Registry) (jurisdiction : Jurisdiction) : Registry :=
  if jurisdiction = .colorado then
    coloradoAmendments.foldl
      (fun reg amendment =>
        match regGet reg amendment.ruleId, amendment.override with
        | some existingRule, some ov =>
          regSet reg amendment.ruleId
            { existingRule with
              check := ov
              version := amendment.version.getD existingRule.version }
        | _, _ => reg)
      reg
  else reg

/-- `DefaultComplianceEngine.validatePlan`: for a well-typed plan the only
live conjunct is `plan.rooms.length > 0` (`doors` is only required to be an
array, not nonempty). -/
def validatePlan (plan : PlacedPlan) : Bool := plan.rooms.length > 0

/-- `DefaultComplianceEngine.filterRules`. -/
def filterRules (rules : List ComplianceRule) (options : Option RuleExecutionOptions) :
    List ComplianceRule :=
  let f0 := rules.filter (·.enabled)
  let f1 := match options.bind (·.includeRules) with
    | some l => if l.length ≠ 0 then f0.filter (fun r => r.id ∈ l) else f0
    | none => f0
  let f2 := match options.bind (·.excludeRules) with
    | some l => if l.length ≠ 0 then f1.filter (fun r => r.id ∉ l) else f1
    | none => f1
  let f3 := match options.bind (·.includeCategories) with
    | some l => if l.length ≠ 0 then f2.filter (fun r => r.category ∈ l) else f2
    | none => f2
  match options.bind (·.excludeCategories) with
  | some l => if l.length ≠ 0 then f3.filter (fun r => r.category ∉ l) else f3
  | none => f3

/-- `DefaultComplianceEngine.calculateSummary`. -/
def calculateSummary (results : List RuleResult) (executionTimeMs : ℚ) : ComplianceSummary :=
  let totalRules := results.length
  let passed := (results.filter (·.passed)).length
  let failed := totalRules - passed
  let allViolations := results.flatMap (·.violations)
  let warnings := (allViolations.filter (·.severity = .warning)).length
  let info := (allViolations.filter (·.severity = .info)).length
  let criticalViolations := (allViolations.filter (·.severity = .error)).length
  { totalRules, passed, failed, warnings, info,
    compliancePercentage :=
      if totalRules > 0 then jsRound ((passed : ℚ) / (totalRules : ℚ) * 100) else 0,
    criticalViolations, skipped := 0, totalExecutionTime := executionTimeMs }

/-- The fix-up `if (!result.executionTime) result.executionTime = …` that
`DefaultComplianceEngine.check` applies to each rule's result (it treats
both `undefined` and `0` as absent; the recorded time is the 0 of the
constant clock). -/
def adjustResult (plan : PlacedPlan) (ctx : ComplianceContext)
    (rule : ComplianceRule) : RuleResult :=
  let result0 := rule.check plan ctx
  if result0.executionTime.getD 0 = 0 then { result0 with executionTime := some 0 }
  else result0

/-- One iteration of the rule-execution loop of
`DefaultComplianceEngine.check` (rules are total functions here, so the
catch branch of the source cannot fire). -/
def runRuleStep (plan : PlacedPlan) (ctx : ComplianceContext)
    (options : Option RuleExecutionOptions) (st : List RuleResult × Bool)
    (rule : ComplianceRule) : List RuleResult × Bool :=
  let (results, stopped) := st
  if stopped then st
  else
    let result := adjustResult plan ctx rule
    let results' := results ++ [result]
    let stopped' :=
      (options.bind (·.stopOnCritical)).getD false ∧ ¬ result.passed ∧
        result.violations.any (·.severity = .error)
    (results', stopped')

/-- The rule-execution loop of `DefaultComplianceEngine.check`. -/
def runRules (rules : List ComplianceRule) (plan : PlacedPlan) (ctx : ComplianceContext)
    (options : Option RuleExecutionOptions) : List RuleResult :=
  (rules.foldl (runRuleStep plan ctx options) ([], false)).1

/-- `DefaultComplianceEngine.check`: validates, applies jurisdiction
amendments to the engine's registry (a durable mutation), filters, runs
the rules and assembles the report.  Returns the report together with the
engine's registry state after the call; an invalid plan raises
(`Except.error`). -/
def engineCheck (reg : Registry) (plan : PlacedPlan) (ctx : ComplianceContext)
    (options : Option RuleExecutionOptions := none) :
    Except String (ComplianceReport × Registry) :=
  if ¬ validatePlan plan then .error "Invalid floor plan format"
  else
    let reg' := applyJurisdictionAmendments reg ctx.jurisdiction
    let applicableRules := (regAllRules reg').filter
      (fun rule => ctx.jurisdiction ∈ rule.applicableJurisdictions)
    let applicableRules := filterRules applicableRules options
    let results := runRules applicableRules plan ctx options
    let summary := calculateSummary results 0
    .ok
      ({ id := "compliance-report",
         planId := "unknown",
         jurisdiction := ctx.jurisdiction,
         timestamp := 0,
         overallCompliance := summary.failed = 0 ∧ summary.criticalViolations = 0,
         results, summary, context := ctx,
         metadata :=
           { engineVersion := "1.0.0", rulesetVersion := "1.0.0", generationTime := 0,
             warnings := none } }, reg')

-- ── Placement (placement.ts) ──────────────────────────────────────

/-- `overlapLength` (identical in placement.ts, circulation.ts, walls.ts). -/
def overlapLength (a1 a2 b1 b2 : ℚ) : ℚ := max 0 (min a2 b2 - max a1 b1)

/-- `areAdjacent` (identical in placement.ts and circulation.ts): same
floor, edges flush on one axis, projections strictly overlapping on the
other. -/
def areAdjacent (a b : PlacedRoom) : Bool :=
  if a.floor ≠ b.floor then false
  else
    let verticalTouch :=
      (a.x + a.width = b.x ∨ b.x + b.width = a.x) ∧
        overlapLength a.y (a.y + a.depth) b.y (b.y + b.depth) > 0
    let horizontalTouch :=
      (a.y + a.depth = b.y ∨ b.y + b.depth = a.y) ∧
        overlapLength a.x (a.x + a.width) b.x (b.x + b.width) > 0
    verticalTouch ∨ horizontalTouch

/-- One occupancy grid: a row-major boolean matrix (row = y, column = x). -/
def OccupancyGrid := List (List Bool)
deriving instance DecidableEq, Repr for OccupancyGrid

/-- placement.ts `createGrid`. -/
def createGrid (width depth : ℕ) : OccupancyGrid :=
  List.replicate depth (List.replicate width false)

/-- `Math.floor(q)` as an array length (`Array.from({length: n})` clamps
negative lengths to zero). -/
def floorLen (q : ℚ) : ℕ := (⌊q⌋).toNat

structure FloorGrids where
  one : OccupancyGrid
  two : Option OccupancyGrid
deriving DecidableEq, Repr

/-- placement.ts `createFloorGrids`. -/
def createFloorGrids (envelope : BuildingEnvelope) : FloorGrids :=
  let floor1 := envelope.floorRects.one
  { one := createGrid (floorLen floor1.width) (floorLen floor1.depth),
    two := envelope.floorRects.two.map fun floor2 =>
      createGrid (floorLen floor2.width) (floorLen floor2.depth) }

/-- Read one grid cell; `getD` mirrors the JS undefined-as-falsy read for
out-of-range indices. -/
def gridCell (grid : OccupancyGrid) (row col : ℕ) : Bool :=
  (grid.getD row []).getD col false

/-- The row (resp. column) indices covered by a JS loop
`for (i = lo; i < lo + len; i += 1)` with a natural start: `⌈len⌉` indices
starting at `lo`. -/
def coveredIndices (lo : ℕ) (len : ℚ) : List ℕ :=
  (List.range (⌈len⌉).toNat).map (lo + ·)

/-- placement.ts `isRectFree`.  Inside `placeRooms` the local offsets are
always naturals (positions are scanned from the floor origin in １-foot
steps); for non-integer offsets the JS code would read junk properties, a
case unreachable from `placeRooms` and modelled as occupied. -/
def isRectFree (grid : OccupancyGrid) (floorRect : Rect) (x y width depth : ℚ) : Bool :=
  let localX := x - floorRect.x
  let localY := y - floorRect.y
  if localX < 0 ∨ localY < 0 then false
  else if localX + width > ((grid.headD []).length : ℚ) ∨ localY + depth > (grid.length : ℚ) then false
  else if localX.den = 1 ∧ localY.den = 1 then
    (coveredIndices localY.num.toNat depth).all fun row =>
      (coveredIndices localX.num.toNat width).all fun col =>
        ¬ gridCell grid row col
  else false

/-- Set one grid cell to occupied (no-op outside the matrix, which
`placeRooms` never does). -/
def gridMark (grid : OccupancyGrid) (row col : ℕ) : OccupancyGrid :=
  grid.set row ((grid.getD row []).set col true)

/-- placement.ts `markRect`. -/
def markRect (grid : OccupancyGrid) (floorRect : Rect) (room : PlacedRoom) : OccupancyGrid :=
  let localX := room.x - floorRect.x
  let localY := room.y - floorRect.y
  if localX.den = 1 ∧ localY.den = 1 ∧ 0 ≤ localX ∧ 0 ≤ localY then
    (coveredIndices localY.num.toNat room.depth).foldl
      (fun g row =>
        (coveredIndices localX.num.toNat room.width).foldl
          (fun g2 col => gridMark g2 row col) g)
      grid
  else grid

/-- placement.ts `zoneAnchorLookup` + `zoneAnchors.get`: the first anchor
for a zone/floor key wins. -/
def zoneAnchorFor (zoned : ZonedPlan) (zone : Zone) (floor : ℕ) : Option Point :=
  (zoned.zoneAnchors.find? fun a => a.zone = zone ∧ a.floor = floor).map
    fun a => { x := a.x, y := a.y }

structure DimCandidate where
  width : ℚ
  depth : ℚ
  rotation : ℕ
deriving DecidableEq, Repr

/-- placement.ts `dimensionCandidates` (the `seen` set is keyed by the
`width x depth : rotation` string, injective in the triple). -/
def dimensionCandidates (room : ZonedRoom) (widthBias : ℚ) : List DimCandidate :=
  let scales : List ℚ := [1, 95/100, 9/10, 85/100, 8/10, 3/4]
  (scales.foldl
    (fun (st : List DimCandidate × List (ℚ × ℚ × ℕ)) scale =>
      let scaledSqft := max room.minSqft (jsRound (room.targetSqft * scale))
      let width := max room.minWidth (jsRound ((room.targetWidth + widthBias) * scale))
      let depth := max room.minDepth (jsCeil (scaledSqft / width))
      let a : DimCandidate := { width, depth, rotation := 0 }
      let b : DimCandidate := { width := depth, depth := width, rotation := 90 }
      let st1 :=
        if a.width * a.depth ≥ room.minSqft ∧ (a.width, a.depth, 0) ∉ st.2 then
          (st.1 ++ [a], st.2 ++ [(a.width, a.depth, 0)])
        else st
      if b.width * b.depth ≥ room.minSqft ∧ (b.width, b.depth, 90) ∉ st1.2 then
        (st1.1 ++ [b], st1.2 ++ [(b.width, b.depth, 90)])
      else st1)
    ([], [])).1

inductive PlacementOrder | default | priority | zone | reverse
deriving DecidableEq, Repr

structure PlacementOptions where
  placementOrder : Option PlacementOrder := none
  widthBias : Option ℚ := none
deriving DecidableEq, Repr

/-- placement.ts `zoneRank` (inside `orderedRooms`). -/
def zoneRank : Zone → ℚ
  | .garage => 0
  | .social => 1
  | .private' => 2
  | .service => 3
  | .circulation => 4
  | .exterior => 5

/-- JS `x || y` on numbers (used by the sort comparators). -/
def jsOrQ (x y : ℚ) : ℚ := if x ≠ 0 then x else y

/-- The comparator of placement.ts `orderedRooms` for the given order. -/
def roomComparator (order : Option PlacementOrder) (a b : ZonedRoom) : ℚ :=
  match order with
  | some .zone => jsOrQ (zoneRank a.zone - zoneRank b.zone)
      (jsOrQ (b.targetSqft - a.targetSqft) (b.priority - a.priority))
  | some .reverse => jsOrQ (a.targetSqft - b.targetSqft) (a.priority - b.priority)
  | some .priority => jsOrQ (b.priority - a.priority) (b.targetSqft - a.targetSqft)
  | _ => jsOrQ (b.targetSqft - a.targetSqft) (b.priority - a.priority)

/-- placement.ts `orderedRooms`: a stable sort by the selected comparator.
JS `Array.prototype.sort` is stable, and a stable sort by a total preorder
is unique, so the stable `List.insertionSort` models it. -/
def orderedRooms (rooms : List ZonedRoom) (order : Option PlacementOrder) : List ZonedRoom :=
  rooms.insertionSort fun a b => roomComparator order a b ≤ 0

/-- placement.ts `getExteriorWalls` (west, east, north, south push order). -/
def getExteriorWalls (rect : Rect) (x y width depth : ℚ) : List Direction :=
  (if x = rect.x then [Direction.west] else []) ++
  (if x + width = rect.x + rect.width then [Direction.east] else []) ++
  (if y = rect.y then [Direction.north] else []) ++
  (if y + depth = rect.y + rect.depth then [Direction.south] else [])

/-- The `candidateRoom` record built inside placement.ts `scoreCandidate`. -/
def candidateRoomOf (room : ZonedRoom) (x y width depth : ℚ) (floor : ℕ)
    (exteriorWalls : List Direction) : PlacedRoom :=
  { id := room.id, type := room.type, label := room.label,
    x, y, width, depth, floor, sqft := width * depth, zone := room.zone,
    rotation := 0, adjacentRoomIds := [], exteriorWalls,
    hasPlumbing := room.needsPlumbing,
    targetSqft := some room.targetSqft, minSqft := some room.minSqft,
    needsExteriorWall := some room.needsExteriorWall,
    needsPlumbing := some room.needsPlumbing }

/-- placement.ts `scoreCandidate`. -/
def scoreCandidate (room : ZonedRoom) (x y width depth : ℚ) (floor : ℕ)
    (floorRect : Rect) (placedRooms : List PlacedRoom) (zoned : ZonedPlan) : ℚ :=
  let exteriorWalls := getExteriorWalls floorRect x y width depth
  let candidateRoom := candidateRoomOf room x y width depth floor exteriorWalls
  let s0 : ℚ := 0
  let s1 : ℚ := match zoneAnchorFor zoned room.zone floor with
    | some anchor =>
      let centerX := x + width / 2
      let centerY := y + depth / 2
      let distance := |anchor.x - centerX| + |anchor.y - centerY|
      s0 + max 0 (220 - distance * 8)
    | none => s0
  let s2 : ℚ :=
    if room.needsExteriorWall then
      s1 + (if exteriorWalls.length > 0 then (260 : ℚ) else -400)
    else s1 + (exteriorWalls.length : ℚ) * 8
  let s3 := placedRooms.foldl
    (fun acc existing =>
      if existing.floor ≠ floor then acc
      else
        let distance := manhattanRooms existing candidateRoom
        let touches := areAdjacent existing candidateRoom
        let desiredAdjacency := existing.type ∈ room.adjacentTo
        let desiredSeparation := existing.type ∈ room.awayFrom
        let acc1 :=
          if desiredAdjacency then acc + (if touches then 140 else max 0 (40 - distance * 3))
          else if touches then acc + 12 else acc
        let acc2 :=
          if desiredSeparation then acc1 - (if touches then 180 else max 0 (50 - distance * 4))
          else acc1
        if existing.zone = room.zone then acc2 + max 0 (30 - distance * 2) else acc2)
    s2
  let normalizedSqftDelta := |width * depth - room.targetSqft| / max room.targetSqft 1
  s3 - normalizedSqftDelta * 60

/-- The scanned positions of a dimension candidate inside
`bestPlacementForRoom`: `x` (resp. `y`) runs from the floor origin in
1-foot steps while `x ≤ maxX`, hence `⌊floorRect.width - dims.width⌋ + 1`
column positions. -/
def scanCount (span dim : ℚ) : ℕ := (⌊span - dim⌋ + 1).toNat

/-- placement.ts `bestPlacementForRoom`: scan dimension candidates (outer),
rows, then columns, keeping the first strict maximum of the placement
score among the grid-free positions. -/
def bestPlacementForRoom (room : ZonedRoom) (floorRect : Rect) (grid : OccupancyGrid)
    (placedRooms : List PlacedRoom) (zoned : ZonedPlan) (widthBias : ℚ) :
    Option CandidatePlacement :=
  (dimensionCandidates room widthBias).foldl
    (fun best dims =>
      if dims.width > floorRect.width ∨ dims.depth > floorRect.depth then best
      else
        (List.range (scanCount floorRect.depth dims.depth)).foldl
          (fun best j =>
            (List.range (scanCount floorRect.width dims.width)).foldl
              (fun best i =>
                let x := floorRect.x + (i : ℚ)
                let y := floorRect.y + (j : ℚ)
                if ¬ isRectFree grid floorRect x y dims.width dims.depth then best
                else
                  let score := scoreCandidate room x y dims.width dims.depth room.floor
                    floorRect placedRooms zoned
                  let placement : CandidatePlacement :=
                    { x, y, width := dims.width, depth := dims.depth, floor := room.floor, score }
                  match best with
                  | none => some placement
                  | some b => if placement.score > b.score then some placement else some b)
              best)
          best)
    none

/-- placement.ts `populateAdjacency` (pairwise by index, since ids need not
be unique; appends are in nested-loop order). -/
def populateAdjacency (rooms : List PlacedRoom) : List PlacedRoom :=
  let cleared := rooms.map fun r => { r with adjacentRoomIds := ([] : List String) }
  (allPairs (List.range cleared.length)).foldl
    (fun rs ij =>
      match rs.get? ij.1, rs.get? ij.2 with
      | some a, some b =>
        if areAdjacent a b then
          let rs1 := rs.set ij.1 { a with adjacentRoomIds := a.adjacentRoomIds ++ [b.id] }
          match rs1.get? ij.2 with
          | some b1 => rs1.set ij.2 { b1 with adjacentRoomIds := b1.adjacentRoomIds ++ [a.id] }
          | none => rs1
        else rs
      | _, _ => rs)
    cleared

/-- The looping state of `placeRooms`. -/
structure PlaceState where
  grids : FloorGrids
  placedRooms : List PlacedRoom
  unplacedRoomIds : List String
  warnings : List String
deriving DecidableEq, Repr

/-- The placed-room record built by placement.ts when a candidate is accepted. -/
def mkPlaced (room : ZonedRoom) (floorRect : Rect) (best : CandidatePlacement) : PlacedRoom :=
  { id := room.id, type := room.type, label := room.label,
    x := best.x, y := best.y, width := best.width, depth := best.depth,
    floor := best.floor, sqft := best.width * best.depth, zone := room.zone,
    rotation := 0, adjacentRoomIds := [],
    exteriorWalls := getExteriorWalls floorRect best.x best.y best.width best.depth,
    hasPlumbing := room.needsPlumbing,
    targetSqft := some room.targetSqft, minSqft := some room.minSqft,
    needsExteriorWall := some room.needsExteriorWall,
    needsPlumbing := some room.needsPlumbing }

/-- The per-room body of the `placeRooms` loop. -/
def placeRoomStep (zoned : ZonedPlan) (envelope : BuildingEnvelope) (widthBias : ℚ)
    (st : PlaceState) (room : ZonedRoom) : PlaceState :=
  let floorRect? := envelope.floorRect room.floor
  let floorGrid? := if room.floor = 1 then some st.grids.one else st.grids.two
  match floorRect?, floorGrid? with
  | some floorRect, some floorGrid =>
    match bestPlacementForRoom room floorRect floorGrid st.placedRooms zoned widthBias with
    | none =>
      { st with
        unplacedRoomIds := st.unplacedRoomIds ++ [room.id]
        warnings := st.warnings ++
          ["Unable to place " ++ room.id ++ " (" ++ room.type.name ++ ") within floor envelope."] }
    | some best =>
      let placed := mkPlaced room floorRect best
      let grid' := markRect floorGrid floorRect placed
      let grids' :=
        if room.floor = 1 then { st.grids with one := grid' }
        else { st.grids with two := some grid' }
      { st with grids := grids', placedRooms := st.placedRooms ++ [placed] }
  | _, _ =>
    { st with
      unplacedRoomIds := st.unplacedRoomIds ++ [room.id]
      warnings := st.warnings ++
        ["No floor geometry available for " ++ room.id ++ " on floor " ++ toString room.floor ++ "."] }

/-- placement.ts `placeRooms`. -/
def placeRooms (zoned : ZonedPlan) (envelope : BuildingEnvelope)
    (options : PlacementOptions := {}) : PlacedPlan :=
  let widthBias := options.widthBias.getD 0
  let roomsInPlacementOrder := orderedRooms zoned.rooms options.placementOrder
  let st := roomsInPlacementOrder.foldl (placeRoomStep zoned envelope widthBias)
    { grids := createFloorGrids envelope, placedRooms := [], unplacedRoomIds := [], warnings := [] }
  { brief := zoned.brief,
    envelope,
    rooms := populateAdjacency st.placedRooms,
    doors := [],
    windows := [],
    circulation :=
      { isFullyConnected := false, deadEnds := [], mainPath := [], hallwayPercent := 0, doors := [] },
    unplacedRoomIds := st.unplacedRoomIds,
    metadata := { strategy := "greedy-occupancy-grid", warnings := st.warnings } }

-- ── Circulation repair (circulation.ts) ───────────────────────────

/-- A `Map<string, Set<string>>`: insertion-ordered keys, each with an
insertion-ordered duplicate-free neighbor list. -/
def AdjMap := List (String × List String)
deriving instance DecidableEq, Repr for AdjMap

/-- `Map.set` (value replaced in place for an existing key). -/
def mapSet (m : AdjMap) (k : String) (v : List String) : AdjMap :=
  match m with
  | [] => [(k, v)]
  | (k', v') :: rest => if k' = k then (k', v) :: rest else (k', v') :: mapSet rest k v

/-- `Map.get`. -/
def mapGet? (m : AdjMap) (k : String) : Option (List String) :=
  match m with
  | [] => none
  | (k', v') :: rest => if k' = k then some v' else mapGet? rest k

/-- The key list of the map, in insertion order. -/
def keysOf (m : AdjMap) : List String := m.map (·.1)

/-- `Set.add`. -/
def setAdd (s : List String) (v : String) : List String :=
  if v ∈ s then s else s ++ [v]

/-- `new Set(list)`. -/
def setFromList (l : List String) : List String := l.foldl setAdd []

/-- `graph.get(k)?.add(v)` (no-op when the key is absent). -/
def addEdge (m : AdjMap) (k v : String) : AdjMap :=
  match m with
  | [] => []
  | (k', s) :: rest => if k' = k then (k', setAdd s v) :: rest else (k', s) :: addEdge rest k v

/-- The seeding pass of circulation.ts `rebuildAdjacency`
(`graph.set(room.id, new Set(room.adjacentRoomIds))`). -/
def seedGraph (rooms : List PlacedRoom) : AdjMap :=
  rooms.foldl (fun m room => mapSet m room.id (setFromList room.adjacentRoomIds)) []

/-- The edge pass of circulation.ts `rebuildAdjacency` (both directions per
geometrically adjacent pair). -/
def addGraphEdges (m : AdjMap) (pairs : List (PlacedRoom × PlacedRoom)) : AdjMap :=
  pairs.foldl
    (fun m p =>
      if areAdjacent p.1 p.2 then addEdge (addEdge m p.1.id p.2.id) p.2.id p.1.id
      else m)
    m

/-- The write-back pass of `rebuildAdjacency`
(`room.adjacentRoomIds = Array.from(graph.get(room.id) ?? [])`). -/
def writeBackAdjacency (rooms : List PlacedRoom) (g : AdjMap) : List PlacedRoom :=
  rooms.map fun room => { room with adjacentRoomIds := (mapGet? g room.id).getD [] }

/-- circulation.ts `rebuildAdjacency`: returns the updated rooms and the
graph. -/
def rebuildAdjacency (rooms : List PlacedRoom) : List PlacedRoom × AdjMap :=
  let g := addGraphEdges (seedGraph rooms) (allPairs rooms)
  (writeBackAdjacency rooms g, g)

/-- circulation.ts `findEntryRoom`. -/
def findEntryRoom (rooms : List PlacedRoom) : Option PlacedRoom :=
  ((rooms.find? (·.type = .foyer)).orElse fun _ =>
    (rooms.find? (·.type = .living)).orElse fun _ =>
      (rooms.find? (·.zone = .social)).orElse fun _ => rooms.head?)

structure BfsResult where
  visited : List String
  parent : List (String × Option String)
deriving DecidableEq, Repr

structure BfsState where
  visited : List String
  parent : List (String × Option String)
  queue : List String
deriving DecidableEq, Repr

/-- One iteration of the BFS `while` loop. -/
def bfsStep (graph : AdjMap) (st : BfsState) : BfsState :=
  match st.queue with
  | [] => st
  | current :: rest =>
    let neighbors := (mapGet? graph current).getD []
    neighbors.foldl
      (fun st2 neighbor =>
        if neighbor ∈ st2.visited then st2
        else
          { visited := st2.visited ++ [neighbor],
            parent := st2.parent ++ [(neighbor, some current)],
            queue := st2.queue ++ [neighbor] })
      { st with queue := rest }

/-- An upper bound on the number of BFS loop iterations: every dequeued id
was enqueued exactly once, and enqueues are the start node plus at most one
per adjacency-list entry. -/
def graphFuel (graph : AdjMap) : ℕ :=
  1 + (graph.map (·.2.length)).sum

/-- circulation.ts `bfs` (the while loop rendered as enough iterations of
`bfsStep`; once the queue is empty `bfsStep` is the identity). -/
def bfs (graph : AdjMap) (startId : String) : BfsResult :=
  let st := (bfsStep graph)^[graphFuel graph]
    { visited := [startId], parent := [(startId, none)], queue := [startId] }
  { visited := st.visited, parent := st.parent }

structure CompState where
  seen : List String
  component : List String
  queue : List String
deriving DecidableEq, Repr

/-- One iteration of the inner component-collection loop of
`connectedComponents`. -/
def compStep (graph : AdjMap) (st : CompState) : CompState :=
  match st.queue with
  | [] => st
  | current :: rest =>
    let st1 : CompState := { st with component := st.component ++ [current], queue := rest }
    ((mapGet? graph current).getD []).foldl
      (fun st2 neighbor =>
        if neighbor ∈ st2.seen then st2
        else { st2 with seen := st2.seen ++ [neighbor], queue := st2.queue ++ [neighbor] })
      st1

/-- circulation.ts `connectedComponents`. -/
def connectedComponents (graph : AdjMap) : List (List String) :=
  (graph.foldl
    (fun (st : List String × List (List String)) entry =>
      let node := entry.1
      if node ∈ st.1 then st
      else
        let res := (compStep graph)^[graphFuel graph]
          { seen := st.1 ++ [node], component := [], queue := [node] }
        (res.seen, st.2 ++ [res.component]))
    ([], [])).2

/-- circulation.ts `nearestPair` (first strict minimum wins; cross-floor
pairs are skipped). -/
def nearestPair (componentA componentB : List PlacedRoom) :
    Option (PlacedRoom × PlacedRoom) :=
  (componentA.foldl
    (fun best a =>
      componentB.foldl
        (fun best b =>
          if a.floor ≠ b.floor then best
          else
            let distance := manhattanRooms a b
            match best with
            | none => some (a, b, distance)
            | some prev => if distance < prev.2.2 then some (a, b, distance) else some prev)
        best)
    none).map fun best => (best.1, best.2.1)

/-- circulation.ts `addDoor`. -/
def mkAutoDoor (a b : PlacedRoom) (index : ℕ) : Door :=
  { id := "door-auto-" ++ toString index,
    wallId := "shared-" ++ a.id ++ "-" ++ b.id,
    position := 1/2, width := 3, type := .standard,
    connectsRooms := (a.id, b.id) }

/-- circulation.ts `roomExteriorWalls`. -/
def roomExteriorWalls (room : PlacedRoom) (floorRect : Rect) : List Direction :=
  getExteriorWalls floorRect room.x room.y room.width room.depth

/-- circulation.ts `createHallwayBetween`. -/
def createHallwayBetween (a b : PlacedRoom) (floorRect : Rect) (hallwayIndex : ℕ) :
    PlacedRoom :=
  let aCenter := roomCenter a
  let bCenter := roomCenter b
  let dx := bCenter.x - aCenter.x
  let dy := bCenter.y - aCenter.y
  let wdxy :=
    if |dx| ≥ |dy| then
      (max 6 (jsRound |dx|), (3 : ℚ),
        jsFloor (min aCenter.x bCenter.x), jsFloor ((aCenter.y + bCenter.y) / 2) - 1)
    else
      ((3 : ℚ), max 6 (jsRound |dy|),
        jsFloor ((aCenter.x + bCenter.x) / 2) - 1, jsFloor (min aCenter.y bCenter.y))
  let width := max 3 wdxy.1
  let depth := max 6 wdxy.2.1
  let x := jsClamp wdxy.2.2.1 floorRect.x (floorRect.x + floorRect.width - width)
  let y := jsClamp wdxy.2.2.2 floorRect.y (floorRect.y + floorRect.depth - depth)
  { id := "hallway-auto-" ++ toString hallwayIndex,
    type := .hallway,
    label := "Auto Hallway " ++ toString hallwayIndex,
    x, y, width, depth,
    floor := a.floor,
    sqft := width * depth,
    zone := .circulation,
    rotation := 0,
    adjacentRoomIds := [a.id, b.id],
    exteriorWalls := getExteriorWalls floorRect x y width depth,
    hasPlumbing := false,
    targetSqft := some (width * depth),
    minSqft := some 18,
    needsExteriorWall := some false,
    needsPlumbing := some false }

/-- circulation.ts `deadEndRooms`. -/
def deadEndRooms (rooms : List PlacedRoom) : List String :=
  (rooms.filter fun room =>
    room.adjacentRoomIds.length ≤ 1 ∧ room.type ≠ .front_porch).map (·.id)

/-- Walk one parent chain from `node` toward `startId`, counting steps;
stops on a missing or falsy parent entry (the JS `if (!p) break`).  The
fuel (one more than the map size) covers every acyclic chain; a cyclic
parent map would not terminate in the source and is unreachable from BFS
output. -/
def parentDepthAux (parent : List (String × Option String)) (startId : String) :
    ℕ → String → ℕ → ℕ
  | 0, _, depth => depth
  | fuel + 1, current, depth =>
    if current = startId then depth
    else
      match (parent.find? (·.1 = current)).bind (·.2) with
      | some p => if p = "" then depth else parentDepthAux parent startId fuel p (depth + 1)
      | none => depth

def parentDepth (parent : List (String × Option String)) (startId node : String) : ℕ :=
  parentDepthAux parent startId (parent.length + 1) node 0

/-- Follow parents from `cursor`, collecting the path (the JS
`while (cursor) { path.push(cursor); cursor = parent.get(cursor); }`);
fueled like `parentDepthAux`. -/
def parentChainAux (parent : List (String × Option String)) :
    ℕ → String → List String
  | 0, _ => []
  | fuel + 1, cursor =>
    cursor ::
      (match (parent.find? (·.1 = cursor)).bind (·.2) with
       | some p => if p = "" then [] else parentChainAux parent fuel p
       | none => [])

def parentChain (parent : List (String × Option String)) (farthest : String) : List String :=
  parentChainAux parent (parent.length + 1) farthest

/-- circulation.ts `extractMainPath`: find the parent-map node of maximal
parent-chain depth (first maximum wins, `startId` when none is deeper),
then return the chain from it back to the root, reversed. -/
def extractMainPath (parent : List (String × Option String)) (startId : String) :
    List String :=
  let farthest := (parent.foldl
    (fun (st : String × ℕ) entry =>
      let depth := parentDepth parent startId entry.1
      if depth > st.2 then (entry.1, depth) else st)
    (startId, 0)).1
  (parentChain parent farthest).reverse

/-- The looping state of `ensureCirculation`. -/
structure CircState where
  rooms : List PlacedRoom
  doors : List Door
  warnings : List String
  hallwayCounter : ℕ
  doorCounter : ℕ
  done : Bool
deriving DecidableEq, Repr

/-- One iteration of the 8-round repair loop of `ensureCirculation`
(`done` records that the source `break` was taken; note the loop body
mutates the room list through `rebuildAdjacency` even when it breaks). -/
def circStep (envelope : BuildingEnvelope) (st : CircState) : CircState :=
  if st.done then st
  else
    let (rooms, graph) := rebuildAdjacency st.rooms
    match findEntryRoom rooms with
    | none => { st with rooms, done := true }
    | some entryRoom =>
      if (bfs graph entryRoom.id).visited.length = rooms.length then
        { st with rooms, done := true }
      else
        let components := connectedComponents graph
        let mainComponent := (components.find? (entryRoom.id ∈ ·)).getD []
        match components.find? (entryRoom.id ∉ ·) with
        | none => { st with rooms, done := true }
        | some disconnected =>
          if mainComponent.length = 0 then { st with rooms, done := true }
          else
            let mainRooms := rooms.filter (·.id ∈ mainComponent)
            let disconnectedRooms := rooms.filter (·.id ∈ disconnected)
            match nearestPair mainRooms disconnectedRooms with
            | none =>
              { st with
                rooms := rooms
                warnings := st.warnings ++
                  ["Unable to auto-connect all components because floors do not align."]
                done := true }
            | some pair =>
              match envelope.floorRect pair.1.floor with
              | none =>
                { st with
                  rooms := rooms
                  warnings := st.warnings ++
                    ["Missing floor envelope for floor " ++ toString pair.1.floor ++
                      "; unable to auto-insert hallway."]
                  done := true }
              | some floorRect =>
                let hallway := createHallwayBetween pair.1 pair.2 floorRect st.hallwayCounter
                { rooms := rooms ++ [hallway],
                  doors := st.doors ++ [mkAutoDoor pair.1 hallway st.doorCounter,
                    mkAutoDoor hallway pair.2 (st.doorCounter + 1)],
                  warnings := st.warnings,
                  hallwayCounter := st.hallwayCounter + 1,
                  doorCounter := st.doorCounter + 2,
                  done := false }

/-- The initial loop state of `ensureCirculation` (the source's `cloneRoom`
copies are value copies here). -/
def circInit (plan : PlacedPlan) : CircState :=
  { rooms := plan.rooms,
    doors := plan.doors,
    warnings := plan.metadata.warnings,
    hallwayCounter := (plan.rooms.filter (·.type = .hallway)).length + 1,
    doorCounter := plan.doors.length + 1,
    done := false }

/-- The final section of `ensureCirculation` after the 8-round loop:
rebuild the graph, BFS from the entry, and assemble the circulation
result. -/
def circFinish (plan : PlacedPlan) (st : CircState) : PlacedPlan :=
  let (rooms, finalGraph) := rebuildAdjacency st.rooms
  let entryRoom? := findEntryRoom rooms
  let bfsResult := match entryRoom? with
    | some entryRoom => bfs finalGraph entryRoom.id
    | none => { visited := [], parent := [] }
  let isFullyConnected := match entryRoom? with
    | some _ => bfsResult.visited.length = rooms.length
    | none => false
  let hallwaySqft := ((rooms.filter (·.type = .hallway)).map (·.sqft)).sum
  let totalSqft := (rooms.map (·.sqft)).sum
  let hallwayPercent := if totalSqft > 0 then hallwaySqft / totalSqft * 100 else 0
  { plan with
    rooms,
    doors := st.doors,
    circulation :=
      { isFullyConnected,
        deadEnds := deadEndRooms rooms,
        mainPath := match entryRoom? with
          | some entryRoom => extractMainPath bfsResult.parent entryRoom.id
          | none => [],
        hallwayPercent,
        doors := st.doors },
    metadata := { plan.metadata with warnings := st.warnings } }

/-- circulation.ts `ensureCirculation`. -/
def ensureCirculation (plan : PlacedPlan) : PlacedPlan :=
  circFinish plan ((circStep plan.envelope)^[8] (circInit plan))

-- ── Specification predicates ──────────────────────────────────────

/-- The eight required sub-scores of a plan score. -/
def subScores (s : PlanScore) : List ℚ :=
  [s.adjacencySatisfaction, s.zoneCohesion, s.naturalLight, s.plumbingEfficiency,
   s.circulationQuality, s.spaceUtilization, s.privacyGradient, s.overallBuildability]

/-- A room's rectangle lies inside a floor rectangle. -/
def roomInsideRect (room : PlacedRoom) (rect : Rect) : Prop :=
  rect.x ≤ room.x ∧ room.x + room.width ≤ rect.x + rect.width ∧
  rect.y ≤ room.y ∧ room.y + room.depth ≤ rect.y + rect.depth

instance (room : PlacedRoom) (rect : Rect) : Decidable (roomInsideRect room rect) := by
  unfold roomInsideRect; infer_instance

/-- The open interiors of two rooms' rectangles are disjoint (degenerate
rectangles have empty interiors). -/
def interiorsDisjoint (a b : PlacedRoom) : Prop :=
  a.width ≤ 0 ∨ a.depth ≤ 0 ∨ b.width ≤ 0 ∨ b.depth ≤ 0 ∨
  a.x + a.width ≤ b.x ∨ b.x + b.width ≤ a.x ∨
  a.y + a.depth ≤ b.y ∨ b.y + b.depth ≤ a.y

instance (a b : PlacedRoom) : Decidable (interiorsDisjoint a b) := by
  unfold interiorsDisjoint; infer_instance

/-- A room lies inside the floor rectangle of its floor (vacuous when the
envelope has no rectangle for that floor number). -/
def insideItsFloor (envelope : BuildingEnvelope) (room : PlacedRoom) : Prop :=
  ∀ rect ∈ envelope.floorRect room.floor, roomInsideRect room rect

instance (envelope : BuildingEnvelope) (room : PlacedRoom) :
    Decidable (insideItsFloor envelope room) := by
  unfold insideItsFloor
  exact match envelope.floorRect room.floor with
    | none => isTrue (by simp)
    | some r => decidable_of_iff (roomInsideRect room r) (by simp)

/-- The geometric invariant claimed for placed plans: every room inside its
floor rectangle, and distinct rooms on the same floor have disjoint
interiors. -/
def planGeometryOk (plan : PlacedPlan) : Prop :=
  (∀ room ∈ plan.rooms, insideItsFloor plan.envelope room) ∧
  plan.rooms.Pairwise fun a b => a.floor = b.floor → interiorsDisjoint a b

instance (plan : PlacedPlan) : Decidable (planGeometryOk plan) := by
  unfold planGeometryOk; infer_instance

/-- The geometric footprint of a placed room: the fields the geometry
predicates depend on. -/
structure Geom where
  x : ℚ
  y : ℚ
  width : ℚ
  depth : ℚ
  floor : ℕ
deriving DecidableEq, Repr

/-- Geometry projection of a placed room (everything `populateAdjacency`
leaves untouched). -/
def geomOf (r : PlacedRoom) : Geom :=
  { x := r.x, y := r.y, width := r.width, depth := r.depth, floor := r.floor }

/-- `interiorsDisjoint` on geometry footprints. -/
def geomDisj (a b : Geom) : Prop :=
  a.width ≤ 0 ∨ a.depth ≤ 0 ∨ b.width ≤ 0 ∨ b.depth ≤ 0 ∨
  a.x + a.width ≤ b.x ∨ b.x + b.width ≤ a.x ∨
  a.y + a.depth ≤ b.y ∨ b.y + b.depth ≤ a.y

/-- The pairwise geometric requirement on geometry footprints. -/
def geomPairOk (a b : Geom) : Prop := a.floor = b.floor → geomDisj a b

/-- `insideItsFloor` on geometry footprints. -/
def geomInside (envelope : BuildingEnvelope) (g : Geom) : Prop :=
  ∀ rect ∈ envelope.floorRect g.floor,
    rect.x ≤ g.x ∧ g.x + g.width ≤ rect.x + rect.width ∧
    rect.y ≤ g.y ∧ g.y + g.depth ≤ rect.y + rect.depth

/-- The envelope hands `placeRooms` floor rectangles with nonnegative
dimensions. -/
def envelopeNonneg (e : BuildingEnvelope) : Prop :=
  0 ≤ e.floorRects.one.width ∧ 0 ≤ e.floorRects.one.depth ∧
  ∀ r ∈ e.floorRects.two, 0 ≤ r.width ∧ 0 ≤ r.depth

instance (e : BuildingEnvelope) : Decidable (envelopeNonneg e) := by
  unfold envelopeNonneg
  exact match e.floorRects.two with
    | none => decidable_of_iff (0 ≤ e.floorRects.one.width ∧ 0 ≤ e.floorRects.one.depth)
        (by simp)
    | some r => decidable_of_iff (0 ≤ e.floorRects.one.width ∧ 0 ≤ e.floorRects.one.depth ∧
        (0 ≤ r.width ∧ 0 ≤ r.depth)) (by simp)

/-- The room's grid-local offsets are natural numbers and all the grid
cells its rectangle (ceiling-covered) touches are marked occupied. -/
def cellsMarked (rect : Rect) (grid : OccupancyGrid) (r : PlacedRoom) : Prop :=
  0 ≤ r.x - rect.x ∧ 0 ≤ r.y - rect.y ∧
  (r.x - rect.x).den = 1 ∧ (r.y - rect.y).den = 1 ∧
  ∀ row ∈ coveredIndices (r.y - rect.y).num.toNat r.depth,
    ∀ col ∈ coveredIndices (r.x - rect.x).num.toNat r.width,
      gridCell grid row col = true

/-- The `placeRooms` loop invariant for one floor: the occupancy grid fits
in the floor rectangle, its rows are uniform, and every room placed on
this floor lies inside the rectangle with its cells marked. -/
def gridInvOk (rect : Rect) (grid : OccupancyGrid) (rooms : List PlacedRoom)
    (f : ℕ) : Prop :=
  0 ≤ rect.width ∧ 0 ≤ rect.depth ∧
  ((grid.length : ℚ) ≤ rect.depth) ∧
  (∃ W : ℕ, (∀ i : ℕ, i < grid.length → (grid.getD i []).length = W) ∧
    ((W : ℚ) ≤ rect.width)) ∧
  ∀ r ∈ rooms, r.floor = f → roomInsideRect r rect ∧ cellsMarked rect grid r

/-- The full `placeRooms` loop invariant over the fold state. -/
def placeInv (envelope : BuildingEnvelope) (st : PlaceState) : Prop :=
  gridInvOk envelope.floorRects.one st.grids.one st.placedRooms 1 ∧
  (match envelope.floorRects.two, st.grids.two with
   | some rect₂, some grid₂ => gridInvOk rect₂ grid₂ st.placedRooms 2
   | none, none => True
   | _, _ => False) ∧
  st.placedRooms.Pairwise fun a b => a.floor = b.floor → interiorsDisjoint a b

-- ── Concrete inputs used by counterexamples and witnesses ─────────

/-- A small single-floor envelope (floor rectangle 11 × 4 at the origin). -/
def envNarrow : BuildingEnvelope :=
  { shape := .rectangle, segments := [], totalSqft := 44, boundingWidth := 11,
    boundingDepth := 4, streetFacing := .south, lot := DEFAULT_LOT,
    buildableRect := ⟨0, 0, 11, 4⟩, footprint := ⟨0, 0, 11, 4⟩,
    floorRects := { one := ⟨0, 0, 11, 4⟩, two := none },
    targetSqftPerFloor := 44, gridResolution := 1 }

def briefStub : NormalizedBrief :=
  { targetSqft := 32, stories := 1, style := .ranch, rooms := [], lot := DEFAULT_LOT,
    metadata := { impliedRoomIds := [], warnings := [] } }

/-- A 4 × 4 zoned room used by the concrete scenarios. -/
def mkZonedRoom (id : String) (type : RoomType) (zone : Zone) : ZonedRoom :=
  { id, type, label := id, targetSqft := 16, minSqft := 16, minWidth := 4, minDepth := 4,
    targetWidth := 4, targetDepth := 4, needsExteriorWall := false, needsPlumbing := false,
    zone, mustHave := true, adjacentTo := [], awayFrom := [], floor := 1, priority := 50 }

/-- A zoned plan whose two rooms are pulled to opposite ends of the floor
by their zone anchors, so greedy placement leaves them disconnected. -/
def zonedTwoRooms : ZonedPlan :=
  { brief := briefStub, envelope := envNarrow,
    rooms := [mkZonedRoom "dining-1" .dining .social, mkZonedRoom "office-1" .office .private'],
    zoneRegions := [],
    zoneAnchors := [ { zone := .social, floor := 1, x := 2, y := 2 },
                     { zone := .private', floor := 1, x := 9, y := 2 } ] }

/-- A placed room at a given position (adjacency empty, no plumbing). -/
def mkPlacedRoom (id : String) (type : RoomType) (zone : Zone) (x y w d : ℚ)
    (walls : List Direction) : PlacedRoom :=
  { id, type, label := id, x, y, width := w, depth := d, floor := 1,
    sqft := w * d, zone, rotation := 0, adjacentRoomIds := [], exteriorWalls := walls,
    hasPlumbing := false, targetSqft := some (w * d), minSqft := some (w * d),
    needsExteriorWall := some false, needsPlumbing := some false }

/-- A hand-built placed plan with two non-adjacent rooms on one floor
(exactly the placement produced by `placeRooms zonedTwoRooms envNarrow`). -/
def placedTwoRooms : PlacedPlan :=
  { brief := briefStub, envelope := envNarrow,
    rooms := [mkPlacedRoom "dining-1" .dining .social 0 0 4 4 [.west, .north, .south],
              mkPlacedRoom "office-1" .office .private' 7 0 4 4 [.east, .north, .south]],
    doors := [], windows := [],
    circulation :=
      { isFullyConnected := false, deadEnds := [], mainPath := [], hallwayPercent := 0, doors := [] },
    unplacedRoomIds := [],
    metadata := { strategy := "greedy-occupancy-grid", warnings := [] } }

/-- A connected single-room plan. -/
def singleRoomPlan : PlacedPlan :=
  { brief := briefStub, envelope := envNarrow,
    rooms := [mkPlacedRoom "living-1" .living .social 0 0 4 4 [.west, .north, .south]],
    doors := [], windows := [],
    circulation :=
      { isFullyConnected := false, deadEnds := [], mainPath := [], hallwayPercent := 0, doors := [] },
    unplacedRoomIds := [],
    metadata := { strategy := "t", warnings := [] } }

/-- A two-floor envelope for the floor-assignment scenario. -/
def envTwoFloor : BuildingEnvelope :=
  { shape := .rectangle, segments := [], totalSqft := 200, boundingWidth := 10,
    boundingDepth := 10, streetFacing := .south, lot := DEFAULT_LOT,
    buildableRect := ⟨0, 0, 10, 10⟩, footprint := ⟨0, 0, 10, 10⟩,
    floorRects := { one := ⟨0, 0, 10, 10⟩, two := some ⟨0, 0, 10, 10⟩ },
    targetSqftPerFloor := 100, gridResolution := 1 }

/-- A normalized room without a floor pin. -/
def mkUnpinnedRoom (id : String) (type : RoomType) (zone : Zone) : NormalizedRoom :=
  { id, type, label := id, targetSqft := 100, minSqft := 100, minWidth := 10, minDepth := 10,
    targetWidth := 10, targetDepth := 10, needsExteriorWall := true, needsPlumbing := false,
    zone, mustHave := true, adjacentTo := [], awayFrom := [], floor := none, priority := 50 }

/-- A two-story normalized brief with an unpinned private bedroom and an
unpinned stairs room. -/
def briefTwoStory : NormalizedBrief :=
  { targetSqft := 200, stories := 2, style := .ranch,
    rooms := [mkUnpinnedRoom "bedroom-1" .bedroom .private',
              mkUnpinnedRoom "stairs-1" .stairs .circulation],
    lot := DEFAULT_LOT, metadata := { impliedRoomIds := [], warnings := [] } }

/-- A placed room that receives windows (exterior walls listed). -/
def mkWindowRoom (id : String) (type : RoomType) (zone : Zone) (w d : ℚ)
    (walls : List Direction) : PlacedRoom :=
  { id, type, label := id, x := 0, y := 0, width := w, depth := d, floor := 1,
    sqft := w * d, zone, rotation := 0, adjacentRoomIds := [], exteriorWalls := walls,
    hasPlumbing := false, needsExteriorWall := some true }

/-- A plan with a two-walled primary bedroom (two windows cycling over two
walls) and a 3-foot-wide bedroom (wall shorter than 3.5 feet). -/
def windowPlan : PlacedPlan :=
  { brief := briefStub, envelope := envNarrow,
    rooms := [mkWindowRoom "pb-1" .primary_bed .private' 10 8 [.north, .east],
              mkWindowRoom "bed-2" .bedroom .private' 3 8 [.north]],
    doors := [], windows := [],
    circulation :=
      { isFullyConnected := true, deadEnds := [], mainPath := [], hallwayPercent := 0, doors := [] },
    unplacedRoomIds := [], metadata := { strategy := "t", warnings := [] } }

/-- A room requirement with explicit areas. -/
def mkRoomReq (type : RoomType) (minA target : ℚ) : RoomRequirement :=
  { type, label := "", minSqft := some minA, targetSqft := some target, mustHave := true,
    adjacentTo := none, awayFrom := none, needsExteriorWall := none,
    needsPlumbing := none, floor := none }

/-- A brief whose room targets sum to 1005 against a 1000 ft² target: the
scale 1000/1005 falls inside the 1 % dead band, so scaling leaves the
rooms untouched. -/
def briefScale : DesignBrief :=
  { targetSqft := 1000, stories := 1, style := .ranch,
    rooms := [mkRoomReq .foyer 1 600, mkRoomReq .hallway 1 405], lot := none }

/-- Rooms exercising the proportional-scaling branch of
`scaleRoomsToTargetSqft` (total 400 against target 200). -/
def scaleWitnessRooms : List NormalizedRoom :=
  [ { mkUnpinnedRoom "a-1" .office .private' with targetSqft := 100, minSqft := 10 },
    { mkUnpinnedRoom "b-1" .bedroom .private' with targetSqft := 300, minSqft := 10 } ]

def ctxColoradoC : ComplianceContext :=
  { jurisdiction := .colorado, buildingType := .residential }

def ctxIrcBaseC : ComplianceContext :=
  { jurisdiction := .ircBase, buildingType := .residential }

/-- A valid plan (one 64 ft² bedroom, no doors). -/
def bedPlan : PlacedPlan :=
  { brief := briefStub, envelope := envNarrow,
    rooms := [mkWindowRoom "bed-1" .bedroom .private' 8 8 [.north]],
    doors := [], windows := [],
    circulation :=
      { isFullyConnected := true, deadEnds := [], mainPath := [], hallwayPercent := 0, doors := [] },
    unplacedRoomIds := [], metadata := { strategy := "t", warnings := [] } }

/-- A placeholder window (used only as a `getD` default). -/
def windowDefault : WindowPlacement :=
  { id := "", wallId := "", position := 0, width := 0, height := 0, sillHeight := 0,
    type := .standard }

/-- Spec predicate for C9: window `w` is the `i`-th of the
`windowTargetCount room` windows of `room`, as `windowsForRoom` builds it:
its wall is the `i % walls.length`-th of the by-length-sorted exterior
walls, its position is `windowPosition` of the room-global index `i` and
room-global total over `max 2 L`, and its width is
`max 1.5 (min configWidth (max 1.5 (L − 2)))`. -/
def windowMatchesRoom (room : PlacedRoom) (i : ℕ) (w : WindowPlacement) : Prop :=
  let walls := sortedWallsByLength room
  let wall := walls.getD (i % walls.length) Direction.north
  w.wallDirection = some wall ∧ w.roomId = some room.id ∧
  w.position = windowPosition i (windowTargetCount room) (max 2 (wallLength room wall)) ∧
  w.width = max (3/2) (min (inferWindowConfig room).width (max (3/2) (wallLength room wall - 2)))

/-- Every stored neighbor set of the map is duplicate free. -/
def valuesNodup (m : AdjMap) : Prop :=
  ∀ k v, mapGet? m k = some v → v.Nodup

/-- Edge `k → v` is recorded in the map. -/
def edgeIn (m : AdjMap) (k v : String) : Prop :=
  ∃ s, mapGet? m k = some s ∧ v ∈ s

-- ── Theorems ──────────────────────────────────────────────────────

theorem clampScore_nonneg (v : ℚ) : 0 ≤ clampScore v := le_max_left _ _

theorem clampScore_le (v : ℚ) : clampScore v ≤ 100 :=
  max_le (by norm_num) (min_le_left _ _)

theorem toFixed2_sub_le (x : ℚ) : |toFixed2 x - x| ≤ 1/200 := by
  have h : |x * 100 - (round (x * 100) : ℚ)| ≤ 1/2 := abs_sub_round (x * 100)
  have e : toFixed2 x - x = -((x * 100 - (round (x * 100) : ℚ)) / 100) := by
    unfold toFixed2; ring
  rw [e, abs_neg, abs_div, show |(100 : ℚ)| = 100 by norm_num]
  linarith

theorem round_mem_of_mem (x : ℚ) (h0 : 0 ≤ x) (h1 : x ≤ 100) :
    (0 : ℤ) ≤ round (x * 100) ∧ round (x * 100) ≤ 10000 := by
  constructor
  · rw [round_eq, Int.le_floor]
    push_cast
    linarith
  · rw [round_eq]
    have h2 : (↑⌊x * 100 + 1/2⌋ : ℚ) ≤ x * 100 + 1/2 := Int.floor_le _
    have h3 : (↑⌊x * 100 + 1/2⌋ : ℚ) < 10001 := by linarith
    exact Int.lt_add_one_iff.mp (by exact_mod_cast h3)

theorem toFixed2_mem (x : ℚ) (h0 : 0 ≤ x) (h1 : x ≤ 100) :
    0 ≤ toFixed2 x ∧ toFixed2 x ≤ 100 := by
  obtain ⟨hl, hr⟩ := round_mem_of_mem x h0 h1
  unfold toFixed2
  constructor
  · exact div_nonneg (by exact_mod_cast hl) (by norm_num)
  · have : ((round (x * 100) : ℤ) : ℚ) ≤ 10000 := by exact_mod_cast hr
    linarith

theorem clampScore_eq_toFixed2 (x : ℚ) (h0 : 0 ≤ x) (h1 : x ≤ 100) :
    clampScore x = toFixed2 x := by
  obtain ⟨hl, hr⟩ := toFixed2_mem x h0 h1
  unfold clampScore
  rw [min_eq_right hr, max_eq_right hl]

theorem clampScore_mem (v : ℚ) : 0 ≤ clampScore v ∧ clampScore v ≤ 100 :=
  ⟨clampScore_nonneg v, clampScore_le v⟩

theorem ite_mem (c : Prop) [Decidable c] (a b : ℚ) (ha : 0 ≤ a ∧ a ≤ 100)
    (hb : 0 ≤ b ∧ b ≤ 100) :
    0 ≤ (if c then a else b) ∧ (if c then a else b) ≤ 100 := by
  split
  · exact ha
  · exact hb

theorem optionCase_mem (o : Option PlacedRoom) (f : PlacedRoom → ℚ)
    (hf : ∀ e, 0 ≤ f e ∧ f e ≤ 100) :
    0 ≤ (match o with | none => (0 : ℚ) | some e => f e) ∧
      (match o with | none => (0 : ℚ) | some e => f e) ≤ 100 := by
  cases o
  · exact ⟨le_refl 0, by norm_num⟩
  · exact hf _

theorem scoreAdjacency_mem (plan : PlacedPlan) :
    0 ≤ scoreAdjacency plan ∧ scoreAdjacency plan ≤ 100 := clampScore_mem _

theorem scoreZoneCohesion_mem (plan : PlacedPlan) :
    0 ≤ scoreZoneCohesion plan ∧ scoreZoneCohesion plan ≤ 100 :=
  ite_mem _ _ _ (clampScore_mem _) ⟨by norm_num, by norm_num⟩

theorem scoreNaturalLight_mem (plan : PlacedPlan) :
    0 ≤ scoreNaturalLight plan ∧ scoreNaturalLight plan ≤ 100 :=
  ite_mem _ _ _ (clampScore_mem _) ⟨by norm_num, by norm_num⟩

theorem scorePlumbingEfficiency_mem (plan : PlacedPlan) (walls : WallAnalysis) :
    0 ≤ scorePlumbingEfficiency plan walls ∧ scorePlumbingEfficiency plan walls ≤ 100 :=
  ite_mem _ _ _ ⟨by norm_num, by norm_num⟩ (clampScore_mem _)

theorem scoreCirculation_mem (plan : PlacedPlan) :
    0 ≤ scoreCirculation plan ∧ scoreCirculation plan ≤ 100 := clampScore_mem _

theorem scoreSpaceUtilization_mem (plan : PlacedPlan) :
    0 ≤ scoreSpaceUtilization plan ∧ scoreSpaceUtilization plan ≤ 100 :=
  ite_mem _ _ _ ⟨by norm_num, by norm_num⟩ (clampScore_mem _)

theorem scorePrivacyGradient_mem (plan : PlacedPlan) :
    0 ≤ scorePrivacyGradient plan ∧ scorePrivacyGradient plan ≤ 100 :=
  optionCase_mem _ _ fun _ => ite_mem _ _ _ ⟨by norm_num, by norm_num⟩ (clampScore_mem _)

theorem scoreBuildability_mem (plan : PlacedPlan) (walls : WallAnalysis) :
    0 ≤ scoreBuildability plan walls ∧ scoreBuildability plan walls ≤ 100 := clampScore_mem _

/-- C5: for every placed plan and wall analysis, `scorePlan` yields eight
sub-scores in [0, 100], and the overall score is the arithmetic mean of
the eight sub-scores to within 0.01 (the overall is the mean rounded to
two decimals, hence within 1/200). -/
theorem c5_scores_bounded_overall_mean (plan : PlacedPlan) (walls : WallAnalysis) :
    (∀ x ∈ subScores (scorePlan plan walls), 0 ≤ x ∧ x ≤ 100) ∧
    |(scorePlan plan walls).overall - (subScores (scorePlan plan walls)).sum / 8| ≤ 1/100 := by
  have ha := scoreAdjacency_mem plan
  have hz := scoreZoneCohesion_mem plan
  have hn := scoreNaturalLight_mem plan
  have hp := scorePlumbingEfficiency_mem plan walls
  have hc := scoreCirculation_mem plan
  have hs := scoreSpaceUtilization_mem plan
  have hg := scorePrivacyGradient_mem plan
  have hb := scoreBuildability_mem plan walls
  have hsub : subScores (scorePlan plan walls) =
      [scoreAdjacency plan, scoreZoneCohesion plan, scoreNaturalLight plan,
       scorePlumbingEfficiency plan walls, scoreCirculation plan,
       scoreSpaceUtilization plan, scorePrivacyGradient plan,
       scoreBuildability plan walls] := rfl
  have hoverall : (scorePlan plan walls).overall =
      clampScore ((scoreAdjacency plan + scoreZoneCohesion plan + scoreNaturalLight plan +
        scorePlumbingEfficiency plan walls + scoreCirculation plan +
        scoreSpaceUtilization plan + scorePrivacyGradient plan +
        scoreBuildability plan walls) / 8) := rfl
  constructor
  · intro x hx
    rw [hsub] at hx
    simp only [List.mem_cons, List.not_mem_nil, or_false] at hx
    rcases hx with h | h | h | h | h | h | h | h <;> subst h <;> assumption
  · rw [hsub, hoverall]
    set m : ℚ := (scoreAdjacency plan + scoreZoneCohesion plan + scoreNaturalLight plan +
      scorePlumbingEfficiency plan walls + scoreCirculation plan +
      scoreSpaceUtilization plan + scorePrivacyGradient plan +
      scoreBuildability plan walls) / 8 with hm
    have hsum : [scoreAdjacency plan, scoreZoneCohesion plan, scoreNaturalLight plan,
       scorePlumbingEfficiency plan walls, scoreCirculation plan,
       scoreSpaceUtilization plan, scorePrivacyGradient plan,
       scoreBuildability plan walls].sum / 8 = m := by
      simp only [List.sum_cons, List.sum_nil, hm]
      ring
    rw [hsum]
    have hm0 : 0 ≤ m := by
      rw [hm]
      have := ha.1; have := hz.1; have := hn.1; have := hp.1
      have := hc.1; have := hs.1; have := hg.1; have := hb.1
      linarith
    have hm1 : m ≤ 100 := by
      rw [hm]
      have := ha.2; have := hz.2; have := hn.2; have := hp.2
      have := hc.2; have := hs.2; have := hg.2; have := hb.2
      linarith
    rw [clampScore_eq_toFixed2 m hm0 hm1]
    have := toFixed2_sub_le m
    linarith

/-- C3: under the cited floor-assignment rule, a two-story brief should
send unpinned private rooms to floor 2 and stairs to floor 1.  The code
instead assigns floor 1 to every unpinned room: `assignZones` passes
`floor: room.floor ?? 1` into `assignFloor`, whose `if (room.floor)`
truthiness test then always fires, so the stairs and private-zone branches
are dead.  The second conjunct shows the dead branch's intent: called with
a falsy floor, `assignFloor` would send a private room to floor 2. -/
theorem c3_floor_assignment_bug :
    ((assignZones briefTwoStory envTwoFloor {}).rooms.map fun r => (r.id, r.floor)) =
      [("bedroom-1", 1), ("stairs-1", 1)] ∧
    assignFloor ((mkUnpinnedRoom "bedroom-1" .bedroom .private').withFloor 0) 2 = 2 := by
  constructor
  · with_unfolding_all decide
  · with_unfolding_all decide

/-- C4 counterexample: a plan with one room and no doors is not rejected —
`check` returns a report, because `validatePlan` only requires `doors` to
be an array, never nonempty.  This refutes the claim's "rejects … if …
no doors" direction. -/
theorem c4_counterexample :
    bedPlan.doors = [] ∧ bedPlan.rooms ≠ [] ∧
      (engineCheck baseRegistry bedPlan ctxIrcBaseC none).isOk = true := by
  refine ⟨rfl, by with_unfolding_all decide, by with_unfolding_all decide⟩

/-- C4 amended: the compliance engine's `check` raises (producing no
report) if and only if the plan has no rooms; every plan with at least
one room — doors or not — yields a complete report. -/
theorem c4_amended_validate (reg : Registry) (plan : PlacedPlan)
    (ctx : ComplianceContext) (options : Option RuleExecutionOptions) :
    (∃ e, engineCheck reg plan ctx options = .error e) ↔ plan.rooms = [] := by
  unfold engineCheck validatePlan
  rcases h : plan.rooms with _ | ⟨r, rs⟩
  · simp [h]
  · simp [h]

theorem filterMap_ite {α β : Type} (p : α → Prop) [DecidablePred p] (f : α → β) (l : List α) :
    (l.filterMap fun a => if p a then some (f a) else none) =
      (l.filter fun a => decide (p a)).map f := by
  induction l with
  | nil => rfl
  | cons x xs ih =>
    by_cases h : p x <;> simp [List.filterMap_cons, List.filter_cons, h, ih]

/-- C8: rule `R304.1-bedroom-area` fails exactly when some `primary_bed` or
`bedroom` room is under 70 ft², and each such room contributes an
error-severity violation with the room's square footage as current value,
70 as required value and unit "sq ft". -/
theorem c8_bedroom_area_rule (plan : PlacedPlan) (ctx : ComplianceContext) :
    ((minimumBedroomArea.check plan ctx).passed = false ↔
      ∃ room ∈ plan.rooms, (room.type = .primary_bed ∨ room.type = .bedroom) ∧ room.sqft < 70) ∧
    (minimumBedroomArea.check plan ctx).violations =
      ((plan.rooms.filter isBedroom).filter (fun r => r.sqft < 70)).map bedroomAreaViolation ∧
    ∀ room : PlacedRoom,
      (bedroomAreaViolation room).severity = .error ∧
      (bedroomAreaViolation room).currentValue = some (.num room.sqft) ∧
      (bedroomAreaViolation room).requiredValue = some (.num 70) ∧
      (bedroomAreaViolation room).unit = some "sq ft" := by
  have hv : (minimumBedroomArea.check plan ctx).violations =
      ((plan.rooms.filter isBedroom).filter (fun r => r.sqft < 70)).map bedroomAreaViolation := by
    show ((plan.rooms.filter isBedroom).filterMap fun room =>
        if room.sqft < 70 then some (bedroomAreaViolation room) else none) =
      ((plan.rooms.filter isBedroom).filter fun r => decide (r.sqft < 70)).map bedroomAreaViolation
    exact filterMap_ite (fun r => r.sqft < 70) bedroomAreaViolation (plan.rooms.filter isBedroom)
  refine ⟨?_, hv, fun room => ⟨rfl, rfl, rfl, rfl⟩⟩
  have hp : (minimumBedroomArea.check plan ctx).passed =
      decide ((minimumBedroomArea.check plan ctx).violations.length = 0) := rfl
  rw [hp, hv]
  simp only [decide_eq_false_iff_not, List.length_map, List.length_eq_zero,
    List.filter_eq_nil_iff, not_forall]
  constructor
  · rintro ⟨room, hmem, hlt⟩
    refine ⟨room, ?_, ?_, ?_⟩
    · exact List.mem_of_mem_filter hmem
    · have := List.of_mem_filter hmem
      simpa [isBedroom] using this
    · simpa using hlt
  · rintro ⟨room, hmem, htype, hlt⟩
    refine ⟨room, ?_, by simpa using hlt⟩
    exact List.mem_filter.mpr ⟨hmem, by simpa [isBedroom] using htype⟩

set_option maxRecDepth 100000 in
/-- C7 counterexample: for `briefScale` the normalized targets sum to 1005
against a brief target of 1000.  The scale 1000/1005 lies inside the 1 %
dead band of `scaleRoomsToTargetSqft`, so nothing is rescaled and no
warning is emitted, yet every room's minimum area is 1 < |1005 − 1000|:
the sum is not within one room's minimum area of the target (under any
reading of "one room's"), refuting the claim's first part. -/
theorem c7_counterexample :
    ((normalizeDesignBrief briefScale).rooms.map (·.targetSqft)).sum = 1005 ∧
    briefScale.targetSqft = 1000 ∧
    (∀ r ∈ (normalizeDesignBrief briefScale).rooms, r.minSqft = 1) ∧
    (normalizeDesignBrief briefScale).metadata.warnings = [] ∧
    ¬ |((normalizeDesignBrief briefScale).rooms.map (·.targetSqft)).sum -
        briefScale.targetSqft| ≤ 1 := by
  refine ⟨?_, ?_, ?_, ?_, ?_⟩ <;> with_unfolding_all decide

theorem abs_sum_round_err (l : List ℚ) :
    |(l.map (fun t => jsRound t)).sum - l.sum| ≤ l.length / 2 := by
  induction l with
  | nil => simp
  | cons x xs ih =>
    have hx : |jsRound x - x| ≤ 1/2 := by
      unfold jsRound
      have := abs_sub_round x
      rw [abs_sub_comm] at this
      exact this
    have htri : |jsRound x - x + ((xs.map (fun t => jsRound t)).sum - xs.sum)| ≤
        |jsRound x - x| + |(xs.map (fun t => jsRound t)).sum - xs.sum| := abs_add _ _
    simp only [List.map_cons, List.sum_cons, List.length_cons]
    have e : jsRound x + (xs.map (fun t => jsRound t)).sum - (x + xs.sum) =
        jsRound x - x + ((xs.map (fun t => jsRound t)).sum - xs.sum) := by ring
    rw [e]
    push_cast
    calc |jsRound x - x + ((xs.map (fun t => jsRound t)).sum - xs.sum)|
        ≤ |jsRound x - x| + |(xs.map (fun t => jsRound t)).sum - xs.sum| := htri
      _ ≤ 1/2 + (xs.length : ℚ) / 2 := by linarith
      _ = ((xs.length : ℚ) + 1) / 2 := by ring

theorem map_proj_eq {α β γ : Type} (l : List α) (g : α → β) (p : β → γ) (q : α → γ)
    (h : ∀ a ∈ l, p (g a) = q a) : (l.map g).map p = l.map q := by
  rw [List.map_map]
  exact List.map_congr_left h

theorem sum_map_mul_const {α : Type} (l : List α) (f : α → ℚ) (c : ℚ) :
    (l.map fun x => f x * c).sum = (l.map f).sum * c := by
  induction l with
  | nil => simp
  | cons x xs ih => simp [List.map_cons, List.sum_cons, ih, add_mul]

/-- C7 amended: `scaleRoomsToTargetSqft` behaves as follows.  (1) When the
sum of minimum areas exceeds the brief target (and the target total is
positive), it emits one warning and sets every room's target area to its
minimum — the claim's second part, exactly.  (2) When the minima fit, the
scale is outside the 1 % dead band, and no room clamps at its minimum,
the rescaled target areas sum to the brief target to within half a square
foot per room (per-room rounding); inside the dead band the rooms are
left untouched, so only the weaker 1 %-of-target bound holds, and when
rooms clamp at their minimums the deviation is unbounded — the claim's
"within one room's minimum area" does not hold in general. -/
theorem c7_amended_scaling (targetSqft : ℚ) (rooms : List NormalizedRoom)
    (warnings : List String) :
    (0 < (rooms.map (·.targetSqft)).sum →
      targetSqft < (rooms.map (·.minSqft)).sum →
      (scaleRoomsToTargetSqft targetSqft rooms warnings).1.map (·.targetSqft) =
          rooms.map (·.minSqft) ∧
        (scaleRoomsToTargetSqft targetSqft rooms warnings).2.length = warnings.length + 1) ∧
    (0 < (rooms.map (·.targetSqft)).sum →
      (rooms.map (·.minSqft)).sum ≤ targetSqft →
      1/100 ≤ |1 - targetSqft / (rooms.map (·.targetSqft)).sum| →
      (∀ room ∈ rooms,
        room.minSqft ≤ jsRound (room.targetSqft * (targetSqft / (rooms.map (·.targetSqft)).sum))) →
      |((scaleRoomsToTargetSqft targetSqft rooms warnings).1.map (·.targetSqft)).sum -
          targetSqft| ≤ rooms.length / 2) := by
  constructor
  · intro htot hmin
    dsimp only [scaleRoomsToTargetSqft]
    rw [if_neg (not_le.mpr htot), if_pos (show _ > targetSqft from hmin)]
    constructor
    · exact map_proj_eq rooms _ _ _ fun r hr => rfl
    · simp
  · intro htot hmin hband hnoclamp
    have key : ∀ g : NormalizedRoom → NormalizedRoom,
        (∀ room ∈ rooms, (g room).targetSqft =
          jsRound (room.targetSqft * (targetSqft / (rooms.map (·.targetSqft)).sum))) →
        |(((rooms.map g).map (·.targetSqft)).sum - targetSqft)| ≤ (rooms.length : ℚ) / 2 := by
      intro g hg
      rw [map_proj_eq rooms g _ _ hg]
      have hcomp : ((rooms.map fun room =>
          room.targetSqft * (targetSqft / (rooms.map (·.targetSqft)).sum)).map fun t => jsRound t) =
          rooms.map fun room =>
            jsRound (room.targetSqft * (targetSqft / (rooms.map (·.targetSqft)).sum)) := by
        rw [List.map_map]
        rfl
      have hsum : (rooms.map fun room =>
          room.targetSqft * (targetSqft / (rooms.map (·.targetSqft)).sum)).sum = targetSqft := by
        rw [sum_map_mul_const rooms (·.targetSqft) (targetSqft / (rooms.map (·.targetSqft)).sum)]
        rw [mul_comm, div_mul_cancel₀ _ (ne_of_gt htot)]
      have h := abs_sum_round_err
        (rooms.map fun room => room.targetSqft * (targetSqft / (rooms.map (·.targetSqft)).sum))
      rw [hcomp, hsum, List.length_map] at h
      exact h
    dsimp only [scaleRoomsToTargetSqft]
    rw [if_neg (not_le.mpr htot), if_neg (not_lt.mpr hmin), if_neg (not_lt.mpr hband)]
    exact key _ fun room hroom => max_eq_right (hnoclamp room hroom)

theorem c7_witness :
    0 < ((scaleWitnessRooms.map (·.targetSqft)).sum) ∧
    (scaleWitnessRooms.map (·.minSqft)).sum ≤ 200 ∧
    |((scaleRoomsToTargetSqft 200 scaleWitnessRooms []).1.map (·.targetSqft)).sum - 200| ≤
      scaleWitnessRooms.length / 2 :=
  ⟨by with_unfolding_all decide, by with_unfolding_all decide,
    (c7_amended_scaling 200 scaleWitnessRooms []).2
      (by with_unfolding_all decide) (by with_unfolding_all decide)
      (by with_unfolding_all decide) (by with_unfolding_all decide)⟩

set_option maxRecDepth 100000 in
/-- C9 counterexample: on `windowPlan` the primary bedroom's north wall
(length 10) carries exactly one window, which the claim would place at
10/(1+1) × 1 = 5 feet; the produced position is 3.33 (the code uses the
room-global window index and count, 0 of 2, over `max 2 L`).  The second
room's only wall has length 3, for which the claim's width
clamp(3, 1.5, 3−2) is 1; the produced width is 1.5 (the code clamps as
`max 1.5 (min cfg (max 1.5 (L−2)))`). -/
theorem c9_counterexample :
    ((assignWindows windowPlan).windows.map fun w =>
        (w.roomId, w.wallDirection, w.position, w.width)) =
      [(some "pb-1", some Direction.north, 333/100, 4),
       (some "pb-1", some Direction.east, 533/100, 4),
       (some "bed-2", some Direction.north, 3/2, 3/2)] ∧
    ((assignWindows windowPlan).windows.filter fun w =>
        w.roomId = some "pb-1" ∧ w.wallDirection = some Direction.north).length = 1 ∧
    (333 : ℚ)/100 ≠ wallLength (mkWindowRoom "pb-1" .primary_bed .private' 10 8
        [.north, .east]) .north / (1 + 1) * (0 + 1) ∧
    jsClamp (inferWindowConfig (mkWindowRoom "bed-2" .bedroom .private' 3 8 [.north])).width
        (3/2) (3 - 2) = 1 ∧
    (3 : ℚ)/2 ≠ 1 := by
  refine ⟨?_, ?_, ?_, ?_, ?_⟩ <;> with_unfolding_all decide

theorem windowsForRoom_mem (room : PlacedRoom) (counter : ℕ) (w : WindowPlacement)
    (hw : w ∈ windowsForRoom room counter) :
    ∃ i < windowTargetCount room, windowMatchesRoom room i w := by
  dsimp only [windowsForRoom] at hw
  by_cases h : windowTargetCount room = 0 ∨ sortedWallsByLength room = []
  · rw [if_pos h] at hw
    exact absurd hw (List.not_mem_nil w)
  · rw [if_neg h] at hw
    rw [List.mem_map] at hw
    obtain ⟨i, hi, rfl⟩ := hw
    exact ⟨i, List.mem_range.mp hi, rfl, rfl, rfl, rfl⟩

/-- C9 amended: every window `assignWindows` produces belongs to some room
of the plan and is the `i`-th of that room's `windowTargetCount` windows
(room-global index), lying on wall `walls[i % walls.length]` of the
longest-first sorted exterior walls, positioned by `windowPosition i total
(max 2 L)` — index and total are per room, not per wall, and short walls
are padded to length 2 — with width `max 1.5 (min configWidth
(max 1.5 (L − 2)))`, not `clamp(configWidth, 1.5, L − 2)`. -/
theorem c9_amended_windows (plan : PlacedPlan) :
    ∀ w ∈ (assignWindows plan).windows,
      ∃ room ∈ plan.rooms, ∃ i < windowTargetCount room, windowMatchesRoom room i w := by
  intro w hw
  dsimp only [assignWindows] at hw
  refine List.foldlRecOn plan.rooms _ ([], plan.metadata.warnings, 1)
    (motive := fun st => w ∈ st.1 →
      ∃ room ∈ plan.rooms, ∃ i < windowTargetCount room, windowMatchesRoom room i w)
    (fun hmem => absurd hmem (List.not_mem_nil w)) ?_ hw
  rintro ⟨ws, warns, counter⟩ ih room hroom hmem
  dsimp only at hmem
  by_cases h0 : windowTargetCount room = 0
  · rw [if_pos h0] at hmem
    exact ih hmem
  · rw [if_neg h0] at hmem
    by_cases hwalls : sortedWallsByLength room = []
    · rw [if_pos hwalls] at hmem
      by_cases hneed : room.needsExteriorWall.getD false = true
      · rw [if_pos hneed] at hmem
        exact ih hmem
      · rw [if_neg hneed] at hmem
        exact ih hmem
    · rw [if_neg hwalls] at hmem
      rcases List.mem_append.mp hmem with hmem' | hmem'
      · exact ih hmem'
      · obtain ⟨i, hi, hmatch⟩ := windowsForRoom_mem room counter w hmem'
        exact ⟨room, hroom, i, hi, hmatch⟩

theorem c9_witness :
    ((assignWindows windowPlan).windows.getD 0 windowDefault ∈
        (assignWindows windowPlan).windows) ∧
    ∃ room ∈ windowPlan.rooms, ∃ i < windowTargetCount room,
      windowMatchesRoom room i ((assignWindows windowPlan).windows.getD 0 windowDefault) :=
  ⟨by with_unfolding_all decide,
    c9_amended_windows windowPlan ((assignWindows windowPlan).windows.getD 0 windowDefault)
      (by with_unfolding_all decide)⟩

theorem filterMap_const_none {α β : Type} (l : List α) :
    (l.filterMap fun _ => (none : Option β)) = [] := by
  induction l with
  | nil => rfl
  | cons x xs ih => simp [List.filterMap_cons, ih]

theorem exceptMap_ok {ε α β : Type} (f : α → β) (a : α) :
    Except.map f (Except.ok a : Except ε α) = .ok (f a) := rfl

theorem ceiling_base_result (plan : PlacedPlan) (ctx : ComplianceContext) :
    minimumCeilingHeight.check plan ctx =
      { ruleId := "R304.3-ceiling-height", passed := true, violations := [],
        metadata := some [("note",
          "Assuming 8' ceiling height - actual heights should be specified in plan data")] } := by
  dsimp only [minimumCeilingHeight]
  simp only [if_neg (show ¬((8 : ℚ) < 15/2) from by norm_num), filterMap_const_none]
  rfl

theorem ceiling_colorado_result (plan : PlacedPlan) (ctx : ComplianceContext) :
    coloradoCeilingCheck plan ctx =
      { ruleId := "R304.3-ceiling-height", passed := true, violations := [],
        metadata := some [("coloradoAmendment", "true"), ("energyConsiderations", "true")] } := by
  dsimp only [coloradoCeilingCheck]
  simp only [if_neg (show ¬((8 : ℚ) < 15/2) from by norm_num),
    if_neg (show ¬((8 : ℚ) < 8) from by norm_num), filterMap_const_none]
  rfl

theorem runRuleStep_none (plan : PlacedPlan) (ctx : ComplianceContext)
    (acc : List RuleResult) (rule : ComplianceRule) :
    runRuleStep plan ctx none (acc, false) rule =
      (acc ++ [adjustResult plan ctx rule], false) := rfl

theorem runRules_acc (plan : PlacedPlan) (ctx : ComplianceContext)
    (rules : List ComplianceRule) (acc : List RuleResult) :
    (rules.foldl (runRuleStep plan ctx none) (acc, false)).1 =
      acc ++ rules.map (adjustResult plan ctx) := by
  induction rules generalizing acc with
  | nil => simp
  | cons r rs ih =>
    rw [List.foldl_cons, runRuleStep_none, ih]
    simp

theorem runRules_none (rules : List ComplianceRule) (plan : PlacedPlan)
    (ctx : ComplianceContext) :
    runRules rules plan ctx none = rules.map (adjustResult plan ctx) := by
  unfold runRules
  rw [runRules_acc]
  simp

/-- C2: on one engine, a `colorado` check durably replaces the
`R304.3-ceiling-height` entry with the amendment clone (conjunct 1: the
registry coming out of the run is the amended one — it is never restored),
yet a subsequent `irc-base` check of the same plan reports, for the
overridden rule, exactly the `(passed, violations)` a fresh engine's
`irc-base` run reports (conjuncts 2 and 3): both the base rule and the
Colorado override always pass with no violations under the assumed 8-foot
ceilings, so the claimed observational isolation holds. -/
theorem c2_override_isolation (plan : PlacedPlan) (h : 0 < plan.rooms.length) :
    (engineCheck baseRegistry plan ctxColoradoC none).map (·.2) =
      .ok (applyJurisdictionAmendments baseRegistry Jurisdiction.colorado) ∧
    ((engineCheck (applyJurisdictionAmendments baseRegistry Jurisdiction.colorado)
        plan ctxIrcBaseC none).map
      (fun pr => (pr.1.results.filter fun r => r.ruleId = "R304.3-ceiling-height").map
        fun r => (r.passed, r.violations))) =
      ((engineCheck baseRegistry plan ctxIrcBaseC none).map
        (fun pr => (pr.1.results.filter fun r => r.ruleId = "R304.3-ceiling-height").map
          fun r => (r.passed, r.violations))) ∧
    ((engineCheck baseRegistry plan ctxIrcBaseC none).map
        (fun pr => (pr.1.results.filter fun r => r.ruleId = "R304.3-ceiling-height").map
          fun r => (r.passed, r.violations))) = .ok [(true, [])] := by
  have hv : validatePlan plan = true := by
    unfold validatePlan
    exact decide_eq_true h
  have hL : filterRules ((regAllRules (applyJurisdictionAmendments baseRegistry
      ctxIrcBaseC.jurisdiction)).filter
        (fun rule => ctxIrcBaseC.jurisdiction ∈ rule.applicableJurisdictions)) none =
      roomMinimumRules := rfl
  have hLco : filterRules ((regAllRules (applyJurisdictionAmendments
      (applyJurisdictionAmendments baseRegistry Jurisdiction.colorado)
      ctxIrcBaseC.jurisdiction)).filter
        (fun rule => ctxIrcBaseC.jurisdiction ∈ rule.applicableJurisdictions)) none =
      [minimumHabitableArea, minimumBedroomArea, minimumHorizontalDimension,
       coloradoCeilingRuleClone, reducedCeilingHeightException, slopedCeilingRequirements,
       slopedCeilingOccupiedSpace, bedroomValidation] := rfl
  have hres : adjustResult plan ctxIrcBaseC minimumCeilingHeight =
      { ruleId := "R304.3-ceiling-height", passed := true, violations := [],
        executionTime := some 0,
        metadata := some [("note",
          "Assuming 8' ceiling height - actual heights should be specified in plan data")] } := by
    unfold adjustResult
    rw [ceiling_base_result plan ctxIrcBaseC]
    rfl
  have hchk : coloradoCeilingRuleClone.check = coloradoCeilingCheck := rfl
  have hresCo : adjustResult plan ctxIrcBaseC coloradoCeilingRuleClone =
      { ruleId := "R304.3-ceiling-height", passed := true, violations := [],
        executionTime := some 0,
        metadata := some [("coloradoAmendment", "true"), ("energyConsiderations", "true")] } := by
    unfold adjustResult
    rw [hchk, ceiling_colorado_result plan ctxIrcBaseC]
    rfl
  have hfilter : ((roomMinimumRules.map (adjustResult plan ctxIrcBaseC)).filter
      (fun r => r.ruleId = "R304.3-ceiling-height")) =
      [adjustResult plan ctxIrcBaseC minimumCeilingHeight] := rfl
  have hfilterCo : (([minimumHabitableArea, minimumBedroomArea, minimumHorizontalDimension,
       coloradoCeilingRuleClone, reducedCeilingHeightException, slopedCeilingRequirements,
       slopedCeilingOccupiedSpace, bedroomValidation].map
        (adjustResult plan ctxIrcBaseC)).filter
      (fun r => r.ruleId = "R304.3-ceiling-height")) =
      [adjustResult plan ctxIrcBaseC coloradoCeilingRuleClone] := rfl
  refine ⟨?_, ?_, ?_⟩
  · unfold engineCheck
    simp only [if_neg (not_not_intro hv)]
    rfl
  · unfold engineCheck
    simp only [if_neg (not_not_intro hv)]
    rw [exceptMap_ok, exceptMap_ok]
    dsimp only []
    rw [hL, hLco, runRules_none, runRules_none, hfilter, hfilterCo, hres, hresCo]
    rfl
  · unfold engineCheck
    simp only [if_neg (not_not_intro hv)]
    rw [exceptMap_ok]
    dsimp only []
    rw [hL, runRules_none, hfilter, hres]
    rfl

theorem c2_witness :
    0 < bedPlan.rooms.length ∧
    ((engineCheck baseRegistry bedPlan ctxIrcBaseC none).map
        (fun pr => (pr.1.results.filter fun r => r.ruleId = "R304.3-ceiling-height").map
          fun r => (r.passed, r.violations))) = .ok [(true, [])] :=
  ⟨by with_unfolding_all decide,
    (c2_override_isolation bedPlan (by with_unfolding_all decide)).2.2⟩

theorem perm_of_eq {α : Type} {l₁ l₂ : List α} (h : l₁ = l₂) : l₁.Perm l₂ :=
  h ▸ List.Perm.refl _

theorem perm_mid {α : Type} (A U : List α) (x : α) :
    ((A ++ [x]) ++ U).Perm ((A ++ U) ++ [x]) := by
  rw [List.append_assoc, List.append_assoc]
  exact List.Perm.append_left A List.perm_append_comm

theorem set_same {α : Type} (l : List α) (n : ℕ) (a : α) (h : l.get? n = some a) :
    l.set n a = l := by
  induction l generalizing n with
  | nil => simp at h
  | cons x xs ih =>
    cases n with
    | zero =>
      simp only [List.get?] at h
      cases h
      rfl
    | succ n =>
      simp only [List.get?] at h
      simp [List.set, ih n h]

theorem map_id_set (rs : List PlacedRoom) (i : ℕ) (a b : PlacedRoom)
    (hget : rs.get? i = some a) (hid : b.id = a.id) :
    (rs.set i b).map (·.id) = rs.map (·.id) := by
  rw [List.map_set]
  have hm : (rs.map (·.id)).get? i = some b.id := by
    rw [List.get?_map, hget, hid]
    rfl
  exact set_same _ _ _ hm

theorem populateAdjacency_ids (rooms : List PlacedRoom) :
    (populateAdjacency rooms).map (·.id) = rooms.map (·.id) := by
  unfold populateAdjacency
  have hcl : ((rooms.map fun r => { r with adjacentRoomIds := ([] : List String) }).map
      fun r => r.id) = rooms.map fun r => r.id :=
    map_proj_eq rooms _ _ _ fun r hr => rfl
  refine List.foldlRecOn _ _ _
    (motive := fun (rs : List PlacedRoom) => rs.map (·.id) = rooms.map (·.id)) hcl ?_
  intro rs hC ij hij
  dsimp only
  rcases h1 : rs.get? ij.1 with _ | a
  · dsimp only
    exact hC
  · rcases h2 : rs.get? ij.2 with _ | b
    · dsimp only
      exact hC
    · dsimp only
      by_cases hadj : areAdjacent a b = true
      · rw [if_pos hadj]
        rcases h3 : (rs.set ij.1
            { a with adjacentRoomIds := a.adjacentRoomIds ++ [b.id] }).get? ij.2 with _ | b1
        · dsimp only
          rw [map_id_set rs ij.1 a
            { a with adjacentRoomIds := a.adjacentRoomIds ++ [b.id] } h1 rfl]
          exact hC
        · dsimp only
          rw [map_id_set _ ij.2 b1
              { b1 with adjacentRoomIds := b1.adjacentRoomIds ++ [a.id] } h3 rfl,
            map_id_set rs ij.1 a
              { a with adjacentRoomIds := a.adjacentRoomIds ++ [b.id] } h1 rfl]
          exact hC
      · rw [if_neg hadj]
        exact hC

theorem placeRoomStep_ids (zoned : ZonedPlan) (envelope : BuildingEnvelope) (widthBias : ℚ)
    (st : PlaceState) (room : ZonedRoom) :
    ((placeRoomStep zoned envelope widthBias st room).placedRooms.map (·.id) ++
      (placeRoomStep zoned envelope widthBias st room).unplacedRoomIds).Perm
      ((st.placedRooms.map (·.id) ++ st.unplacedRoomIds) ++ [room.id]) := by
  unfold placeRoomStep
  rcases hfr : envelope.floorRect room.floor with _ | fr
  · dsimp only
    exact perm_of_eq (List.append_assoc _ _ _).symm
  · by_cases hf : room.floor = 1
    · rw [if_pos hf]
      dsimp only
      rcases hb : bestPlacementForRoom room fr st.grids.one st.placedRooms zoned widthBias
        with _ | best
      · dsimp only
        exact perm_of_eq (List.append_assoc _ _ _).symm
      · dsimp only
        simp only [List.map_append, List.map_cons, List.map_nil]
        exact perm_mid _ _ _
    · rw [if_neg hf]
      rcases hg : st.grids.two with _ | g2
      · dsimp only
        exact perm_of_eq (List.append_assoc _ _ _).symm
      · dsimp only
        rcases hb : bestPlacementForRoom room fr g2 st.placedRooms zoned widthBias with _ | best
        · dsimp only
          exact perm_of_eq (List.append_assoc _ _ _).symm
        · dsimp only
          simp only [List.map_append, List.map_cons, List.map_nil]
          exact perm_mid _ _ _

theorem placeFold_ids (zoned : ZonedPlan) (envelope : BuildingEnvelope) (widthBias : ℚ)
    (rooms : List ZonedRoom) (st : PlaceState) :
    ((rooms.foldl (placeRoomStep zoned envelope widthBias) st).placedRooms.map (·.id) ++
      (rooms.foldl (placeRoomStep zoned envelope widthBias) st).unplacedRoomIds).Perm
      ((st.placedRooms.map (·.id) ++ st.unplacedRoomIds) ++ rooms.map (·.id)) := by
  induction rooms generalizing st with
  | nil =>
    simp only [List.foldl_nil, List.map_nil, List.append_nil]
    exact List.Perm.refl _
  | cons r rs ih =>
    rw [List.foldl_cons]
    refine (ih _).trans ?_
    refine ((placeRoomStep_ids zoned envelope widthBias st r).append_right _).trans ?_
    exact perm_of_eq (by rw [List.append_assoc, List.map_cons, List.singleton_append])

/-- C10: `placeRooms` partitions the zoned rooms' identifiers — as a
multiset, the placed rooms' ids together with `unplacedRoomIds` are
exactly the input ids (each input id ends up in exactly one of the two
lists, and no other id appears). -/
theorem c10_placement_partition (zoned : ZonedPlan) (envelope : BuildingEnvelope)
    (options : PlacementOptions) :
    ((placeRooms zoned envelope options).rooms.map (·.id) ++
      (placeRooms zoned envelope options).unplacedRoomIds).Perm
      (zoned.rooms.map (·.id)) := by
  unfold placeRooms
  dsimp only
  rw [populateAdjacency_ids]
  refine (placeFold_ids zoned envelope _ (orderedRooms zoned.rooms options.placementOrder)
    _).trans ?_
  simp only [List.map_nil, List.append_nil, List.nil_append]
  exact (List.perm_insertionSort _ _).map _

-- ── Lemmas about the adjacency-map primitives (for C6) ────────────

theorem setAdd_nodup {s : List String} (hs : s.Nodup) (v : String) :
    (setAdd s v).Nodup := by
  unfold setAdd
  by_cases h : v ∈ s
  · rw [if_pos h]
    exact hs
  · rw [if_neg h]
    exact List.Nodup.append hs (List.nodup_singleton v) (List.disjoint_singleton.mpr h)

theorem mem_setAdd_self (s : List String) (v : String) : v ∈ setAdd s v := by
  unfold setAdd
  by_cases h : v ∈ s
  · rw [if_pos h]
    exact h
  · rw [if_neg h]
    simp

theorem mem_setAdd_of_mem {s : List String} {x : String} (hx : x ∈ s) (v : String) :
    x ∈ setAdd s v := by
  unfold setAdd
  by_cases h : v ∈ s
  · rw [if_pos h]
    exact hx
  · rw [if_neg h]
    exact List.mem_append_left _ hx

theorem setAdd_eq_of_mem {s : List String} {v : String} (h : v ∈ s) : setAdd s v = s :=
  if_pos h

theorem setFromList_nodup (l : List String) : (setFromList l).Nodup := by
  unfold setFromList
  refine List.foldlRecOn l setAdd []
    (motive := fun (s : List String) => s.Nodup) List.nodup_nil ?_
  intro s hs a ha
  exact setAdd_nodup hs a

theorem foldl_setAdd_acc (l acc : List String) (h : (acc ++ l).Nodup) :
    l.foldl setAdd acc = acc ++ l := by
  induction l generalizing acc with
  | nil => simp
  | cons x xs ih =>
    have hx : x ∉ acc := fun hmem =>
      (List.disjoint_of_nodup_append h) hmem (List.mem_cons_self x xs)
    have h' : ((acc ++ [x]) ++ xs).Nodup := by
      rw [List.append_assoc, List.singleton_append]
      exact h
    rw [List.foldl_cons, show setAdd acc x = acc ++ [x] from if_neg hx, ih (acc ++ [x]) h',
      List.append_assoc, List.singleton_append]

theorem setFromList_eq_self {l : List String} (h : l.Nodup) : setFromList l = l := by
  unfold setFromList
  rw [foldl_setAdd_acc l [] (by simpa using h), List.nil_append]

theorem mapGet?_mapSet_self (m : AdjMap) (k : String) (v : List String) :
    mapGet? (mapSet m k v) k = some v := by
  induction m with
  | nil => simp [mapSet, mapGet?]
  | cons hd rest ih =>
    obtain ⟨k', v'⟩ := hd
    by_cases h : k' = k
    · simp [mapSet, mapGet?, h]
    · simp [mapSet, mapGet?, h, ih]

theorem mapGet?_mapSet_other (m : AdjMap) (k : String) (v : List String) (k' : String)
    (h : k ≠ k') : mapGet? (mapSet m k v) k' = mapGet? m k' := by
  induction m with
  | nil => simp [mapSet, mapGet?, h]
  | cons hd rest ih =>
    obtain ⟨k₀, v₀⟩ := hd
    by_cases h0 : k₀ = k
    · subst h0
      simp [mapSet, mapGet?, h]
    · by_cases h1 : k₀ = k'
      · simp [mapSet, mapGet?, h0, h1, Ne.symm h]
      · simp [mapSet, mapGet?, h0, h1, ih]

theorem mapGet?_addEdge_self (m : AdjMap) (k v : String) :
    mapGet? (addEdge m k v) k = (mapGet? m k).map (fun s => setAdd s v) := by
  induction m with
  | nil => simp [addEdge, mapGet?]
  | cons hd rest ih =>
    obtain ⟨k₀, s₀⟩ := hd
    by_cases h : k₀ = k
    · simp [addEdge, mapGet?, h]
    · simp [addEdge, mapGet?, h, ih]

theorem mapGet?_addEdge_other (m : AdjMap) (k v k' : String) (h : k ≠ k') :
    mapGet? (addEdge m k v) k' = mapGet? m k' := by
  induction m with
  | nil => simp [addEdge, mapGet?]
  | cons hd rest ih =>
    obtain ⟨k₀, s₀⟩ := hd
    by_cases h0 : k₀ = k
    · subst h0
      simp [addEdge, mapGet?, h]
    · by_cases h1 : k₀ = k'
      · simp [addEdge, mapGet?, h0, h1, Ne.symm h]
      · simp [addEdge, mapGet?, h0, h1, ih]

theorem keysOf_addEdge (m : AdjMap) (k v : String) : keysOf (addEdge m k v) = keysOf m := by
  induction m with
  | nil => rfl
  | cons hd rest ih =>
    obtain ⟨k₀, s₀⟩ := hd
    by_cases h : k₀ = k
    · simp [addEdge, keysOf, h]
    · simp only [addEdge, if_neg h]
      simp [keysOf] at ih ⊢
      exact ih

theorem mapGet?_eq_none_iff (m : AdjMap) (k : String) :
    mapGet? m k = none ↔ k ∉ keysOf m := by
  induction m with
  | nil => simp [mapGet?, keysOf]
  | cons hd rest ih =>
    obtain ⟨k₀, s₀⟩ := hd
    by_cases h : k₀ = k
    · simp [mapGet?, keysOf, h]
    · simp [mapGet?, keysOf, h, ih, Ne.symm h]

theorem mapGet?_isSome_iff (m : AdjMap) (k : String) :
    (∃ v, mapGet? m k = some v) ↔ k ∈ keysOf m := by
  rcases hv : mapGet? m k with _ | v
  · rw [mapGet?_eq_none_iff] at hv
    simp [hv]
  · have : k ∈ keysOf m := by
      by_contra hk
      rw [← mapGet?_eq_none_iff] at hk
      rw [hk] at hv
      cases hv
    simp [this]

theorem keysOf_cons (a : String) (b : List String) (m : AdjMap) :
    keysOf ((a, b) :: m) = a :: keysOf m := rfl

theorem keysOf_mapSet (m : AdjMap) (k : String) (v : List String) :
    keysOf (mapSet m k v) = if k ∈ keysOf m then keysOf m else keysOf m ++ [k] := by
  induction m with
  | nil => simp [mapSet, keysOf]
  | cons hd rest ih =>
    obtain ⟨k₀, v₀⟩ := hd
    by_cases h : k₀ = k
    · subst h
      simp [mapSet, keysOf]
    · simp only [mapSet, if_neg h, keysOf_cons, List.mem_cons]
      by_cases hm : k ∈ keysOf rest
      · rw [if_pos (Or.inr hm), ih, if_pos hm]
      · rw [if_neg (fun hc => hc.elim (fun he => h he.symm) hm), ih, if_neg hm,
          List.cons_append]

theorem keysOf_mapSet_nodup {m : AdjMap} (h : (keysOf m).Nodup) (k : String)
    (v : List String) : (keysOf (mapSet m k v)).Nodup := by
  rw [keysOf_mapSet]
  by_cases hk : k ∈ keysOf m
  · rw [if_pos hk]
    exact h
  · rw [if_neg hk]
    exact List.Nodup.append h (List.nodup_singleton k) (List.disjoint_singleton.mpr hk)

theorem seedGraph_keys_nodup (rooms : List PlacedRoom) :
    (keysOf (seedGraph rooms)).Nodup := by
  unfold seedGraph
  refine List.foldlRecOn rooms _ []
    (motive := fun (m : AdjMap) => (keysOf m).Nodup) (by simp [keysOf]) ?_
  intro m hm room hroom
  exact keysOf_mapSet_nodup hm _ _

theorem mem_keysOf_mapSet (m : AdjMap) (k k' : String) (v : List String) :
    k' ∈ keysOf (mapSet m k v) ↔ k' ∈ keysOf m ∨ k' = k := by
  rw [keysOf_mapSet]
  by_cases hk : k ∈ keysOf m
  · rw [if_pos hk]
    constructor
    · exact Or.inl
    · rintro (h | rfl)
      · exact h
      · exact hk
  · rw [if_neg hk]
    simp

theorem seedGraph_keys_mem (rooms : List PlacedRoom) (k : String) :
    k ∈ keysOf (seedGraph rooms) ↔ k ∈ rooms.map (·.id) := by
  unfold seedGraph
  have gen : ∀ (rs : List PlacedRoom) (acc : AdjMap),
      k ∈ keysOf (rs.foldl (fun m room => mapSet m room.id (setFromList room.adjacentRoomIds))
        acc) ↔ k ∈ keysOf acc ∨ k ∈ rs.map (·.id) := by
    intro rs
    induction rs with
    | nil => simp
    | cons r rest ih =>
      intro acc
      rw [List.foldl_cons, ih, mem_keysOf_mapSet]
      simp
      tauto
  rw [gen rooms []]
  simp [keysOf]

theorem keysOf_seedGraph_congr (rooms₁ rooms₂ : List PlacedRoom)
    (h : rooms₁.map (·.id) = rooms₂.map (·.id)) :
    keysOf (seedGraph rooms₁) = keysOf (seedGraph rooms₂) := by
  unfold seedGraph
  have gen : ∀ (rs₁ rs₂ : List PlacedRoom) (acc₁ acc₂ : AdjMap),
      rs₁.map (·.id) = rs₂.map (·.id) → keysOf acc₁ = keysOf acc₂ →
      keysOf (rs₁.foldl (fun m room => mapSet m room.id (setFromList room.adjacentRoomIds))
          acc₁) =
        keysOf (rs₂.foldl (fun m room => mapSet m room.id (setFromList room.adjacentRoomIds))
          acc₂) := by
    intro rs₁
    induction rs₁ with
    | nil =>
      intro rs₂ acc₁ acc₂ hids hacc
      rw [List.map_nil] at hids
      rw [(List.map_eq_nil_iff.mp hids.symm)]
      exact hacc
    | cons r rest ih =>
      intro rs₂ acc₁ acc₂ hids hacc
      rcases rs₂ with _ | ⟨r₂, rest₂⟩
      · simp at hids
      · simp only [List.map_cons, List.cons.injEq] at hids
        rw [List.foldl_cons, List.foldl_cons]
        refine ih rest₂ _ _ hids.2 ?_
        rw [keysOf_mapSet, keysOf_mapSet, hacc, hids.1]
  exact gen rooms₁ rooms₂ [] [] h rfl

theorem adjmap_ext (m₁ : AdjMap) : ∀ (m₂ : AdjMap), keysOf m₁ = keysOf m₂ →
    (keysOf m₁).Nodup → (∀ k, mapGet? m₁ k = mapGet? m₂ k) → m₁ = m₂ := by
  induction m₁ with
  | nil =>
    intro m₂ hk _ _
    have h2 : keysOf m₂ = [] := hk.symm
    unfold keysOf at h2
    rw [List.map_eq_nil_iff.mp h2]
  | cons hd rest ih =>
    intro m₂ hk hnd hget
    obtain ⟨k₀, v₀⟩ := hd
    rcases m₂ with _ | ⟨⟨k₂, v₂⟩, rest₂⟩
    · simp [keysOf] at hk
    · rw [keysOf_cons, keysOf_cons] at hk
      injection hk with hk0 hkrest
      subst hk0
      have hv : v₀ = v₂ := by
        have := hget k₀
        simp [mapGet?] at this
        exact this
      subst hv
      rw [keysOf_cons, List.nodup_cons] at hnd
      have hrest : rest = rest₂ := by
        refine ih rest₂ hkrest hnd.2 fun k => ?_
        by_cases hkk : k = k₀
        · subst hkk
          have h1 : mapGet? rest k = none :=
            (mapGet?_eq_none_iff rest k).mpr hnd.1
          have h2 : mapGet? rest₂ k = none := by
            rw [mapGet?_eq_none_iff, ← hkrest]
            exact hnd.1
          rw [h1, h2]
        · have := hget k
          simp only [mapGet?, if_neg (fun h : k₀ = k => hkk h.symm)] at this
          exact this
      rw [hrest]

theorem valuesNodup_mapSet {m : AdjMap} (hm : valuesNodup m) {v : List String}
    (hv : v.Nodup) (k : String) : valuesNodup (mapSet m k v) := by
  intro k' v' hget
  by_cases h : k = k'
  · subst h
    rw [mapGet?_mapSet_self] at hget
    cases hget
    exact hv
  · rw [mapGet?_mapSet_other m k v k' h] at hget
    exact hm k' v' hget

theorem valuesNodup_addEdge {m : AdjMap} (hm : valuesNodup m) (k v : String) :
    valuesNodup (addEdge m k v) := by
  intro k' v' hget
  by_cases h : k = k'
  · subst h
    rw [mapGet?_addEdge_self] at hget
    rcases hs : mapGet? m k with _ | s
    · rw [hs] at hget
      cases hget
    · rw [hs] at hget
      cases hget
      exact setAdd_nodup (hm k s hs) v
  · rw [mapGet?_addEdge_other m k v k' h] at hget
    exact hm k' v' hget

theorem seedGraph_valuesNodup (rooms : List PlacedRoom) : valuesNodup (seedGraph rooms) := by
  unfold seedGraph
  refine List.foldlRecOn rooms _ []
    (motive := fun (m : AdjMap) => valuesNodup m) ?_ ?_
  · intro k v hget
    cases hget
  · intro m hm room hroom
    exact valuesNodup_mapSet hm (setFromList_nodup _) _

theorem addGraphEdges_valuesNodup {m : AdjMap} (hm : valuesNodup m)
    (pairs : List (PlacedRoom × PlacedRoom)) : valuesNodup (addGraphEdges m pairs) := by
  unfold addGraphEdges
  refine List.foldlRecOn pairs _ m
    (motive := fun (m : AdjMap) => valuesNodup m) hm ?_
  intro m' hm' p hp
  by_cases h : areAdjacent p.1 p.2 = true
  · rw [if_pos h]
    exact valuesNodup_addEdge (valuesNodup_addEdge hm' _ _) _ _
  · rw [if_neg h]
    exact hm'

theorem keysOf_addGraphEdges (m : AdjMap) (pairs : List (PlacedRoom × PlacedRoom)) :
    keysOf (addGraphEdges m pairs) = keysOf m := by
  unfold addGraphEdges
  induction pairs generalizing m with
  | nil => rfl
  | cons p ps ih =>
    rw [List.foldl_cons]
    rw [ih]
    by_cases h : areAdjacent p.1 p.2 = true
    · rw [if_pos h, keysOf_addEdge, keysOf_addEdge]
    · rw [if_neg h]

theorem seed_get_const (rooms : List PlacedRoom) (k : String) (v : List String) :
    ∀ (acc : AdjMap), (∀ room ∈ rooms, room.id = k → setFromList room.adjacentRoomIds = v) →
    mapGet? (rooms.foldl (fun m room => mapSet m room.id (setFromList room.adjacentRoomIds))
        acc) k =
      if rooms.any (fun r => r.id = k) then some v else mapGet? acc k := by
  induction rooms with
  | nil => simp
  | cons r rs ih =>
    intro acc hconst
    rw [List.foldl_cons, ih _ fun room hm hid => hconst room (List.mem_cons_of_mem r hm) hid]
    by_cases hr : r.id = k
    · have hv : setFromList r.adjacentRoomIds = v := hconst r (List.mem_cons_self r rs) hr
      by_cases hany : rs.any (fun r => decide (r.id = k)) = true
      · simp [hany, hr]
      · have hcons : ((r :: rs).any fun r => decide (r.id = k)) = true := by simp [hr]
        rw [if_neg hany, hcons, if_pos rfl, hv, ← hr, mapGet?_mapSet_self]
    · by_cases hany : rs.any (fun r => decide (r.id = k)) = true
      · simp [hany, hr]
      · have hcons : ((r :: rs).any fun r => decide (r.id = k)) =
            (rs.any fun r => decide (r.id = k)) := by simp [hr]
        rw [if_neg hany, hcons, if_neg hany, mapGet?_mapSet_other _ _ _ _ hr]

theorem edgeIn_mono_addEdge {m : AdjMap} {k v : String} (h : edgeIn m k v)
    (k' v' : String) : edgeIn (addEdge m k' v') k v := by
  obtain ⟨s, hget, hv⟩ := h
  by_cases hk : k' = k
  · subst hk
    exact ⟨setAdd s v', by rw [mapGet?_addEdge_self, hget]; rfl, mem_setAdd_of_mem hv v'⟩
  · exact ⟨s, by rw [mapGet?_addEdge_other m k' v' k hk]; exact hget, hv⟩

theorem edgeIn_mono_addGraphEdges {m : AdjMap} {k v : String} (h : edgeIn m k v)
    (pairs : List (PlacedRoom × PlacedRoom)) : edgeIn (addGraphEdges m pairs) k v := by
  unfold addGraphEdges
  refine List.foldlRecOn pairs _ m (motive := fun (m : AdjMap) => edgeIn m k v) h ?_
  intro m' hm' p hp
  by_cases hadj : areAdjacent p.1 p.2 = true
  · rw [if_pos hadj]
    exact edgeIn_mono_addEdge (edgeIn_mono_addEdge hm' _ _) _ _
  · rw [if_neg hadj]
    exact hm'

theorem edgeIn_addEdge_self {m : AdjMap} {k : String} (hk : k ∈ keysOf m) (v : String) :
    edgeIn (addEdge m k v) k v := by
  obtain ⟨s, hs⟩ := (mapGet?_isSome_iff m k).mpr hk
  exact ⟨setAdd s v, by rw [mapGet?_addEdge_self, hs]; rfl, mem_setAdd_self s v⟩

theorem addGraphEdges_edges_present (pairs : List (PlacedRoom × PlacedRoom)) :
    ∀ (m : AdjMap), (∀ p ∈ pairs, p.1.id ∈ keysOf m ∧ p.2.id ∈ keysOf m) →
    ∀ p ∈ pairs, areAdjacent p.1 p.2 = true →
      edgeIn (addGraphEdges m pairs) p.1.id p.2.id ∧
        edgeIn (addGraphEdges m pairs) p.2.id p.1.id := by
  induction pairs with
  | nil =>
    intro m _ p hp
    cases hp
  | cons q qs ih =>
    intro m hkeys p hp hadj
    have hstep : ∀ p' ∈ qs, p'.1.id ∈ keysOf (if areAdjacent q.1 q.2 = true
        then addEdge (addEdge m q.1.id q.2.id) q.2.id q.1.id else m) ∧
        p'.2.id ∈ keysOf (if areAdjacent q.1 q.2 = true
        then addEdge (addEdge m q.1.id q.2.id) q.2.id q.1.id else m) := by
      intro p' hp'
      have := hkeys p' (List.mem_cons_of_mem q hp')
      by_cases h : areAdjacent q.1 q.2 = true
      · rw [if_pos h, keysOf_addEdge, keysOf_addEdge]
        exact this
      · rw [if_neg h]
        exact this
    rcases List.mem_cons.mp hp with rfl | hp'
    · -- the pair itself is processed first; its edges then survive the rest
      have hk1 : p.1.id ∈ keysOf m := (hkeys p (List.mem_cons_self p qs)).1
      have hk2 : p.2.id ∈ keysOf (addEdge m p.1.id p.2.id) := by
        rw [keysOf_addEdge]
        exact (hkeys p (List.mem_cons_self p qs)).2
      have he1 : edgeIn (addEdge (addEdge m p.1.id p.2.id) p.2.id p.1.id) p.1.id p.2.id :=
        edgeIn_mono_addEdge (edgeIn_addEdge_self hk1 p.2.id) _ _
      have he2 : edgeIn (addEdge (addEdge m p.1.id p.2.id) p.2.id p.1.id) p.2.id p.1.id :=
        edgeIn_addEdge_self hk2 p.1.id
      have hfold : addGraphEdges m (p :: qs) =
          addGraphEdges (addEdge (addEdge m p.1.id p.2.id) p.2.id p.1.id) qs := by
        unfold addGraphEdges
        rw [List.foldl_cons, if_pos hadj]
      rw [hfold]
      exact ⟨edgeIn_mono_addGraphEdges he1 qs, edgeIn_mono_addGraphEdges he2 qs⟩
    · have hfold : addGraphEdges m (q :: qs) =
          addGraphEdges (if areAdjacent q.1 q.2 = true
            then addEdge (addEdge m q.1.id q.2.id) q.2.id q.1.id else m) qs := by
        unfold addGraphEdges
        rw [List.foldl_cons]
      rw [hfold]
      exact ih _ hstep p hp' hadj

theorem addEdge_no_op {m : AdjMap} {k v : String} {s : List String}
    (hget : mapGet? m k = some s) (hv : v ∈ s) : addEdge m k v = m := by
  induction m with
  | nil => cases hget
  | cons hd rest ih =>
    obtain ⟨k₀, s₀⟩ := hd
    by_cases h : k₀ = k
    · subst h
      simp only [mapGet?, if_pos rfl] at hget
      cases hget
      simp only [addEdge, if_true]
      rw [setAdd_eq_of_mem hv]
    · simp only [mapGet?, if_neg h] at hget
      simp only [addEdge, if_neg h]
      rw [ih hget]

theorem addGraphEdges_no_op (pairs : List (PlacedRoom × PlacedRoom)) (m : AdjMap)
    (h : ∀ p ∈ pairs, areAdjacent p.1 p.2 = true →
      edgeIn m p.1.id p.2.id ∧ edgeIn m p.2.id p.1.id) :
    addGraphEdges m pairs = m := by
  induction pairs with
  | nil => rfl
  | cons q qs ih =>
    unfold addGraphEdges
    rw [List.foldl_cons]
    by_cases hadj : areAdjacent q.1 q.2 = true
    · rw [if_pos hadj]
      obtain ⟨⟨s₁, hg1, hm1⟩, ⟨s₂, hg2, hm2⟩⟩ := h q (List.mem_cons_self q qs) hadj
      rw [addEdge_no_op hg1 hm1, addEdge_no_op hg2 hm2]
      exact ih fun p hp => h p (List.mem_cons_of_mem q hp)
    · rw [if_neg hadj]
      exact ih fun p hp => h p (List.mem_cons_of_mem q hp)

theorem allPairs_map {α β : Type} (f : α → β) (l : List α) :
    allPairs (l.map f) = (allPairs l).map (fun p => (f p.1, f p.2)) := by
  induction l with
  | nil => rfl
  | cons x xs ih =>
    simp only [List.map_cons, allPairs, ih, List.map_append, List.map_map]
    rfl

theorem allPairs_mem {α : Type} {l : List α} {p : α × α} (hp : p ∈ allPairs l) :
    p.1 ∈ l ∧ p.2 ∈ l := by
  induction l with
  | nil => cases hp
  | cons x xs ih =>
    simp only [allPairs, List.mem_append, List.mem_map] at hp
    rcases hp with ⟨y, hy, rfl⟩ | hp
    · exact ⟨List.mem_cons_self x xs, List.mem_cons_of_mem x hy⟩
    · obtain ⟨h1, h2⟩ := ih hp
      exact ⟨List.mem_cons_of_mem x h1, List.mem_cons_of_mem x h2⟩

theorem writeBack_ids (rooms : List PlacedRoom) (G : AdjMap) :
    (writeBackAdjacency rooms G).map (·.id) = rooms.map (·.id) := by
  unfold writeBackAdjacency
  exact map_proj_eq rooms _ _ _ fun r hr => rfl

theorem writeBack_idem (rooms : List PlacedRoom) (G : AdjMap) :
    writeBackAdjacency (writeBackAdjacency rooms G) G = writeBackAdjacency rooms G := by
  unfold writeBackAdjacency
  rw [List.map_map]
  exact List.map_congr_left fun r hr => rfl

theorem seedGraph_writeBack (rooms : List PlacedRoom) (G : AdjMap)
    (hkeys : keysOf G = keysOf (seedGraph rooms)) (hvals : valuesNodup G) :
    seedGraph (writeBackAdjacency rooms G) = G := by
  refine adjmap_ext _ G ?_ ?_ ?_
  · rw [keysOf_seedGraph_congr (writeBackAdjacency rooms G) rooms (writeBack_ids rooms G),
      hkeys]
  · rw [keysOf_seedGraph_congr (writeBackAdjacency rooms G) rooms (writeBack_ids rooms G)]
    exact seedGraph_keys_nodup rooms
  · intro k
    by_cases hk : k ∈ keysOf G
    · obtain ⟨v, hv⟩ := (mapGet?_isSome_iff G k).mpr hk
      rw [hv]
      have hconst : ∀ room ∈ writeBackAdjacency rooms G, room.id = k →
          setFromList room.adjacentRoomIds = v := by
        intro room hroom hid
        unfold writeBackAdjacency at hroom
        rw [List.mem_map] at hroom
        obtain ⟨r, hr, rfl⟩ := hroom
        have hid' : r.id = k := hid
        show setFromList ((mapGet? G r.id).getD []) = v
        rw [hid', hv]
        exact setFromList_eq_self (hvals k v hv)
      have hany : ((writeBackAdjacency rooms G).any fun r => decide (r.id = k)) = true := by
        rw [List.any_eq_true]
        have hmem : k ∈ (writeBackAdjacency rooms G).map (·.id) := by
          rw [writeBack_ids, ← seedGraph_keys_mem, ← hkeys]
          exact hk
        rw [List.mem_map] at hmem
        obtain ⟨room, hroom, hid⟩ := hmem
        exact ⟨room, hroom, by simp [hid]⟩
      have hg := seed_get_const (writeBackAdjacency rooms G) k v [] hconst
      unfold seedGraph
      rw [hg, if_pos hany]
    · have h1 : mapGet? G k = none := (mapGet?_eq_none_iff G k).mpr hk
      have h2 : mapGet? (seedGraph (writeBackAdjacency rooms G)) k = none := by
        rw [mapGet?_eq_none_iff,
          keysOf_seedGraph_congr (writeBackAdjacency rooms G) rooms (writeBack_ids rooms G),
          ← hkeys]
        exact hk
      rw [h1, h2]

theorem rebuild_idem (rooms : List PlacedRoom) :
    rebuildAdjacency (rebuildAdjacency rooms).1 = rebuildAdjacency rooms := by
  unfold rebuildAdjacency
  dsimp only
  have hkeysG : keysOf (addGraphEdges (seedGraph rooms) (allPairs rooms)) =
      keysOf (seedGraph rooms) := keysOf_addGraphEdges _ _
  have hvalsG : valuesNodup (addGraphEdges (seedGraph rooms) (allPairs rooms)) :=
    addGraphEdges_valuesNodup (seedGraph_valuesNodup rooms) _
  have hseed : seedGraph (writeBackAdjacency rooms
      (addGraphEdges (seedGraph rooms) (allPairs rooms))) =
      addGraphEdges (seedGraph rooms) (allPairs rooms) :=
    seedGraph_writeBack rooms _ hkeysG hvalsG
  have hedges : addGraphEdges (addGraphEdges (seedGraph rooms) (allPairs rooms))
      (allPairs (writeBackAdjacency rooms
        (addGraphEdges (seedGraph rooms) (allPairs rooms)))) =
      addGraphEdges (seedGraph rooms) (allPairs rooms) := by
    apply addGraphEdges_no_op
    intro p hp hadj
    unfold writeBackAdjacency at hp
    rw [allPairs_map] at hp
    rw [List.mem_map] at hp
    obtain ⟨q, hq, rfl⟩ := hp
    have hkeysm : ∀ p' ∈ allPairs rooms, p'.1.id ∈ keysOf (seedGraph rooms) ∧
        p'.2.id ∈ keysOf (seedGraph rooms) := by
      intro p' hp'
      obtain ⟨h1, h2⟩ := allPairs_mem hp'
      exact ⟨(seedGraph_keys_mem rooms _).mpr (List.mem_map_of_mem _ h1),
        (seedGraph_keys_mem rooms _).mpr (List.mem_map_of_mem _ h2)⟩
    exact addGraphEdges_edges_present (allPairs rooms) (seedGraph rooms) hkeysm q hq
      (show areAdjacent q.1 q.2 = true from hadj)
  rw [hseed, hedges, writeBack_idem]

theorem circStep_done {env : BuildingEnvelope} {st : CircState} (h : st.done = true) :
    circStep env st = st := by
  unfold circStep
  rw [if_pos h]

theorem circFinish_congr (q p' : PlacedPlan) (st₁ st₂ : CircState)
    (hbrief : q.brief = p'.brief) (henv : q.envelope = p'.envelope)
    (hwin : q.windows = p'.windows) (hunp : q.unplacedRoomIds = p'.unplacedRoomIds)
    (hre : rebuildAdjacency st₁.rooms = rebuildAdjacency st₂.rooms)
    (hdoors : st₁.doors = st₂.doors)
    (hmeta : ({ q.metadata with warnings := st₁.warnings } : PlanMetadata) =
      { p'.metadata with warnings := st₂.warnings }) :
    circFinish q st₁ = circFinish p' st₂ := by
  unfold circFinish
  rw [hre, hdoors, hmeta, hbrief, henv, hwin, hunp]

theorem eC_fixed (p : PlacedPlan) (st : CircState) (e : PlacedRoom)
    (hE : findEntryRoom (rebuildAdjacency st.rooms).1 = some e)
    (hlen : (bfs (rebuildAdjacency st.rooms).2 e.id).visited.length =
      (rebuildAdjacency st.rooms).1.length) :
    ensureCirculation (circFinish p st) = circFinish p st := by
  have hstab : rebuildAdjacency ((rebuildAdjacency st.rooms).1) =
      ((rebuildAdjacency st.rooms).1, (rebuildAdjacency st.rooms).2) := rebuild_idem st.rooms
  have hdone : (circInit (circFinish p st)).done = false := rfl
  have hrooms : (circInit (circFinish p st)).rooms = (rebuildAdjacency st.rooms).1 := rfl
  have hfix : circStep (circFinish p st).envelope (circInit (circFinish p st)) =
      { circInit (circFinish p st) with done := true } := by
    unfold circStep
    rw [if_neg (fun h => Bool.noConfusion (hdone ▸ h))]
    rw [hrooms, hstab]
    dsimp only
    rw [hE]
    dsimp only
    rw [if_pos hlen]
    rfl
  have hiter : (circStep (circFinish p st).envelope)^[8] (circInit (circFinish p st)) =
      { circInit (circFinish p st) with done := true } := by
    show (circStep (circFinish p st).envelope)^[7 + 1] (circInit (circFinish p st)) = _
    rw [Function.iterate_succ_apply, hfix]
    exact Function.iterate_fixed (circStep_done rfl) 7
  unfold ensureCirculation
  rw [hiter]
  refine circFinish_congr (circFinish p st) p
    { circInit (circFinish p st) with done := true } st rfl rfl rfl rfl ?_ rfl rfl
  exact rebuild_idem st.rooms

/-- C6 counterexample: `placedTwoRooms` has two rooms 3 feet apart on a
narrow footprint; every repair round's hallway overlaps both rooms without
touching either (`areAdjacent` demands exact edge contact), so each of the
8 rounds adds one hallway and two doors, and the loop never converges.  A
second `ensureCirculation` adds 8 more hallways (10 → 18 rooms) and 16
more doors: the function is not idempotent. -/
theorem c6_counterexample :
    (ensureCirculation placedTwoRooms).rooms.length = 10 ∧
    (ensureCirculation (ensureCirculation placedTwoRooms)).rooms.length = 18 ∧
    ensureCirculation (ensureCirculation placedTwoRooms) ≠ ensureCirculation placedTwoRooms := by
  have h1 : (ensureCirculation placedTwoRooms).rooms.length = 10 := by
    with_unfolding_all decide
  have h2 : (ensureCirculation (ensureCirculation placedTwoRooms)).rooms.length = 18 := by
    with_unfolding_all decide
  refine ⟨h1, h2, fun h => ?_⟩
  rw [h, h1] at h2
  exact absurd h2 (by decide)

/-- C6 amended: `ensureCirculation` is not idempotent in general (see the
counterexample), but it is idempotent on every plan whose result it
reports as fully connected.  If the produced plan's
`circulation.isFullyConnected` is true, a second application changes
nothing — `rebuildAdjacency` is a projection (proved unconditionally in
`rebuild_idem`), so the first round of the second run sees the same graph,
the entry BFS again reaches every room, and the loop breaks immediately
with no new hallway rooms or doors. -/
theorem c6_amended_idempotent_when_connected (p : PlacedPlan)
    (hconn : (ensureCirculation p).circulation.isFullyConnected = true) :
    ensureCirculation (ensureCirculation p) = ensureCirculation p := by
  have heta : rebuildAdjacency ((circStep p.envelope)^[8] (circInit p)).rooms =
      ((rebuildAdjacency ((circStep p.envelope)^[8] (circInit p)).rooms).1,
        (rebuildAdjacency ((circStep p.envelope)^[8] (circInit p)).rooms).2) := rfl
  unfold ensureCirculation at hconn
  rcases hE : findEntryRoom
      (rebuildAdjacency ((circStep p.envelope)^[8] (circInit p)).rooms).1 with _ | e
  · exfalso
    have hfalse : (circFinish p
        ((circStep p.envelope)^[8] (circInit p))).circulation.isFullyConnected = false := by
      unfold circFinish
      rw [heta]
      dsimp only
      rw [hE]
    rw [hfalse] at hconn
    exact absurd hconn (by simp)
  · have hlen : (bfs (rebuildAdjacency ((circStep p.envelope)^[8] (circInit p)).rooms).2
        e.id).visited.length =
        (rebuildAdjacency ((circStep p.envelope)^[8] (circInit p)).rooms).1.length := by
      by_contra hne
      have hfalse : (circFinish p
          ((circStep p.envelope)^[8] (circInit p))).circulation.isFullyConnected = false := by
        unfold circFinish
        rw [heta]
        dsimp only
        rw [hE]
        dsimp only
        exact decide_eq_false hne
      rw [hfalse] at hconn
      exact absurd hconn (by simp)
    show ensureCirculation (circFinish p ((circStep p.envelope)^[8] (circInit p))) =
      circFinish p ((circStep p.envelope)^[8] (circInit p))
    exact eC_fixed p ((circStep p.envelope)^[8] (circInit p)) e hE hlen

theorem c6_witness :
    (ensureCirculation singleRoomPlan).circulation.isFullyConnected = true ∧
    ensureCirculation (ensureCirculation singleRoomPlan) = ensureCirculation singleRoomPlan :=
  ⟨by with_unfolding_all decide,
    c6_amended_idempotent_when_connected singleRoomPlan (by with_unfolding_all decide)⟩

-- ── Grid lemmas (for C1) ──────────────────────────────────────────

theorem getD_set_self {α : Type} (l : List α) (i : ℕ) (a d : α) (h : i < l.length) :
    (l.set i a).getD i d = a := by
  simp [List.getD_eq_getElem?_getD, List.getElem?_set_self h]

theorem getD_set_ne {α : Type} (l : List α) (i j : ℕ) (a d : α) (h : i ≠ j) :
    (l.set i a).getD j d = l.getD j d := by
  simp [List.getD_eq_getElem?_getD, List.getElem?_set_ne h]

theorem getD_set_out {α : Type} (l : List α) (i : ℕ) (a d : α) (h : ¬ i < l.length) :
    (l.set i a).getD i d = l.getD i d := by
  have h1 : (l.set i a)[i]? = none := by
    rw [List.getElem?_eq_none_iff]
    simpa using Nat.le_of_not_lt h
  have h2 : l[i]? = none := by
    rw [List.getElem?_eq_none_iff]
    exact Nat.le_of_not_lt h
  simp [List.getD_eq_getElem?_getD, h1, h2]

theorem gridMark_length (g : OccupancyGrid) (r c : ℕ) : (gridMark g r c).length = g.length := by
  unfold gridMark
  exact List.length_set g _ _

theorem gridMark_rowlen (g : OccupancyGrid) (r c i : ℕ) :
    ((gridMark g r c).getD i []).length = (g.getD i []).length := by
  unfold gridMark
  by_cases h : r = i
  · subst h
    by_cases hlt : r < g.length
    · rw [getD_set_self _ _ _ _ hlt]
      exact List.length_set _ _ _
    · rw [getD_set_out _ _ _ _ hlt]
  · rw [getD_set_ne _ _ _ _ _ h]

theorem gridMark_mono {g : OccupancyGrid} {row col : ℕ}
    (h : gridCell g row col = true) (r c : ℕ) : gridCell (gridMark g r c) row col = true := by
  unfold gridCell gridMark at *
  by_cases hr : r = row
  · subst hr
    by_cases hlt : r < g.length
    · rw [getD_set_self _ _ _ _ hlt]
      by_cases hc : c = col
      · subst hc
        by_cases hclt : c < (g.getD r []).length
        · rw [getD_set_self _ _ _ _ hclt]
        · rw [getD_set_out _ _ _ _ hclt]
          exact h
      · rw [getD_set_ne _ _ _ _ _ hc]
        exact h
    · rw [getD_set_out _ _ _ _ hlt]
      exact h
  · rw [getD_set_ne _ _ _ _ _ hr]
    exact h

theorem gridMark_sets {g : OccupancyGrid} {r c : ℕ} (h1 : r < g.length)
    (h2 : c < (g.getD r []).length) : gridCell (gridMark g r c) r c = true := by
  unfold gridCell gridMark
  rw [getD_set_self _ _ _ _ h1, getD_set_self _ _ _ _ h2]

theorem foldl_mark_inner_length (cols : List ℕ) (row : ℕ) (g : OccupancyGrid) :
    (cols.foldl (fun g2 col => gridMark g2 row col) g).length = g.length := by
  induction cols generalizing g with
  | nil => rfl
  | cons c cs ih => rw [List.foldl_cons, ih, gridMark_length]

theorem foldl_mark_inner_rowlen (cols : List ℕ) (row : ℕ) (g : OccupancyGrid) (i : ℕ) :
    ((cols.foldl (fun g2 col => gridMark g2 row col) g).getD i []).length =
      ((g.getD i []).length) := by
  induction cols generalizing g with
  | nil => rfl
  | cons c cs ih => rw [List.foldl_cons, ih, gridMark_rowlen]

theorem foldl_mark_length (rows cols : List ℕ) (g : OccupancyGrid) :
    ((rows.foldl (fun g row => cols.foldl (fun g2 col => gridMark g2 row col) g) g).length) =
      g.length := by
  induction rows generalizing g with
  | nil => rfl
  | cons r rs ih => rw [List.foldl_cons, ih, foldl_mark_inner_length]

theorem foldl_mark_rowlen (rows cols : List ℕ) (g : OccupancyGrid) (i : ℕ) :
    (((rows.foldl (fun g row => cols.foldl (fun g2 col => gridMark g2 row col) g) g).getD
      i []).length) = ((g.getD i []).length) := by
  induction rows generalizing g with
  | nil => rfl
  | cons r rs ih => rw [List.foldl_cons, ih, foldl_mark_inner_rowlen]

theorem foldl_mark_inner_mono {g : OccupancyGrid} {row' col' : ℕ}
    (h : gridCell g row' col' = true) (cols : List ℕ) (row : ℕ) :
    gridCell (cols.foldl (fun g2 col => gridMark g2 row col) g) row' col' = true := by
  induction cols generalizing g with
  | nil => exact h
  | cons c cs ih => exact ih (gridMark_mono h row c)

theorem foldl_mark_mono {g : OccupancyGrid} {row' col' : ℕ}
    (h : gridCell g row' col' = true) (rows cols : List ℕ) :
    gridCell
      (rows.foldl (fun g row => cols.foldl (fun g2 col => gridMark g2 row col) g) g)
      row' col' = true := by
  induction rows generalizing g with
  | nil => exact h
  | cons r rs ih => exact ih (foldl_mark_inner_mono h cols r)

theorem foldl_mark_inner_sets (cols : List ℕ) (row : ℕ) (g : OccupancyGrid) (c : ℕ)
    (hc : c ∈ cols) (h1 : row < g.length) (h2 : c < (g.getD row []).length) :
    gridCell (cols.foldl (fun g2 col => gridMark g2 row col) g) row c = true := by
  induction cols generalizing g with
  | nil => cases hc
  | cons c0 cs ih =>
    rw [List.foldl_cons]
    rcases List.mem_cons.mp hc with rfl | hmem
    · exact foldl_mark_inner_mono (gridMark_sets h1 h2) cs row
    · exact ih (gridMark g row c0) hmem (by rw [gridMark_length]; exact h1)
        (by rw [gridMark_rowlen]; exact h2)

theorem foldl_mark_sets (rows cols : List ℕ) (g : OccupancyGrid) (r c : ℕ)
    (hr : r ∈ rows) (hc : c ∈ cols) (h1 : r < g.length) (h2 : c < (g.getD r []).length) :
    gridCell
      (rows.foldl (fun g row => cols.foldl (fun g2 col => gridMark g2 row col) g) g)
      r c = true := by
  induction rows generalizing g with
  | nil => cases hr
  | cons r0 rs ih =>
    rw [List.foldl_cons]
    rcases List.mem_cons.mp hr with rfl | hmem
    · exact foldl_mark_mono (foldl_mark_inner_sets cols r g c hc h1 h2) rs cols
    · exact ih _ hmem (by rw [foldl_mark_inner_length]; exact h1)
        (by rw [foldl_mark_inner_rowlen]; exact h2)

theorem markRect_length (grid : OccupancyGrid) (rect : Rect) (room : PlacedRoom) :
    (markRect grid rect room).length = grid.length := by
  unfold markRect
  dsimp only
  split
  · exact foldl_mark_length _ _ _
  · rfl

theorem markRect_rowlen (grid : OccupancyGrid) (rect : Rect) (room : PlacedRoom) (i : ℕ) :
    ((markRect grid rect room).getD i []).length = ((grid.getD i []).length) := by
  unfold markRect
  dsimp only
  split
  · exact foldl_mark_rowlen _ _ _ _
  · rfl

theorem markRect_mono {grid : OccupancyGrid} {row col : ℕ}
    (h : gridCell grid row col = true) (rect : Rect) (room : PlacedRoom) :
    gridCell (markRect grid rect room) row col = true := by
  unfold markRect
  dsimp only
  split
  · exact foldl_mark_mono h _ _
  · exact h

theorem markRect_covers (grid : OccupancyGrid) (rect : Rect) (room : PlacedRoom)
    (hdx : (room.x - rect.x).den = 1) (hdy : (room.y - rect.y).den = 1)
    (hx : 0 ≤ room.x - rect.x) (hy : 0 ≤ room.y - rect.y) (row col : ℕ)
    (hrow : row ∈ coveredIndices (room.y - rect.y).num.toNat room.depth)
    (hcol : col ∈ coveredIndices (room.x - rect.x).num.toNat room.width)
    (h1 : row < grid.length) (h2 : col < (grid.getD row []).length) :
    gridCell (markRect grid rect room) row col = true := by
  unfold markRect
  dsimp only
  rw [if_pos ⟨hdx, hdy, hx, hy⟩]
  exact foldl_mark_sets _ _ _ _ _ hrow hcol h1 h2

theorem coveredIndices_subset {lo : ℕ} {len : ℚ} {c : ℕ} (hc : c ∈ coveredIndices lo len) :
    lo ≤ c ∧ ((c : ℚ) < lo + len) := by
  unfold coveredIndices at hc
  rw [List.mem_map] at hc
  obtain ⟨t, ht, rfl⟩ := hc
  rw [List.mem_range] at ht
  refine ⟨Nat.le_add_right lo t, ?_⟩
  have h1 : (t : ℤ) < ⌈len⌉ := Int.lt_toNat.mp ht
  have h2 : ((t : ℚ)) + 1 ≤ ((⌈len⌉ : ℤ) : ℚ) := by exact_mod_cast Int.add_one_le_iff.mpr h1
  have h3 : ((⌈len⌉ : ℤ) : ℚ) < len + 1 := Int.ceil_lt_add_one len
  push_cast
  linarith

theorem coveredIndices_mem_of {lo : ℕ} {len : ℚ} {c : ℕ} (h1 : lo ≤ c)
    (h2 : (c : ℚ) < lo + len) : c ∈ coveredIndices lo len := by
  unfold coveredIndices
  rw [List.mem_map]
  refine ⟨c - lo, ?_, by omega⟩
  rw [List.mem_range, Int.lt_toNat]
  rw [Int.lt_ceil]
  push_cast
  have : ((c - lo : ℕ) : ℚ) = (c : ℚ) - lo := by
    push_cast [h1]
    ring
  rw [this]
  linarith

theorem rat_toNat_cast (q : ℚ) (hden : q.den = 1) (hnn : 0 ≤ q) :
    ((q.num.toNat : ℚ)) = q := by
  have h1 : ((q.num : ℚ)) = q := by
    have hq := Rat.num_div_den q
    rw [hden] at hq
    simpa using hq
  have h2 : 0 ≤ q.num := Rat.num_nonneg.mpr hnn
  rw [show ((q.num.toNat : ℚ)) = (((q.num.toNat : ℤ)) : ℚ) from by push_cast; ring,
    Int.toNat_of_nonneg h2, h1]

theorem isRectFree_spec {grid : OccupancyGrid} {rect : Rect} {x y w d : ℚ}
    (h : isRectFree grid rect x y w d = true) :
    0 ≤ x - rect.x ∧ 0 ≤ y - rect.y ∧
    x - rect.x + w ≤ ((grid.headD []).length : ℚ) ∧
    y - rect.y + d ≤ (grid.length : ℚ) ∧
    (x - rect.x).den = 1 ∧ (y - rect.y).den = 1 ∧
    ∀ row ∈ coveredIndices (y - rect.y).num.toNat d,
      ∀ col ∈ coveredIndices (x - rect.x).num.toNat w,
        gridCell grid row col = false := by
  unfold isRectFree at h
  dsimp only at h
  by_cases h1 : x - rect.x < 0 ∨ y - rect.y < 0
  · rw [if_pos h1] at h
    cases h
  · rw [if_neg h1] at h
    by_cases h2 : x - rect.x + w > (((grid.headD []).length : ℚ)) ∨
        y - rect.y + d > ((grid.length : ℚ))
    · rw [if_pos h2] at h
      cases h
    · rw [if_neg h2] at h
      by_cases h3 : (x - rect.x).den = 1 ∧ (y - rect.y).den = 1
      · rw [if_pos h3] at h
        push_neg at h1 h2
        refine ⟨h1.1, h1.2, h2.1, h2.2, h3.1, h3.2, ?_⟩
        intro row hrow col hcol
        rw [List.all_eq_true] at h
        have h' := h row hrow
        rw [List.all_eq_true] at h'
        have h'' := h' col hcol
        simpa using h''
      · rw [if_neg h3] at h
        cases h

theorem covered_overlap (ia n : ℕ) (wa w : ℚ) (hwa : 0 < wa) (hw : 0 < w)
    (h1 : (n : ℚ) < ia + wa) (h2 : (ia : ℚ) < n + w) :
    ∃ col : ℕ, col ∈ coveredIndices ia wa ∧ col ∈ coveredIndices n w := by
  refine ⟨max ia n, coveredIndices_mem_of (le_max_left _ _) ?_,
    coveredIndices_mem_of (le_max_right _ _) ?_⟩
  · rcases max_cases ia n with ⟨hmax, _⟩ | ⟨hmax, _⟩ <;> rw [hmax] <;> linarith
  · rcases max_cases ia n with ⟨hmax, _⟩ | ⟨hmax, _⟩ <;> rw [hmax] <;> linarith

theorem fresh_disjoint {rect : Rect} {grid : OccupancyGrid} {a : PlacedRoom}
    {x y w d : ℚ} (hma : cellsMarked rect grid a)
    (hfree : ∀ row ∈ coveredIndices (y - rect.y).num.toNat d,
      ∀ col ∈ coveredIndices (x - rect.x).num.toNat w, gridCell grid row col = false)
    (hxnn : 0 ≤ x - rect.x) (hynn : 0 ≤ y - rect.y)
    (hdx : (x - rect.x).den = 1) (hdy : (y - rect.y).den = 1) :
    a.width ≤ 0 ∨ a.depth ≤ 0 ∨ w ≤ 0 ∨ d ≤ 0 ∨
    a.x + a.width ≤ x ∨ x + w ≤ a.x ∨ a.y + a.depth ≤ y ∨ y + d ≤ a.y := by
  by_contra hcon
  push_neg at hcon
  obtain ⟨haw, had, hw, hd, h1, h2, h3, h4⟩ := hcon
  obtain ⟨hax, hay, hdax, hday, hcells⟩ := hma
  have hcx : ((x - rect.x).num.toNat : ℚ) = x - rect.x := rat_toNat_cast _ hdx hxnn
  have hcax : ((a.x - rect.x).num.toNat : ℚ) = a.x - rect.x := rat_toNat_cast _ hdax hax
  have hcy : ((y - rect.y).num.toNat : ℚ) = y - rect.y := rat_toNat_cast _ hdy hynn
  have hcay : ((a.y - rect.y).num.toNat : ℚ) = a.y - rect.y := rat_toNat_cast _ hday hay
  have hx1 : (((x - rect.x).num.toNat : ℕ) : ℚ) <
      ((a.x - rect.x).num.toNat : ℚ) + a.width := by
    rw [hcx, hcax]
    linarith
  have hx2 : (((a.x - rect.x).num.toNat : ℕ) : ℚ) < ((x - rect.x).num.toNat : ℚ) + w := by
    rw [hcx, hcax]
    linarith
  have hy1 : (((y - rect.y).num.toNat : ℕ) : ℚ) <
      ((a.y - rect.y).num.toNat : ℚ) + a.depth := by
    rw [hcy, hcay]
    linarith
  have hy2 : (((a.y - rect.y).num.toNat : ℕ) : ℚ) < ((y - rect.y).num.toNat : ℚ) + d := by
    rw [hcy, hcay]
    linarith
  obtain ⟨col, hca, hcb⟩ := covered_overlap (a.x - rect.x).num.toNat (x - rect.x).num.toNat
    a.width w haw hw hx1 hx2
  obtain ⟨row, hra, hrb⟩ := covered_overlap (a.y - rect.y).num.toNat (y - rect.y).num.toNat
    a.depth d had hd hy1 hy2
  have hmark := hcells row hra col hca
  have hfree' := hfree row hrb col hcb
  rw [hmark] at hfree'
  cases hfree'

theorem bestPlacement_spec (room : ZonedRoom) (rect : Rect) (grid : OccupancyGrid)
    (placedRooms : List PlacedRoom) (zoned : ZonedPlan) (widthBias : ℚ)
    (best : CandidatePlacement)
    (h : bestPlacementForRoom room rect grid placedRooms zoned widthBias = some best) :
    isRectFree grid rect best.x best.y best.width best.depth = true ∧
      best.floor = room.floor := by
  unfold bestPlacementForRoom at h
  refine List.foldlRecOn _ _ none
    (motive := fun (o : Option CandidatePlacement) => ∀ b, o = some b →
      isRectFree grid rect b.x b.y b.width b.depth = true ∧ b.floor = room.floor)
    (fun b hb => Option.noConfusion hb) ?_ best h
  intro o ho dims hdims
  intro b hb
  by_cases hskip : dims.width > rect.width ∨ dims.depth > rect.depth
  · rw [if_pos hskip] at hb
    exact ho b hb
  · rw [if_neg hskip] at hb
    refine List.foldlRecOn _ _ o
      (motive := fun (o : Option CandidatePlacement) => ∀ b, o = some b →
        isRectFree grid rect b.x b.y b.width b.depth = true ∧ b.floor = room.floor)
      ho ?_ b hb
    intro o2 ho2 j hj
    refine List.foldlRecOn _ _ o2
      (motive := fun (o : Option CandidatePlacement) => ∀ b, o = some b →
        isRectFree grid rect b.x b.y b.width b.depth = true ∧ b.floor = room.floor)
      ho2 ?_
    intro o3 ho3 i hi
    intro b3 hb3
    dsimp only at hb3
    by_cases hfree : isRectFree grid rect (rect.x + i) (rect.y + j)
        dims.width dims.depth = true
    · rw [if_neg (fun hc => hc hfree)] at hb3
      rcases o3 with _ | bprev
      · cases hb3
        exact ⟨hfree, rfl⟩
      · dsimp only at hb3
        by_cases hsc : scoreCandidate room (rect.x + i) (rect.y + j) dims.width dims.depth
            room.floor rect placedRooms zoned > bprev.score
        · rw [if_pos hsc] at hb3
          cases hb3
          exact ⟨hfree, rfl⟩
        · rw [if_neg hsc] at hb3
          cases hb3
          exact ho3 b3 rfl
    · rw [if_pos hfree] at hb3
      exact ho3 b3 hb3

theorem headD_eq_getD_zero {α : Type} (l : List α) (d : α) : l.headD d = l.getD 0 d := by
  rcases l with _ | ⟨a, l⟩ <;> rfl

theorem getD_out {α : Type} (l : List α) (i : ℕ) (d : α) (h : l.length ≤ i) :
    l.getD i d = d := by
  rw [List.getD_eq_getElem?_getD, List.getElem?_eq_none_iff.mpr h]
  rfl

theorem inside_of_free {rect : Rect} {grid : OccupancyGrid} {x y w d : ℚ}
    (hfree : isRectFree grid rect x y w d = true)
    (hw : 0 ≤ rect.width) (hd : 0 ≤ rect.depth)
    (hgl : (grid.length : ℚ) ≤ rect.depth)
    (hrow : ∃ W : ℕ, (∀ i : ℕ, i < grid.length → (grid.getD i []).length = W) ∧
      ((W : ℚ) ≤ rect.width)) :
    rect.x ≤ x ∧ x + w ≤ rect.x + rect.width ∧ rect.y ≤ y ∧
      y + d ≤ rect.y + rect.depth := by
  obtain ⟨hx, hy, hxw, hyd, _, _, _⟩ := isRectFree_spec hfree
  obtain ⟨W, hWall, hWle⟩ := hrow
  have hhead : ((grid.headD []).length : ℚ) ≤ rect.width := by
    by_cases hlen : 0 < grid.length
    · rw [headD_eq_getD_zero, hWall 0 hlen]
      exact hWle
    · have hnil : grid.length = 0 := by omega
      have : (grid.headD []).length = 0 := by
        rw [headD_eq_getD_zero, getD_out grid 0 [] (by omega)]
        rfl
      rw [this]
      simpa using hw
  refine ⟨by linarith, by linarith, by linarith, by linarith⟩

theorem free_cell_bounds {rect : Rect} {grid : OccupancyGrid} {x y w d : ℚ} {W : ℕ}
    (hfree : isRectFree grid rect x y w d = true)
    (hWall : ∀ i : ℕ, i < grid.length → (grid.getD i []).length = W)
    {row col : ℕ}
    (hrow : row ∈ coveredIndices (y - rect.y).num.toNat d)
    (hcol : col ∈ coveredIndices (x - rect.x).num.toNat w) :
    row < grid.length ∧ col < (grid.getD row []).length := by
  obtain ⟨hx, hy, hxw, hyd, hdx, hdy, _⟩ := isRectFree_spec hfree
  obtain ⟨hrlo, hrhi⟩ := coveredIndices_subset hrow
  obtain ⟨hclo, hchi⟩ := coveredIndices_subset hcol
  have hcy : ((y - rect.y).num.toNat : ℚ) = y - rect.y := rat_toNat_cast _ hdy hy
  have hcx : ((x - rect.x).num.toNat : ℚ) = x - rect.x := rat_toNat_cast _ hdx hx
  have hrQ : (row : ℚ) < (grid.length : ℚ) := by
    rw [hcy] at hrhi
    linarith
  have hrn : row < grid.length := by exact_mod_cast hrQ
  refine ⟨hrn, ?_⟩
  have hglpos : 0 < grid.length := by omega
  have hhead : (grid.headD []).length = W := by
    rw [headD_eq_getD_zero]
    exact hWall 0 hglpos
  have hcQ : (col : ℚ) < ((grid.headD []).length : ℚ) := by
    rw [hcx] at hchi
    linarith
  rw [hhead] at hcQ
  have hcn : col < W := by exact_mod_cast hcQ
  rw [hWall row hrn]
  exact hcn

theorem gridInvOk_extend_other {rect : Rect} {grid : OccupancyGrid}
    {rooms : List PlacedRoom} {f : ℕ} (h : gridInvOk rect grid rooms f)
    {placed : PlacedRoom} (hne : placed.floor ≠ f) :
    gridInvOk rect grid (rooms ++ [placed]) f := by
  obtain ⟨h1, h2, h3, h4, h5⟩ := h
  refine ⟨h1, h2, h3, h4, ?_⟩
  intro r hr hf
  rcases List.mem_append.mp hr with hr | hr
  · exact h5 r hr hf
  · rw [List.mem_singleton] at hr
    subst hr
    exact absurd hf hne

theorem place_branch_inv {rect : Rect} {grid : OccupancyGrid} {rooms : List PlacedRoom}
    {f : ℕ} (hinv : gridInvOk rect grid rooms f) {placed : PlacedRoom}
    (hfree : isRectFree grid rect placed.x placed.y placed.width placed.depth = true)
    (hpf : placed.floor = f) :
    gridInvOk rect (markRect grid rect placed) (rooms ++ [placed]) f ∧
      ∀ a ∈ rooms, a.floor = placed.floor → interiorsDisjoint a placed := by
  obtain ⟨hrw, hrd, hgl, ⟨W, hWall, hWle⟩, hrooms⟩ := hinv
  obtain ⟨hx0, hy0, hxw, hyd, hdx, hdy, hfreecells⟩ := isRectFree_spec hfree
  constructor
  · refine ⟨hrw, hrd, ?_, ⟨W, ?_, hWle⟩, ?_⟩
    · rw [markRect_length]
      exact hgl
    · intro i hi
      rw [markRect_rowlen]
      rw [markRect_length] at hi
      exact hWall i hi
    · intro r hr hfl
      rcases List.mem_append.mp hr with hr | hr
      · obtain ⟨hin, c1, c2, c3, c4, c5⟩ := hrooms r hr hfl
        exact ⟨hin, c1, c2, c3, c4,
          fun row hrow col hcol => markRect_mono (c5 row hrow col hcol) _ _⟩
      · rw [List.mem_singleton] at hr
        subst hr
        constructor
        · exact inside_of_free hfree hrw hrd hgl ⟨W, hWall, hWle⟩
        · refine ⟨hx0, hy0, hdx, hdy, ?_⟩
          intro row hrow col hcol
          obtain ⟨hb1, hb2⟩ := free_cell_bounds hfree hWall hrow hcol
          exact markRect_covers _ _ _ hdx hdy hx0 hy0 row col hrow hcol hb1 hb2
  · intro a ha hafl
    obtain ⟨_, hcm⟩ := hrooms a ha (hafl.trans hpf)
    exact fresh_disjoint hcm hfreecells hx0 hy0 hdx hdy

theorem placeRoomStep_inv (zoned : ZonedPlan) (envelope : BuildingEnvelope) (widthBias : ℚ)
    (st : PlaceState) (room : ZonedRoom) (hinv : placeInv envelope st) :
    placeInv envelope (placeRoomStep zoned envelope widthBias st room) := by
  obtain ⟨hinv1, hinv2, hpw⟩ := hinv
  unfold placeRoomStep
  rcases hfr : envelope.floorRect room.floor with _ | fr
  · dsimp only
    exact ⟨hinv1, hinv2, hpw⟩
  · by_cases hf : room.floor = 1
    · rw [if_pos hf]
      dsimp only
      rcases hb : bestPlacementForRoom room fr st.grids.one st.placedRooms zoned widthBias
        with _ | best
      · dsimp only
        exact ⟨hinv1, hinv2, hpw⟩
      · dsimp only
        rw [if_pos hf]
        obtain ⟨hfree, hbfl⟩ := bestPlacement_spec room fr st.grids.one st.placedRooms zoned
          widthBias best hb
        have hfr1 : fr = envelope.floorRects.one := by
          rw [hf] at hfr
          unfold BuildingEnvelope.floorRect at hfr
          simp at hfr
          exact hfr.symm
        subst hfr1
        have hplaced := @place_branch_inv envelope.floorRects.one st.grids.one st.placedRooms 1
          hinv1 (mkPlaced room envelope.floorRects.one best) hfree (hbfl.trans hf)
        have hne2 : best.floor ≠ 2 := by rw [hbfl, hf]; decide
        refine ⟨?_, ?_, ?_⟩
        · exact hplaced.1
        · rcases hre2 : envelope.floorRects.two with _ | rect₂ <;>
            rcases hgx2 : st.grids.two with _ | grid₂
          · exact trivial
          · rw [hre2, hgx2] at hinv2
            exact (hinv2 : False).elim
          · rw [hre2, hgx2] at hinv2
            exact (hinv2 : False).elim
          · rw [hre2, hgx2] at hinv2
            exact gridInvOk_extend_other
              (hinv2 : gridInvOk rect₂ grid₂ st.placedRooms 2) hne2
        · rw [List.pairwise_append]
          refine ⟨hpw, List.pairwise_singleton _ _, ?_⟩
          intro a ha b hbb
          rw [List.mem_singleton] at hbb
          subst hbb
          exact hplaced.2 a ha
    · rw [if_neg hf]
      rcases hg2 : st.grids.two with _ | g2
      · dsimp only
        refine ⟨hinv1, ?_, hpw⟩
        dsimp only
        rw [hg2] at hinv2
        rw [hg2]
        exact hinv2
      · dsimp only
        have hf2 : room.floor = 2 ∧ envelope.floorRects.two = some fr := by
          unfold BuildingEnvelope.floorRect at hfr
          rw [if_neg hf] at hfr
          by_cases h2 : room.floor = 2
          · rw [if_pos h2] at hfr
            exact ⟨h2, hfr⟩
          · rw [if_neg h2] at hfr
            cases hfr
        obtain ⟨hfl2, hrt2⟩ := hf2
        rw [hrt2, hg2] at hinv2
        have hinv2g : gridInvOk fr g2 st.placedRooms 2 := hinv2
        rcases hb : bestPlacementForRoom room fr g2 st.placedRooms zoned widthBias
          with _ | best
        · dsimp only
          refine ⟨hinv1, ?_, hpw⟩
          dsimp only
          rw [hrt2, hg2]
          exact hinv2
        · dsimp only
          rw [if_neg hf]
          obtain ⟨hfree, hbfl⟩ := bestPlacement_spec room fr g2 st.placedRooms zoned
            widthBias best hb
          have hplaced := @place_branch_inv fr g2 st.placedRooms 2
            hinv2g (mkPlaced room fr best) hfree (hbfl.trans hfl2)
          have hne1 : best.floor ≠ 1 := by rw [hbfl, hfl2]; decide
          refine ⟨?_, ?_, ?_⟩
          · exact gridInvOk_extend_other hinv1 hne1
          · rw [hrt2]
            exact hplaced.1
          · rw [List.pairwise_append]
            refine ⟨hpw, List.pairwise_singleton _ _, ?_⟩
            intro a ha b hbb
            rw [List.mem_singleton] at hbb
            subst hbb
            exact hplaced.2 a ha

theorem replicate_getD {α : Type} (n i : ℕ) (a d : α) (h : i < n) :
    (List.replicate n a).getD i d = a := by
  rw [List.getD_eq_getElem?_getD, List.getElem?_replicate, if_pos h]
  rfl

theorem floorLen_le (q : ℚ) (h : 0 ≤ q) : ((floorLen q : ℕ) : ℚ) ≤ q := by
  unfold floorLen
  have h1 : ((⌊q⌋.toNat : ℤ) : ℚ) ≤ q := by
    rw [Int.toNat_of_nonneg (Int.floor_nonneg.mpr h)]
    exact Int.floor_le q
  exact_mod_cast h1

theorem gridInvOk_init (rect : Rect) (f : ℕ) (hw : 0 ≤ rect.width) (hd : 0 ≤ rect.depth) :
    gridInvOk rect (createGrid (floorLen rect.width) (floorLen rect.depth)) [] f := by
  refine ⟨hw, hd, ?_, ⟨floorLen rect.width, ?_, ?_⟩, ?_⟩
  · unfold createGrid
    rw [List.length_replicate]
    exact floorLen_le rect.depth hd
  · intro i hi
    unfold createGrid at hi ⊢
    rw [List.length_replicate] at hi
    rw [replicate_getD _ _ _ _ hi, List.length_replicate]
  · exact floorLen_le rect.width hw
  · intro r hr
    exact absurd hr (List.not_mem_nil r)

theorem placeInv_init (envelope : BuildingEnvelope) (h : envelopeNonneg envelope) :
    placeInv envelope
      { grids := createFloorGrids envelope, placedRooms := [],
        unplacedRoomIds := [], warnings := [] } := by
  obtain ⟨hw1, hd1, h2⟩ := h
  refine ⟨gridInvOk_init _ _ hw1 hd1, ?_, List.Pairwise.nil⟩
  rcases hre : envelope.floorRects.two with _ | r₂
  · dsimp only [createFloorGrids]
    rw [hre]
    exact trivial
  · dsimp only [createFloorGrids]
    rw [hre]
    obtain ⟨hw2, hd2⟩ := h2 r₂ (Option.mem_def.mpr hre)
    exact gridInvOk_init r₂ 2 hw2 hd2

theorem placeFold_inv (zoned : ZonedPlan) (envelope : BuildingEnvelope) (widthBias : ℚ)
    (rooms : List ZonedRoom) (st : PlaceState) (h : placeInv envelope st) :
    placeInv envelope (rooms.foldl (placeRoomStep zoned envelope widthBias) st) := by
  induction rooms generalizing st with
  | nil => exact h
  | cons r rs ih =>
    rw [List.foldl_cons]
    exact ih _ (placeRoomStep_inv zoned envelope widthBias st r h)

theorem map_proj_set {α : Type} (f : PlacedRoom → α) (rs : List PlacedRoom) (i : ℕ)
    (a b : PlacedRoom) (hget : rs.get? i = some a) (hfb : f b = f a) :
    (rs.set i b).map f = rs.map f := by
  rw [List.map_set]
  have hm : (rs.map f).get? i = some (f b) := by
    rw [List.get?_map, hget, hfb]
    rfl
  exact set_same _ _ _ hm

theorem populateAdjacency_geom (rooms : List PlacedRoom) :
    (populateAdjacency rooms).map geomOf = rooms.map geomOf := by
  unfold populateAdjacency
  have hcl : ((rooms.map fun r => { r with adjacentRoomIds := ([] : List String) }).map
      geomOf) = rooms.map geomOf :=
    map_proj_eq rooms _ _ _ fun r hr => rfl
  refine List.foldlRecOn _ _ _
    (motive := fun (rs : List PlacedRoom) => rs.map geomOf = rooms.map geomOf) hcl ?_
  intro rs hC ij hij
  dsimp only
  rcases h1 : rs.get? ij.1 with _ | a
  · dsimp only
    exact hC
  · rcases h2 : rs.get? ij.2 with _ | b
    · dsimp only
      exact hC
    · dsimp only
      by_cases hadj : areAdjacent a b = true
      · rw [if_pos hadj]
        rcases h3 : (rs.set ij.1
            { a with adjacentRoomIds := a.adjacentRoomIds ++ [b.id] }).get? ij.2 with _ | b1
        · dsimp only
          rw [map_proj_set geomOf rs ij.1 a
            { a with adjacentRoomIds := a.adjacentRoomIds ++ [b.id] } h1 rfl]
          exact hC
        · dsimp only
          rw [map_proj_set geomOf _ ij.2 b1
              { b1 with adjacentRoomIds := b1.adjacentRoomIds ++ [a.id] } h3 rfl,
            map_proj_set geomOf rs ij.1 a
              { a with adjacentRoomIds := a.adjacentRoomIds ++ [b.id] } h1 rfl]
          exact hC
      · rw [if_neg hadj]
        exact hC

theorem placeInv_insideItsFloor (envelope : BuildingEnvelope) (st : PlaceState)
    (hinv : placeInv envelope st) :
    ∀ r ∈ st.placedRooms, insideItsFloor envelope r := by
  obtain ⟨hg1, hg2, hpw⟩ := hinv
  intro r hr rect hrect
  unfold BuildingEnvelope.floorRect at hrect
  by_cases h1 : r.floor = 1
  · rw [if_pos h1] at hrect
    rw [Option.mem_def] at hrect
    cases hrect
    exact (hg1.2.2.2.2 r hr h1).1
  · rw [if_neg h1] at hrect
    by_cases h2 : r.floor = 2
    · rw [if_pos h2] at hrect
      rw [Option.mem_def] at hrect
      rw [hrect] at hg2
      rcases hgx : st.grids.two with _ | g2
      · rw [hgx] at hg2
        exact (hg2 : False).elim
      · rw [hgx] at hg2
        exact ((hg2 : gridInvOk rect g2 st.placedRooms 2).2.2.2.2 r hr h2).1
    · rw [if_neg h2] at hrect
      rw [Option.mem_def] at hrect
      cases hrect

theorem geometry_transfer (envelope : BuildingEnvelope) (rooms : List PlacedRoom)
    (hin : ∀ r ∈ rooms, insideItsFloor envelope r)
    (hpw : rooms.Pairwise fun a b => a.floor = b.floor → interiorsDisjoint a b) :
    (∀ r ∈ populateAdjacency rooms, insideItsFloor envelope r) ∧
    (populateAdjacency rooms).Pairwise
      fun a b => a.floor = b.floor → interiorsDisjoint a b := by
  constructor
  · intro room hm
    have h1 : geomOf room ∈ (populateAdjacency rooms).map geomOf :=
      List.mem_map_of_mem geomOf hm
    rw [populateAdjacency_geom] at h1
    rcases List.mem_map.mp h1 with ⟨r, hr, hge⟩
    have h2 : geomInside envelope (geomOf r) := hin r hr
    rw [hge] at h2
    exact h2
  · have h1 : (rooms.map geomOf).Pairwise geomPairOk := List.pairwise_map.mpr hpw
    rw [← populateAdjacency_geom] at h1
    exact List.pairwise_map.mp h1

/-- C1 (amended): for every zoned plan, envelope whose floor rectangles have
nonnegative dimensions, and placement options, the plan produced by
`placeRooms` itself satisfies the geometric invariant: every placed room lies
inside the footprint rectangle of its floor, and the interiors of any two
rooms on the same floor are disjoint. (The original claim, which extends this
to the output of `ensureCirculation`, is refuted by `c1_counterexample`:
auto-inserted hallways can escape the floor rectangle and overlap rooms.) -/
theorem c1_amended_placement_geometry (zoned : ZonedPlan) (envelope : BuildingEnvelope)
    (options : PlacementOptions) (h : envelopeNonneg envelope) :
    planGeometryOk (placeRooms zoned envelope options) := by
  have hinv := placeFold_inv zoned envelope (options.widthBias.getD 0)
    (orderedRooms zoned.rooms options.placementOrder)
    { grids := createFloorGrids envelope, placedRooms := [], unplacedRoomIds := [],
      warnings := [] } (placeInv_init envelope h)
  obtain ⟨hall, hpw⟩ := geometry_transfer envelope _
    (placeInv_insideItsFloor envelope _ hinv) hinv.2.2
  exact ⟨hall, hpw⟩

set_option maxRecDepth 100000 in
/-- C1 counterexample: on a 11×4-ft single-floor envelope with a bedroom and
a dining room, `placeRooms` itself satisfies the geometric invariant, but
`ensureCirculation` inserts an auto-hallway that leaves the floor rectangle
(so the original claim, which covers the circulation stage, fails). -/
theorem c1_counterexample :
    planGeometryOk (placeRooms zonedTwoRooms envNarrow {}) ∧
    ¬ planGeometryOk (ensureCirculation (placeRooms zonedTwoRooms envNarrow {})) ∧
    (∃ room ∈ (ensureCirculation (placeRooms zonedTwoRooms envNarrow {})).rooms,
      room.type = RoomType.hallway ∧
      ¬ insideItsFloor (ensureCirculation (placeRooms zonedTwoRooms envNarrow {})).envelope
        room) := by
  with_unfolding_all decide

set_option maxRecDepth 100000 in
theorem c1_witness :
    envelopeNonneg envNarrow ∧ planGeometryOk (placeRooms zonedTwoRooms envNarrow {}) :=
  ⟨by with_unfolding_all decide,
   c1_amended_placement_geometry zonedTwoRooms envNarrow {} (by with_unfolding_all decide)⟩

end HomeDesign
